import Mathlib

/-!
Verification of the MORAS two-stage assembler (parser.py, macros.py, utils.py).

Code blocks that the Python source builds as newline-joined strings are
modelled as `List String` of their newline-split pieces: a template such as
`f"@{loc}\n{derefs}\nM=D"` becomes `["@" ++ loc] ++ derefPieces k ++ ["M=D"]`.
An empty dereference chain contributes the piece `""` exactly where the
Python string contains an empty line, and a template that concatenates two
fragments without a newline (`f"{derefs}D=M"`) is modelled with `fuse`.
Machine integers are `Int` with explicit wrapping where the source wraps.
Errors (ParserError and Python-level crashes such as IndexError) are
modelled with `Except`.
-/

namespace MorasAsm

/-- utils.ParserError and Python-level exceptions escaping a macro. -/
inductive MErr where
  | perr (src msg : String) (lineno : Nat)
  | pycrash (kind : String)
deriving DecidableEq, Repr

/-- Result of utils.convert_constant: None, OutOfBoundsConstantError,
a parsed value, or an IndexError (reading `constant[0]` of `""`). -/
inductive ConstRes where
  | notNum
  | oob
  | val (n : Int)
  | crash
deriving DecidableEq, Repr

def digitsToNat (s : String) : Nat :=
  s.data.foldl (fun a c => a * 10 + (c.toNat - 48)) 0

/-- utils.convert_constant (utils.py 46-54). -/
def convert_constant (s : String) : ConstRes :=
  if ¬ s.data.all (fun c => c.toNat < 128) then .notNum
  else if s.data.all Char.isDigit ∧ s ≠ "" then
    let n : Int := (digitsToNat s : Int)
    if n > 32767 ∨ n < -32768 then .oob else .val n
  else if s = "" then .crash  -- `constant[0]` raises IndexError
  else if s.data.head? = some '-' ∧ (s.data.drop 1).all Char.isDigit ∧
          s.data.drop 1 ≠ [] then
    let n : Int := -(digitsToNat (String.mk (s.data.drop 1)) : Int)
    if n > 32767 ∨ n < -32768 then .oob else .val n
  else .notNum

/-- utils.convert_address (utils.py 56-63): a token of shape `*^k @ loc`
with nonempty loc.  Returns the location and the star count (the number of
`A=M` dereference instructions). -/
def convert_address (s : String) : Option (String × Nat) :=
  let stars := (s.data.takeWhile (fun c => c = '*')).length
  let rest := s.data.drop stars
  match rest with
  | '@' :: loc =>
    if loc ≠ [] then some (String.mk loc, stars) else none
  | _ => none

def REGDSTS : List String := ["M", "D", "MD", "A", "AM", "AD", "AMD"]
def REGARGS : List String := ["M", "D", "A"]

/-- utils.Destination: a register subset or an address. -/
inductive Destination where
  | registers (r : String)
  | addr (location : String) (stars : Nat)
deriving DecidableEq, Repr

/-- utils.Destination.__init__ (utils.py 82-93). -/
def Destination.parse (dst : String) : Except Unit Destination :=
  if dst ∈ REGDSTS then .ok (.registers dst)
  else match convert_address dst with
    | some (loc, k) => .ok (.addr loc k)
    | none => .error ()  -- BadDestination

def Destination.is_register : Destination → Bool
  | .registers _ => true
  | .addr _ _ => false

def Destination.is_address : Destination → Bool
  | .registers _ => false
  | .addr _ _ => true

def Destination.registers_field : Destination → String
  | .registers r => r
  | .addr _ _ => ""

def Destination.location : Destination → String
  | .registers _ => ""
  | .addr l _ => l

def Destination.stars : Destination → Nat
  | .registers _ => 0
  | .addr _ k => k

/-- The newline-split pieces of utils `dereferences` ( `'\n'.join(['A=M']*k)` ):
the empty chain is the single empty piece, mirroring the empty string. -/
def derefPieces (k : Nat) : List String :=
  if k = 0 then [""] else List.replicate k "A=M"

/-- utils.Destination.__repr__ (utils.py 95-101). -/
def Destination.repr : Destination → String
  | .registers r => r
  | .addr l k => String.mk (List.replicate k '*') ++ "@" ++ l

/-- utils.Argument parse failures. -/
inductive AErr where
  | bad      -- BadArgument / BadDestination
  | oob      -- OutOfBoundsConstantError
  | crash    -- Python-level crash
deriving DecidableEq, Repr

/-- utils.Argument: register, address or signed 16-bit constant. -/
inductive Argument where
  | register (r : String)
  | addr (location : String) (stars : Nat)
  | constant (n : Int)
deriving DecidableEq, Repr

/-- utils.Argument.__init__ (utils.py 148-165): try register, then
address, then constant. -/
def Argument.parse (arg : String) : Except AErr Argument :=
  if arg ∈ REGARGS then .ok (.register arg)
  else match convert_address arg with
    | some (loc, k) => .ok (.addr loc k)
    | none =>
      match convert_constant arg with
      | .val n => .ok (.constant n)
      | .oob => .error .oob
      | .notNum => .error .bad
      | .crash => .error .crash

def Argument.is_register : Argument → Bool
  | .register _ => true
  | _ => false

def Argument.is_address : Argument → Bool
  | .addr _ _ => true
  | _ => false

def Argument.is_constant : Argument → Bool
  | .constant _ => true
  | _ => false

/-- utils.Argument.is_oneop (utils.py 140-146). -/
def Argument.is_oneop : Argument → Bool
  | .register _ => true
  | .constant n => n.natAbs ≤ 1
  | .addr _ _ => false

/-- utils.Argument.oneop (utils.py 187-193): the register name, or the
decimal rendering of the constant. -/
def Argument.oneop : Argument → String
  | .register r => r
  | .constant n => toString n
  | .addr _ _ => ""

def Argument.register_field : Argument → String
  | .register r => r
  | _ => ""

def Argument.location : Argument → String
  | .addr l _ => l
  | _ => ""

def Argument.stars : Argument → Nat
  | .addr _ k => k
  | _ => 0

def Argument.constant_field : Argument → Int
  | .constant n => n
  | _ => 0

/-- utils.Argument.__repr__ (utils.py 167-175). -/
def Argument.repr : Argument → String
  | .register r => r
  | .addr l k => String.mk (List.replicate k '*') ++ "@" ++ l
  | .constant n => toString n

/-- utils.clean (utils.py 214-216) on newline-split pieces: the regex pass
blanks any full line that is exactly `D=D`, `A=A` or `M=M`, and the
`\n+` collapse plus `strip('\n')` then drop every empty piece. -/
def clean (code : List String) : List String :=
  code.filter fun l => ¬ (l = "" ∨ l = "D=D" ∨ l = "A=A" ∨ l = "M=M")

/-- Append a fragment to the last piece of a block: models a Python
template that concatenates without an intervening newline. -/
def fuse : List String → List String → List String
  | [], ys => ys
  | [a], b :: bs => (a ++ b) :: bs
  | [a], [] => [a]
  | a :: as, ys => a :: fuse as ys

/-- Read `self.arguments[i]`; out of range is a Python IndexError. -/
def argGet (args : List String) (i : Nat) : Except MErr String :=
  match args.get? i with
  | some a => .ok a
  | none => .error (.pycrash "IndexError")

/-- Convert an `Argument.parse` failure into the ParserError a macro
raises, given the three messages of its `try/except` block. -/
def argErr (o : Nat) (badMsg oobMsg : String) : AErr → MErr
  | .bad => .perr "MCR" badMsg o
  | .oob => .perr "MCR" oobMsg o
  | .crash => .pycrash "IndexError"

def parseDst (s : String) (o : Nat) (badMsg : String) :
    Except MErr Destination :=
  match Destination.parse s with
  | .ok d => .ok d
  | .error _ => .error (.perr "MCR" badMsg o)

def parseArg (s : String) (o : Nat) (badMsg oobMsg : String) :
    Except MErr Argument :=
  match Argument.parse s with
  | .ok a => .ok a
  | .error e => .error (argErr o badMsg oobMsg e)

/-- macros.LD.run (macros.py 35-103). -/
def LD.run (arguments : List String) (p o : Nat) :
    Except MErr (List String) := do
  let _SRC ← argGet arguments 1
  let a0 ← argGet arguments 0
  let DST ← parseDst a0 o
    "[LD] Destinacija mora biti jedan ili više registara,ili adresa."
  let SRC ← parseArg _SRC o
    "[OR] Argument mora biti registar, konstanta, ili adresa."
    "[OR] Konstanta mora biti u [-32768, 32767]."
  if DST.is_register ∧ SRC.is_oneop then
    let r := DST.registers_field
    let v := SRC.oneop
    return clean [r ++ "=" ++ v]
  if DST.is_address ∧ SRC = .register "D" then
    let loc := DST.location
    return clean (["@" ++ loc] ++ derefPieces DST.stars ++ ["M=D"])
  let save_address := ["D=A", "@__aux", "AM=D"]
  let load_value :=
    if SRC.is_oneop then
      ["D=" ++ SRC.oneop]
    else if SRC.is_constant then
      let c := SRC.constant_field
      if c ≥ 0 then ["@" ++ toString c, "D=A"]
      else ["@" ++ toString (-1 - c), "D=!A"]
    else
      ["@" ++ SRC.location] ++ derefPieces SRC.stars ++ ["D=M"]
  let restore_address := ["@__aux", "A=M"]
  if DST.is_register then
    let set_destination := [DST.registers_field ++ "=D"]
    return clean (save_address ++ load_value ++ restore_address ++
                  set_destination)
  else
    let set_destination :=
      ["@" ++ DST.location] ++ derefPieces DST.stars ++ ["M=D"]
    return clean (save_address ++ load_value ++ set_destination ++
                  restore_address)

/-- Python `str.replace('?', r)` for the single-character placeholder
used by the simple-ops tables, implemented structurally on characters. -/
def replaceQ (s : String) (r : String) : String :=
  String.mk (s.data.flatMap (fun c => if c = '?' then r.data else [c]))

/-- Python `'M' in regs` on a register-subset string. -/
def regsHas (regs : String) (c : Char) : Bool := regs.data.contains c

/-- Two's-complement 16-bit wrap `((n + 32768) & 0xffff) - 32768` as used
by the constant-folding branches of macros.py. -/
def wrap16 (n : Int) : Int := (n + 32768) % 65536 - 32768

/-- Test whether a simple-ops key pair contains the register name `D`
(Python `'D' in simple_op`, tuple membership). -/
def pairHasD (q : String × String) : Bool := q.1 = "D" ∨ q.2 = "D"

/-- macros.ADD.SIMPLE_OPS (macros.py 109-135), values newline-split. -/
def ADD.SIMPLE_OPS : List ((String × String) × List String) :=
  [(("0", "0"), ["?=0"]), (("0", "1"), ["?=1"]), (("0", "-1"), ["?=-1"]),
   (("-1", "1"), ["?=0"]), (("1", "1"), ["D=1", "?=D+1"]),
   (("-1", "-1"), ["D=-1", "?=D-1"]),
   (("D", "-1"), ["?=D-1"]), (("A", "-1"), ["?=A-1"]),
   (("M", "-1"), ["?=M-1"]),
   (("D", "0"), ["?=D"]), (("A", "0"), ["?=A"]), (("M", "0"), ["?=M"]),
   (("D", "1"), ["?=D+1"]), (("A", "1"), ["?=A+1"]), (("M", "1"), ["?=M+1"]),
   (("A", "D"), ["?=A+D"]), (("M", "D"), ["?=M+D"]),
   (("A", "A"), ["D=A", "?=A+D"]), (("M", "M"), ["D=M", "?=D+M"]),
   (("A", "M"), ["D=A", "?=D+M"]),
   (("D", "D"), [""])]

/-- macros.ADD.DD_special_case (macros.py 137-145). -/
def ADD.DD_special_case (r : String) : List String :=
  if r = "A" then ["A=D", "A=A+D"]
  else if r = "D" then ["A=D", "D=A+D"]
  else if r = "M" then ["M=D", "M=M+D"]
  else if r = "AD" then ["A=D", "A=A+D", "D=A"]
  else if r = "MD" then ["M=D", "M=M+D", "D=M"]
  else if r = "AM" then ["M=D", "M=M+D", "A=M"]
  else ["M=D", "M=M+D", "AD=M"]

/-- The swap normalisation shared by ADD/SUB/MULT/DIV/POW: put the
one-op first when paired with a constant or address, and the constant
first when paired with an address. -/
def swapArgs (A1 A2 : Argument) : Bool :=
  (A2.is_oneop ∧ A1.is_constant) ∨ (A2.is_oneop ∧ A1.is_address) ∨
  (A2.is_constant ∧ A1.is_address)

/-- macros.ADD.run, general branch (macros.py 206-281): the part after the
simple-ops table has failed, operating on the parsed operands. -/
def ADD.general (DST : Destination) (A1 A2 : Argument) (_p _o : Nat) :
    Except MErr (List String) := do
  let (ARG1, ARG2) :=
    if swapArgs A1 A2 then (A2, A1) else (A1, A2)
  let arg1IsD := ARG1.is_register ∧ ARG1.register_field = "D"
  let preserve_A_with_M :=
    arg1IsD ∧ DST.is_register ∧ regsHas DST.registers_field 'M'
  let preserve_A := ¬ (arg1IsD ∧ ¬ preserve_A_with_M)
  let set_destination :=
    if DST.is_register then [DST.registers_field ++ "=D"]
    else ["@" ++ DST.location] ++ derefPieces DST.stars ++ ["M=D"]
  let compute_value ←
    if ARG1.is_oneop ∧ ARG2.is_constant then
      let c := ARG2.constant_field
      pure (if c > 0 then
              ["D=" ++ ARG1.oneop, "@" ++ toString c, "D=D+A"]
            else
              ["D=" ++ ARG1.oneop, "@" ++ toString (-1 - c), "A=!A", "D=D+A"])
    else if ARG1.is_oneop ∧ ARG2.is_address then
      pure (["D=" ++ ARG1.oneop, "@" ++ ARG2.location] ++
            derefPieces ARG2.stars ++ ["D=D+M"])
    else if ARG1.is_constant ∧ ARG2.is_address then
      -- source bug: plain (non-f) string, the names are emitted verbatim
      pure ["\x7bload_value1\x7d", "\x7bload_value2\x7d"]
    else if ARG1.is_constant ∧ ARG2.is_constant then
      let result := wrap16 (ARG1.constant_field + ARG2.constant_field)
      pure (if result ≥ 0 then ["@" ++ toString result, "D=A"]
            else ["@" ++ toString (-1 - result), "A=!A", "D=A"])
    else if ARG1.is_address ∧ ARG2.is_address then
      let load_value1 :=
        ["@" ++ ARG1.location] ++ fuse (derefPieces ARG1.stars) ["D=M"]
      let load_value2 :=
        ["@" ++ ARG2.location] ++ fuse (derefPieces ARG2.stars) ["D=D+M"]
      pure (load_value1 ++ load_value2)
    else
      throw (.pycrash "AssertionError")
  let restore_address := ["@__aux", "A=M"]
  if preserve_A_with_M then
    let save_address := ["M=D", "D=A", "@__aux", "AM=D", "D=M"]
    return clean (save_address ++ compute_value ++ restore_address ++
                  set_destination)
  else if preserve_A then
    let save_address := ["D=A", "@__aux", "M=D"]
    if DST.is_register then
      return clean (save_address ++ compute_value ++ restore_address ++
                    set_destination)
    else
      return clean (save_address ++ compute_value ++ set_destination ++
                    restore_address)
  else
    return clean (compute_value ++ set_destination)

/-- macros.ADD.run (macros.py 147-281). -/
def ADD.run (arguments : List String) (p o : Nat) :
    Except MErr (List String) := do
  let _ARG1 ← argGet arguments 1
  let _ARG2 ← argGet arguments 2
  let a0 ← argGet arguments 0
  let DST ← parseDst a0 o
    "[OR] Destinacija mora biti jedan ili više registara,ili adresa."
  let badA := "[OR] Argument mora biti registar, konstanta, ili adresa."
  let oobA := "[OR] Konstanta mora biti u [-32768, 32767]."
  let ARG1 ← parseArg _ARG1 o badA oobA
  let ARG2 ← parseArg _ARG2 o badA oobA
  let simple_op : Option (String × String) :=
    if (ADD.SIMPLE_OPS.lookup (_ARG1, _ARG2)).isSome then some (_ARG1, _ARG2)
    else if (ADD.SIMPLE_OPS.lookup (_ARG2, _ARG1)).isSome then
      some (_ARG2, _ARG1)
    else none
  if simple_op = some ("D", "D") ∧ DST.is_register then
    return ADD.DD_special_case DST.registers_field
  if simple_op = some ("D", "D") ∧ DST.is_address then
    -- ne prezervira A registar
    return ["@" ++ DST.location] ++ derefPieces DST.stars ++ ["M=D", "M=M+D"]
  match simple_op with
  | some q =>
    let tmpl := (ADD.SIMPLE_OPS.lookup q).getD []
    if DST.is_register then
      let r := DST.registers_field
      return clean (tmpl.map (fun s => replaceQ s r))
    else if ¬ pairHasD q then
      let save_address := ["D=A", "@__aux", "AM=D"]
      let load_value := tmpl.map (fun s => replaceQ s "D")
      let set_destination :=
        ["@" ++ DST.location] ++ derefPieces DST.stars ++ ["M=D"]
      let restore_address := ["@__aux", "A=M"]
      return clean (save_address ++ load_value ++ set_destination ++
                    restore_address)
    else
      -- ne prezervira A registar
      let load_value := tmpl.map (fun s => replaceQ s "D")
      let set_destination :=
        ["@" ++ DST.location] ++ derefPieces DST.stars ++ ["M=D"]
      return clean (load_value ++ set_destination)
  | none => ADD.general DST ARG1 ARG2 p o

/-- macros.SUB.SIMPLE_OPS (macros.py 285-340), values newline-split. -/
def SUB.SIMPLE_OPS : List ((String × String) × List String) :=
  [(("0", "0"), ["?=0"]), (("1", "1"), ["?=0"]), (("-1", "-1"), ["?=0"]),
   (("0", "1"), ["?=-1"]), (("1", "0"), ["?=1"]),
   (("0", "-1"), ["?=1"]), (("-1", "0"), ["?=-1"]),
   (("1", "-1"), ["D=1", "?=D+1"]), (("-1", "1"), ["D=-1", "?=D-1"]),
   (("D", "-1"), ["?=D+1"]), (("-1", "D"), ["D=-D", "?=D-1"]),
   (("A", "-1"), ["?=A+1"]), (("-1", "A"), ["D=-A", "?=D-1"]),
   (("M", "-1"), ["?=M+1"]), (("-1", "M"), ["D=-M", "?=D-1"]),
   (("D", "0"), ["?=D"]), (("0", "D"), ["?=-D"]),
   (("A", "0"), ["?=A"]), (("0", "A"), ["?=-A"]),
   (("M", "0"), ["?=M"]), (("0", "M"), ["?=-M"]),
   (("D", "1"), ["?=D-1"]), (("1", "D"), ["D=-D", "?=D+1"]),
   (("A", "1"), ["?=A-1"]), (("1", "A"), ["D=-A", "?=D+1"]),
   (("M", "1"), ["?=M-1"]), (("1", "M"), ["D=-M", "?=D+1"]),
   (("A", "D"), ["?=A-D"]), (("D", "A"), ["?=D-A"]),
   (("M", "D"), ["?=M-D"]), (("D", "M"), ["?=D-M"]),
   (("A", "A"), ["?=0"]), (("M", "M"), ["?=0"]), (("D", "D"), ["?=0"]),
   (("A", "M"), ["D=A", "?=D-M"]), (("M", "A"), ["D=M", "?=D-A"])]

/-- macros.SUB.run, general branch (macros.py 392-471): the part after the
simple-ops table has failed, operating on the parsed operands. -/
def SUB.general (DST : Destination) (A1 A2 : Argument) (_p _o : Nat) :
    Except MErr (List String) := do
  let doSwap := swapArgs A1 A2
  let (ARG1, ARG2) := if doSwap then (A2, A1) else (A1, A2)
  let arg1IsD := ARG1.is_register ∧ ARG1.register_field = "D"
  let preserve_A_with_M :=
    arg1IsD ∧ DST.is_register ∧ regsHas DST.registers_field 'M'
  let preserve_A := ¬ (arg1IsD ∧ ¬ preserve_A_with_M)
  let set_destination :=
    if DST.is_register then [DST.registers_field ++ "=D"]
    else ["@" ++ DST.location] ++ derefPieces DST.stars ++ ["M=D"]
  let compute_value ←
    if ARG1.is_oneop ∧ ARG2.is_constant then
      let final_set := if doSwap then "A-D" else "D-A"
      let c := ARG2.constant_field
      pure (if c ≥ 0 then
              ["D=" ++ ARG1.oneop, "@" ++ toString c, "D=" ++ final_set]
            else
              ["D=" ++ ARG1.oneop, "@" ++ toString (-1 - c), "A=!A",
               "D=" ++ final_set])
    else if ARG1.is_oneop ∧ ARG2.is_address then
      let final_set := if doSwap then "M-D" else "D-M"
      pure (["D=" ++ ARG1.oneop, "@" ++ ARG2.location] ++
            fuse (derefPieces ARG2.stars) ["D=" ++ final_set])
    else if ARG1.is_constant ∧ ARG2.is_address then
      -- source bug: plain (non-f) string, the names are emitted verbatim
      pure ["\x7bload_value1\x7d", "\x7bload_value2\x7d"]
    else if ARG1.is_constant ∧ ARG2.is_constant then
      let result := wrap16 (ARG1.constant_field - ARG2.constant_field)
      pure (if result ≥ 0 then ["@" ++ toString result, "D=A"]
            else ["@" ++ toString (-1 - result), "A=!A", "D=A"])
    else if ARG1.is_address ∧ ARG2.is_address then
      let load_value1 :=
        ["@" ++ ARG1.location] ++ derefPieces ARG1.stars ++ ["D=M"]
      let load_value2 :=
        ["@" ++ ARG2.location] ++ derefPieces ARG2.stars ++ ["D=D-M"]
      pure (load_value1 ++ load_value2)
    else
      throw (.pycrash "AssertionError")
  let restore_address := ["@__aux", "A=M"]
  if preserve_A_with_M then
    let save_address := ["M=D", "D=A", "@__aux", "AM=D", "D=M"]
    return clean (save_address ++ compute_value ++ restore_address ++
                  set_destination)
  else if preserve_A then
    let save_address := ["D=A", "@__aux", "M=D"]
    if DST.is_register then
      return clean (save_address ++ compute_value ++ restore_address ++
                    set_destination)
    else
      return clean (save_address ++ compute_value ++ set_destination ++
                    restore_address)
  else
    return clean (compute_value ++ set_destination)

/-- macros.SUB.run (macros.py 342-471). -/
def SUB.run (arguments : List String) (p o : Nat) :
    Except MErr (List String) := do
  let _ARG1 ← argGet arguments 1
  let _ARG2 ← argGet arguments 2
  let a0 ← argGet arguments 0
  let DST ← parseDst a0 o
    "[OR] Destinacija mora biti jedan ili više registara,ili adresa."
  let badA := "[OR] Argument mora biti registar, konstanta, ili adresa."
  let oobA := "[OR] Konstanta mora biti u [-32768, 32767]."
  let ARG1 ← parseArg _ARG1 o badA oobA
  let ARG2 ← parseArg _ARG2 o badA oobA
  let simple_op : Option (String × String) :=
    if (SUB.SIMPLE_OPS.lookup (_ARG1, _ARG2)).isSome then some (_ARG1, _ARG2)
    else none
  match simple_op with
  | some q =>
    let tmpl := (SUB.SIMPLE_OPS.lookup q).getD []
    if DST.is_register then
      let r := DST.registers_field
      return clean (tmpl.map (fun s => replaceQ s r))
    else if ¬ pairHasD q then
      -- možemo očuvati stanje A registra
      let save_address := ["D=A", "@__aux", "M=D", "A=D"]
      let compute_value := tmpl.map (fun s => replaceQ s "D")
      let set_destination :=
        ["@" ++ DST.location] ++ derefPieces DST.stars ++ ["M=D"]
      let restore_address := ["@__aux", "A=M"]
      return clean (save_address ++ compute_value ++ set_destination ++
                    restore_address)
    else
      -- ne možemo očuvati stanje A registra
      let compute_value := tmpl.map (fun s => replaceQ s "D")
      let set_destination :=
        ["@" ++ DST.location] ++ derefPieces DST.stars ++ ["M=D"]
      return clean (compute_value ++ set_destination)
  | none => SUB.general DST ARG1 ARG2 p o

/-- Inversion: a successful `Destination.parse` yielding a register set
came from one of the seven canonical strings. -/
theorem dstParse_register {s : String} {D : Destination}
    (h : Destination.parse s = .ok D) (hr : D.is_register = true) :
    D = .registers s ∧ s ∈ REGDSTS := by
  unfold Destination.parse at h
  split at h
  · next hs => cases h; exact ⟨rfl, hs⟩
  · next hs =>
    split at h
    · cases h; simp [Destination.is_register] at hr
    · cases h

/-- Inversion: a successful `Argument.parse` yielding a one-op came from a
register token or parses to a constant in `{-1, 0, 1}`. -/
theorem argParse_oneop {s : String} {S : Argument}
    (h : Argument.parse s = .ok S) (ho : S.is_oneop = true) :
    (S = .register s ∧ s ∈ REGARGS) ∨
    (∃ n : Int, S = .constant n ∧ (n = -1 ∨ n = 0 ∨ n = 1)) := by
  unfold Argument.parse at h
  split at h
  · next hs => cases h; exact .inl ⟨rfl, hs⟩
  · next hs =>
    split at h
    · cases h; simp [Argument.is_oneop] at ho
    · split at h
      · next n heq =>
        cases h
        refine .inr ⟨n, rfl, ?_⟩
        simp [Argument.is_oneop] at ho
        omega
      · cases h
      · cases h
      · cases h

/-- macros.SWAP.run (macros.py 474-554).  The source reads
`self.arguments[1]` and `self.arguments[2]` although SWAP's `arg_count`
is 2, so the argument list of a two-operand invocation is indexed out of
range. -/
def SWAP.run (arguments : List String) (p o : Nat) :
    Except MErr (List String) := do
  let _DST1 ← argGet arguments 1
  let _DST2 ← argGet arguments 2
  let badD := "[SWAP] Destinacija mora biti jedan ili više registara,ili adresa."
  let DST1 ← parseDst _DST1 o badD
  let DST2 ← parseDst _DST2 o badD
  if (DST1.is_register ∧ DST1.registers_field.length > 1) ∨
     (DST2.is_register ∧ DST2.registers_field.length > 1) then
    throw (.perr "MCR" "[SWAP] Swap ne može zamijeniti vište registara odjednom" o)
  if _DST1 = _DST2 then return [""]
  let (DST1, DST2) :=
    if DST2.is_register ∧ DST1.is_address then (DST2, DST1) else (DST1, DST2)
  let perform_swap := ["D=D+M", "M=D-M", "D=D-M"]
  if DST1.is_register ∧ DST2.is_register then
    let r1 := DST1.registers_field
    let r2 := DST2.registers_field
    -- ne možemo direktno zamijeniti A i M
    if r1 ≠ "D" ∧ r2 ≠ "D" then
      -- perform_swap is rebound to "" before being interpolated
      return ["D=A", "", "A=D"]
    return clean [r1 ++ "=" ++ r1 ++ "+" ++ r2,
                  r2 ++ "=" ++ r1 ++ "-" ++ r2,
                  r1 ++ "=" ++ r1 ++ "-" ++ r2]
  else if DST1.is_register ∧ DST1.registers_field = "D" ∧ DST2.is_address then
    -- ne možemo očuvati stanje A registra
    return clean (["@" ++ DST2.location] ++ derefPieces DST2.stars ++
                  perform_swap)
  else if DST1.is_register ∧ DST1.registers_field = "A" ∧ DST2.is_address then
    return clean (["D=A", "@" ++ DST2.location] ++ derefPieces DST2.stars ++
                  perform_swap ++ ["A=D"])
  else if DST1.is_register ∧ DST1.registers_field = "M" ∧ DST2.is_address then
    let save_address := ["D=A", "@__aux", "AM=D"]
    let restore_address := ["@__aux", "A=M"]
    return clean (save_address ++ ["D=M", "@" ++ DST2.location] ++
                  derefPieces DST2.stars ++ perform_swap ++
                  restore_address ++ ["M=D"])
  else
    let save_address := ["D=A", "@__aux", "AM=D"]
    let restore_address := ["@__aux", "A=M"]
    return clean (save_address ++
                  (["@" ++ DST1.location] ++ derefPieces DST1.stars ++
                   ["D=M"]) ++
                  (["@" ++ DST2.location] ++ derefPieces DST2.stars) ++
                  perform_swap ++
                  (["@" ++ DST1.location] ++
                   fuse (derefPieces DST1.stars) ["M=D"]) ++
                  restore_address)

/-- C6: every SWAP invocation with two operand tokens crashes with an
IndexError before any validation, because the source indexes
`self.arguments[1]` and `self.arguments[2]` of a two-element argument
tuple (`arg_count = 2`); no MCR diagnostic and no expansion is produced. -/
theorem C6_SWAP_index_crash (a b : String) (p o : Nat) :
    SWAP.run [a, b] p o = .error (.pycrash "IndexError") := rfl

/-- A lookup in a string-pair keyed table fails when the first component
matches no key. -/
theorem lookup_none_of_ne {α : Type} (l : List ((String × String) × α))
    (s1 s2 : String) (h : ∀ q ∈ l, q.1.1 ≠ s1) :
    l.lookup (s1, s2) = none := by
  induction l with
  | nil => rfl
  | cons a t ih =>
    have ha := h a (List.mem_cons_self a t)
    have hne : ((s1, s2) == a.1) = false := by
      have hne2 : (s1, s2) ≠ a.1 := by
        intro hcontra
        exact ha (by rw [← hcontra])
      exact beq_false_of_ne hne2
    rw [List.lookup, hne]
    exact ih (fun q hq => h q (List.mem_cons_of_mem a hq))

/-- A token parsing to a constant of magnitude above one is none of the
six one-op key strings of the simple-ops tables. -/
theorem constArg_not_key {s : String} {c : Int}
    (h : Argument.parse s = .ok (.constant c)) (hc : 1 < c.natAbs) :
    s ∉ (["0", "1", "-1", "D", "A", "M"] : List String) := by
  intro hmem
  fin_cases hmem
  · rw [show Argument.parse "0" = .ok (.constant 0) by rfl] at h
    injection h with h2; injection h2 with h3; omega
  · rw [show Argument.parse "1" = .ok (.constant 1) by rfl] at h
    injection h with h2; injection h2 with h3; omega
  · rw [show Argument.parse "-1" = .ok (.constant (-1)) by rfl] at h
    injection h with h2; injection h2 with h3; omega
  · rw [show Argument.parse "D" = .ok (.register "D") by rfl] at h
    injection h with h2; exact Argument.noConfusion h2
  · rw [show Argument.parse "A" = .ok (.register "A") by rfl] at h
    injection h with h2; exact Argument.noConfusion h2
  · rw [show Argument.parse "M" = .ok (.register "M") by rfl] at h
    injection h with h2; exact Argument.noConfusion h2

/-- When neither simple-ops lookup hits, `ADD.run` runs its general
branch on the parsed operands. -/
theorem ADD_run_to_general (dstS s1 s2 : String) (p o : Nat)
    (D : Destination) (A1 A2 : Argument)
    (hD : Destination.parse dstS = .ok D)
    (h1 : Argument.parse s1 = .ok A1)
    (h2 : Argument.parse s2 = .ok A2)
    (hl1 : ADD.SIMPLE_OPS.lookup (s1, s2) = none)
    (hl2 : ADD.SIMPLE_OPS.lookup (s2, s1) = none) :
    ADD.run [dstS, s1, s2] p o = ADD.general D A1 A2 p o := by
  simp [ADD.run, argGet, parseDst, hD, parseArg, h1, h2, hl1, hl2,
        Bind.bind, Except.bind, pure, Except.pure]

/-- When the simple-ops lookup misses, `SUB.run` runs its general branch
on the parsed operands. -/
theorem SUB_run_to_general (dstS s1 s2 : String) (p o : Nat)
    (D : Destination) (A1 A2 : Argument)
    (hD : Destination.parse dstS = .ok D)
    (h1 : Argument.parse s1 = .ok A1)
    (h2 : Argument.parse s2 = .ok A2)
    (hl1 : SUB.SIMPLE_OPS.lookup (s1, s2) = none) :
    SUB.run [dstS, s1, s2] p o = SUB.general D A1 A2 p o := by
  simp [SUB.run, argGet, parseDst, hD, parseArg, h1, h2, hl1,
        Bind.bind, Except.bind, pure, Except.pure]

/-- The block ADD/SUB emit for a folded constant-plus-constant: save A,
load the folded 16-bit constant, write the destination, restore A. -/
def foldExpansion (D : Destination) (r : Int) : List String :=
  let load := if r ≥ 0 then ["@" ++ toString r, "D=A"]
              else ["@" ++ toString (-1 - r), "A=!A", "D=A"]
  if D.is_register then
    clean (["D=A", "@__aux", "M=D"] ++ load ++ ["@__aux", "A=M"] ++
           [D.registers_field ++ "=D"])
  else
    clean (["D=A", "@__aux", "M=D"] ++ load ++
           (["@" ++ D.location] ++ derefPieces D.stars ++ ["M=D"]) ++
           ["@__aux", "A=M"])

/-- On two constants of magnitude above one, `ADD.general` folds to the
wrapped sum. -/
theorem ADD_general_const (D : Destination) (c1 c2 : Int) (p o : Nat)
    (hc1 : 1 < c1.natAbs) (hc2 : 1 < c2.natAbs) :
    ADD.general D (.constant c1) (.constant c2) p o =
      .ok (foldExpansion D (wrap16 (c1 + c2))) := by
  have ho1 : decide (c1.natAbs ≤ 1) = false := by simp; omega
  have ho2 : decide (c2.natAbs ≤ 1) = false := by simp; omega
  simp only [ADD.general, swapArgs, Argument.is_oneop, Argument.is_constant,
    Argument.is_address, Argument.is_register, ho1, ho2,
    Argument.constant_field, Argument.register_field,
    Bind.bind, Except.bind, pure, Except.pure]
  simp only [ho1, ho2, Bool.false_eq_true, false_and, and_false, and_true,
    true_and, false_or, or_false, or_self, if_false, ite_false, ite_true,
    if_true, decide_False, decide_True, and_self, not_false_iff]
  rcases D with r | ⟨loc, k⟩ <;>
    simp only [Destination.is_register, foldExpansion,
      Destination.registers_field, Destination.location, Destination.stars,
      Bool.true_eq_false, Bool.false_eq_true, if_true, ite_true, if_false,
      ite_false]

/-- On two constants of magnitude above one, `SUB.general` folds to the
wrapped difference. -/
theorem SUB_general_const (D : Destination) (c1 c2 : Int) (p o : Nat)
    (hc1 : 1 < c1.natAbs) (hc2 : 1 < c2.natAbs) :
    SUB.general D (.constant c1) (.constant c2) p o =
      .ok (foldExpansion D (wrap16 (c1 - c2))) := by
  have ho1 : decide (c1.natAbs ≤ 1) = false := by simp; omega
  have ho2 : decide (c2.natAbs ≤ 1) = false := by simp; omega
  simp only [SUB.general, swapArgs, Argument.is_oneop, Argument.is_constant,
    Argument.is_address, Argument.is_register, ho1, ho2,
    Argument.constant_field, Argument.register_field,
    Bind.bind, Except.bind, pure, Except.pure]
  simp only [ho1, ho2, Bool.false_eq_true, false_and, and_false, and_true,
    true_and, false_or, or_false, or_self, if_false, ite_false, ite_true,
    if_true, decide_False, decide_True, and_self, not_false_iff]
  rcases D with r | ⟨loc, k⟩ <;>
    simp only [Destination.is_register, foldExpansion,
      Destination.registers_field, Destination.location, Destination.stars,
      Bool.true_eq_false, Bool.false_eq_true, if_true, ite_true, if_false,
      ite_false]

/-- A line is an address or label line (may freely mention symbols). -/
def lineHeadOk (l : String) : Bool :=
  l.data.head? = some '@' ∨ l.data.head? = some '('

/-- The line performs no run-time arithmetic and is no macro invocation:
it is an address/label line or mentions none of `+ - & | ; $`. -/
def lineOk (l : String) : Bool :=
  lineHeadOk l ||
    !(l.data.contains '+' || l.data.contains '-' || l.data.contains '&' ||
      l.data.contains '|' || l.data.contains ';' || l.data.contains '$')

/-- No line of the block performs run-time arithmetic or invokes a macro. -/
def noRuntimeArith (ls : List String) : Bool := ls.all lineOk

theorem all_clean_of_all {pr : String → Bool} {ls : List String}
    (h : ls.all pr = true) : (clean ls).all pr = true := by
  rw [List.all_eq_true] at *
  intro x hx
  exact h x (List.mem_filter.mp hx).1

theorem data_at_append (s : String) : ("@" ++ s).data = '@' :: s.data := by
  show ('@'.toString ++ s).data = _
  rw [String.data_append]
  rfl

theorem lineOk_at (s : String) : lineOk ("@" ++ s) = true := by
  simp [lineOk, lineHeadOk, data_at_append]

theorem loadLines_all (r : Int) :
    ((if r ≥ 0 then ["@" ++ toString r, "D=A"]
      else ["@" ++ toString (-1 - r), "A=!A", "D=A"]).all lineOk) = true := by
  split <;> simp [List.all_cons, List.all_nil, lineOk_at] <;> decide

theorem derefPieces_all (k : Nat) : ((derefPieces k).all lineOk) = true := by
  unfold derefPieces
  split
  · decide
  · rw [List.all_eq_true]
    intro x hx
    rw [List.eq_of_mem_replicate hx]
    decide

theorem noRuntimeArith_fold (dstS : String) (D : Destination) (r : Int)
    (hD : Destination.parse dstS = .ok D) :
    noRuntimeArith (foldExpansion D r) = true := by
  rcases D with rr | ⟨loc, k⟩
  · obtain ⟨hEq, hmem⟩ := dstParse_register hD rfl
    injection hEq with hEq2
    subst hEq2
    unfold noRuntimeArith foldExpansion
    simp only [Destination.is_register, if_true, ite_true,
      Destination.registers_field]
    apply all_clean_of_all
    simp only [List.all_append, Bool.and_eq_true]
    repeat' apply And.intro
    all_goals first
      | decide
      | exact loadLines_all _
      | exact derefPieces_all _
      | (simp [List.all_cons, List.all_nil, lineOk_at]; done)
      | (fin_cases hmem <;> decide)
  · unfold noRuntimeArith foldExpansion
    simp only [Destination.is_register, Bool.false_eq_true, if_false,
      ite_false, Destination.location, Destination.stars]
    apply all_clean_of_all
    simp only [List.all_append, Bool.and_eq_true]
    repeat' apply And.intro
    all_goals first
      | decide
      | exact loadLines_all _
      | exact derefPieces_all _
      | (simp [List.all_cons, List.all_nil, lineOk_at]; done)

/-- C3 (code evaluated at the failing input): for a constant of magnitude
above one paired with an address, ADD and SUB emit the verbatim text lines
`{load_value1}` and `{load_value2}` instead of the interpolated
constant-load and address-read instructions (the assignment at
macros.py 247 and 437 is a plain string, not an f-string). -/
theorem C3_ADD_SUB_literal_placeholder :
    ADD.run ["M", "5", "@x"] 0 0 =
      .ok ["D=A", "@__aux", "M=D", "\x7bload_value1\x7d",
           "\x7bload_value2\x7d", "@__aux", "A=M", "M=D"] ∧
    SUB.run ["M", "5", "@x"] 0 0 =
      .ok ["D=A", "@__aux", "M=D", "\x7bload_value1\x7d",
           "\x7bload_value2\x7d", "@__aux", "A=M", "M=D"] :=
  ⟨rfl, rfl⟩

/-- C7: for ADD/SUB on two constant arguments of magnitude above one, the
result is folded at expansion time to the single wrapped constant
`((c1 ± c2 + 32768) & 0xffff) - 32768`; the emitted block is the A-save
bracket, one constant load of the folded value and the destination write,
and it contains no run-time arithmetic and no macro invocation. -/
theorem C7_ADD_SUB_const_fold (dstS s1 s2 : String) (c1 c2 : Int)
    (p o : Nat) (D : Destination)
    (hD : Destination.parse dstS = .ok D)
    (h1 : Argument.parse s1 = .ok (.constant c1))
    (h2 : Argument.parse s2 = .ok (.constant c2))
    (hc1 : 1 < c1.natAbs) (hc2 : 1 < c2.natAbs) :
    ADD.run [dstS, s1, s2] p o = .ok (foldExpansion D (wrap16 (c1 + c2))) ∧
    SUB.run [dstS, s1, s2] p o = .ok (foldExpansion D (wrap16 (c1 - c2))) ∧
    noRuntimeArith (foldExpansion D (wrap16 (c1 + c2))) = true ∧
    noRuntimeArith (foldExpansion D (wrap16 (c1 - c2))) = true := by
  have haddkeys : ∀ q ∈ ADD.SIMPLE_OPS,
      q.1.1 ∈ (["0", "1", "-1", "D", "A", "M"] : List String) := by decide
  have hsubkeys : ∀ q ∈ SUB.SIMPLE_OPS,
      q.1.1 ∈ (["0", "1", "-1", "D", "A", "M"] : List String) := by decide
  have hn1 := constArg_not_key h1 hc1
  have hn2 := constArg_not_key h2 hc2
  refine ⟨?_, ?_, noRuntimeArith_fold dstS D _ hD,
          noRuntimeArith_fold dstS D _ hD⟩
  · rw [ADD_run_to_general dstS s1 s2 p o D _ _ hD h1 h2
      (lookup_none_of_ne _ _ _ (fun q hq hc => hn1 (hc ▸ haddkeys q hq)))
      (lookup_none_of_ne _ _ _ (fun q hq hc => hn2 (hc ▸ haddkeys q hq)))]
    exact ADD_general_const D c1 c2 p o hc1 hc2
  · rw [SUB_run_to_general dstS s1 s2 p o D _ _ hD h1 h2
      (lookup_none_of_ne _ _ _ (fun q hq hc => hn1 (hc ▸ hsubkeys q hq)))]
    exact SUB_general_const D c1 c2 p o hc1 hc2

/-- C7 (witness): `ADD(D, 300, 500)` and `SUB(D, 300, 500)` fold to 800
and -200. -/
theorem C7_ADD_SUB_const_fold_witness :
    ADD.run ["D", "300", "500"] 0 0 =
      .ok (foldExpansion (.registers "D") (wrap16 (300 + 500))) ∧
    SUB.run ["D", "300", "500"] 0 0 =
      .ok (foldExpansion (.registers "D") (wrap16 (300 - 500))) ∧
    noRuntimeArith (foldExpansion (.registers "D") (wrap16 (300 + 500))) =
      true ∧
    noRuntimeArith (foldExpansion (.registers "D") (wrap16 (300 - 500))) =
      true :=
  C7_ADD_SUB_const_fold "D" "300" "500" 300 500 0 0 (.registers "D")
    rfl rfl rfl (by decide) (by decide)

/-- C5 (counterexample): `LD(D, D)` does not return the single instruction
`D=D`; the `clean` helper deletes the no-op line, so the expansion is the
empty block. -/
theorem C5_LD_self_counterexample :
    LD.run ["D", "D"] 0 0 = .ok [] ∧ LD.run ["D", "D"] 0 0 ≠ .ok ["D=D"] := by
  refine ⟨rfl, fun h => ?_⟩
  rw [show LD.run ["D", "D"] 0 0 = .ok [] from rfl] at h
  injection h with h2
  exact absurd h2 (by decide)

/-- C5 (amended): for `LD(DST, SRC)` with DST a register set and SRC a
one-op, `LD.run` returns the single instruction `DST=SRC`, except when that
instruction is a self-assignment `D=D`, `A=A` or `M=M`, in which case the
expansion is the empty block. -/
theorem C5_LD_register_oneop (dstS srcS : String) (p o : Nat)
    (D : Destination) (S : Argument)
    (hD : Destination.parse dstS = .ok D) (hr : D.is_register = true)
    (hS : Argument.parse srcS = .ok S) (ho : S.is_oneop = true) :
    LD.run [dstS, srcS] p o =
      .ok (if D.registers_field ++ "=" ++ S.oneop ∈
             (["D=D", "A=A", "M=M"] : List String)
           then [] else [D.registers_field ++ "=" ++ S.oneop]) := by
  obtain ⟨rfl, hmem⟩ := dstParse_register hD hr
  have hrun : LD.run [dstS, srcS] p o =
      .ok (clean [dstS ++ "=" ++ S.oneop]) := by
    simp [LD.run, argGet, parseDst, hD, parseArg, hS, Destination.is_register,
          ho, Destination.registers_field, Bind.bind, Except.bind, pure,
          Except.pure]
  rw [hrun]
  rcases argParse_oneop hS ho with ⟨rfl, hm⟩ | ⟨n, rfl, hn⟩
  · fin_cases hmem <;> fin_cases hm <;> rfl
  · fin_cases hmem <;> rcases hn with rfl | rfl | rfl <;> rfl

/-- C5 (witness): `LD(AD, M)` expands to the single instruction `AD=M`. -/
theorem C5_LD_register_oneop_witness :
    LD.run ["AD", "M"] 0 0 =
      .ok (if (Destination.registers "AD").registers_field ++ "=" ++
             (Argument.register "M").oneop ∈
             (["D=D", "A=A", "M=M"] : List String)
           then [] else [(Destination.registers "AD").registers_field ++ "=" ++
             (Argument.register "M").oneop]) :=
  C5_LD_register_oneop "AD" "M" 0 0 (.registers "AD") (.register "M")
    rfl rfl rfl rfl

/-- C10: every block returned through `clean` contains no empty line and no
no-op self-assignment `D=D`, `A=A` or `M=M` (in the line-list model, absence
of empty lines also rules out leading and trailing newlines of the joined
block). -/
theorem C10_clean_no_blank_no_noop (code : List String) :
    (clean code).all
      (fun l => !(l == "" || l == "D=D" || l == "A=A" || l == "M=M")) = true := by
  rw [List.all_eq_true]
  intro l hl
  rw [clean, List.mem_filter] at hl
  have h2 := hl.2
  simp only [decide_eq_true_eq] at h2
  simp only [Bool.not_eq_true', Bool.or_eq_false_iff, beq_eq_false_iff_ne]
  push_neg at h2
  exact ⟨⟨⟨h2.1, h2.2.1⟩, h2.2.2.1⟩, h2.2.2.2⟩

/-! ## parser.py: line pipeline, comment stripping, labels, encoding -/

/-- parser.ParserLine (parser.py 8-11). -/
structure ParserLine where
  line : String
  lineno_parsed : Nat
  lineno_original : Nat
deriving DecidableEq, Repr

/-- Python `str.split(sep)` for a single-character separator, on
characters: n separators yield n+1 pieces. -/
def splitChar (sep : Char) : List Char → List (List Char)
  | [] => [[]]
  | c :: rest =>
    match splitChar sep rest with
    | h :: t => if c = sep then [] :: h :: t else (c :: h) :: t
    | [] => [[c]]

/-- Python `str.strip()` on characters. -/
def stripChars (l : List Char) : List Char :=
  ((l.dropWhile Char.isWhitespace).reverse.dropWhile Char.isWhitespace).reverse

/-- A piece list is blank when every piece is all-whitespace: this is
`not newline` / `not newline.strip()` of parser._iter_lines (both make the
pass emit nothing for this line). -/
def piecesBlank (pieces : List String) : Bool :=
  pieces.all (fun x => x.data.all Char.isWhitespace)

/-- parser.Parser._iter_lines (parser.py 236-249): apply a state-threading
line function to every line, re-linearise the pieces it returns, drop
blank results, and assign fresh `lineno_parsed` indices (the running index
is also the `p` handed to the function). -/
def iterLinesGo {σ : Type}
    (f : σ → String → Nat → Nat → Except MErr (List String × σ)) :
    σ → Nat → List ParserLine → Except MErr (List ParserLine × σ)
  | s, _, [] => .ok ([], s)
  | s, i, pl :: rest => do
    let (pieces, s2) ← f s pl.line i pl.lineno_original
    if piecesBlank pieces then
      iterLinesGo f s2 i rest
    else
      let newls := ((List.range pieces.length).zip pieces).map
        (fun ji => ⟨ji.2, i + ji.1, pl.lineno_original⟩)
      let (outRest, s3) ← iterLinesGo f s2 (i + pieces.length) rest
      return (newls ++ outRest, s3)

def iterLines {σ : Type}
    (f : σ → String → Nat → Nat → Except MErr (List String × σ))
    (s0 : σ) (lines : List ParserLine) :
    Except MErr (List ParserLine × σ) :=
  iterLinesGo f s0 0 lines

/-- parser.sliding_substring with n = 2 (parser.py 131-136): the whole
string when its length is at most 2, otherwise all adjacent pairs. -/
def adjPairs : List Char → List (List Char)
  | a :: b :: rest => [a, b] :: adjPairs (b :: rest)
  | _ => []

def slides (l : List Char) : List (List Char) :=
  match l with
  | [] => [[]]
  | [a] => [[a]]
  | l => adjPairs l

/-- parser.Parser._parse_line (parser.py 261-282), the window loop: state
is (comment flag, skip flag); returns the stripped line and the final
comment flag, raises `PL` on an unbalanced closing delimiter, and reads
`window[0]` (IndexError on an empty window). -/
def parseLineGo (o : Nat) :
    Bool → Bool → List (List Char) → List Char →
    Except MErr (List Char × Bool)
  | c, _, [], acc => .ok (acc, c)
  | c, skip, w :: ws, acc =>
    if skip then parseLineGo o c false ws acc
    else if (¬ c ∧ w = ['/', '*']) ∨ (c ∧ w = ['*', '/']) then
      parseLineGo o (!c) true ws acc
    else if ¬ c ∧ w = ['*', '/'] then
      .error (.perr "PL" "Unbalanced comment delimiter." o)
    else if w = ['/', '/'] ∧ ¬ c then
      .ok (acc, c)  -- break
    else
      match w with
      | [] => .error (.pycrash "IndexError")
      | ch :: _ =>
        if ¬ ch.isWhitespace ∧ ¬ c then parseLineGo o c skip ws (acc ++ [ch])
        else parseLineGo o c skip ws acc

/-- parser._parse_line as an _iter_lines stage function (state: the
persistent comment flag). -/
def parseLineF (c : Bool) (line : String) (_p o : Nat) :
    Except MErr (List String × Bool) := do
  let (acc, c2) ← parseLineGo o c false (slides line.data) []
  return ([String.mk acc], c2)

/-- parser.Parser.parse source read (parser.py 454-455): each physical
line is stripped and given a trailing space (the sliding-window hack),
and numbered. -/
def mkInputLines (raw : List String) : List ParserLine :=
  ((List.range raw.length).zip raw).map
    (fun il => ⟨String.mk (stripChars il.2.data) ++ " ", il.1, il.1⟩)

/-- Stage 1, comment/whitespace stripping: read preparation followed by
the `_parse_line` pass with the comment flag initially off. -/
def commentStage (raw : List String) :
    Except MErr (List ParserLine × Bool) :=
  iterLines parseLineF false (mkInputLines raw)

/-- parser.Parser._parse_label (parser.py 284-292) as a stage function;
state is the labels dictionary (head insertion shadows like a dict
assignment). -/
def parse_labelAux (labels : List (String × Nat)) (line : String)
    (p o : Nat) : List Char → Except MErr (List String × List (String × Nat))
  | [] => .error (.pycrash "IndexError")
  | c :: restl =>
    if c ≠ '(' then .ok ([line], labels)
    else
      -- `line[1:].split(')')`; the matched list is line.data
      let split_label := splitChar ')' restl
      let label := split_label.headD []
      if split_label.length ≠ 2 ∨ split_label.get? 1 ≠ some [] ∨
         label = [] then
        .error (.perr "SYM"
          ("Invalid label: \x60" ++ String.mk label ++ "\x27") o)
      else
        .ok ([""], (String.mk label, p) :: labels)

def parse_labelF (labels : List (String × Nat)) (line : String)
    (p o : Nat) : Except MErr (List String × List (String × Nat)) :=
  parse_labelAux labels line p o line.data

/-- The label pass (stage 3, pass A). -/
def labelStage (m0 : List (String × Nat)) (lines : List ParserLine) :
    Except MErr (List ParserLine × List (String × Nat)) :=
  iterLines parse_labelF m0 lines

/-- Python `int(s)` on the digit suffix of an `@` line: optional sign and
at least one digit (whitespace and underscore liberties of Python's `int`
are irrelevant here, the pipeline lines are whitespace-free). -/
def pyInt (l : List Char) : Option Int :=
  if l ≠ [] ∧ l.all Char.isDigit then some (l.foldl (fun a c => a * 10 + (c.toNat - 48) : Nat → Char → Nat) 0 : Nat)
  else
    match l with
    | '-' :: rest =>
      if rest ≠ [] ∧ rest.all Char.isDigit then
        some (-(rest.foldl (fun a c => a * 10 + (c.toNat - 48)) 0 : Nat))
      else none
    | '+' :: rest =>
      if rest ≠ [] ∧ rest.all Char.isDigit then
        some ((rest.foldl (fun a c => a * 10 + (c.toNat - 48)) 0 : Nat) : Int)
      else none
    | _ => none

/-- Binary digits of a natural number, most significant first (empty for
zero), fuel-structured so it kernel-reduces. -/
def natToBinAux : Nat → Nat → List Char
  | _, 0 => []
  | 0, _ + 1 => ['?']  -- fuel exhausted, unreachable for fuel ≥ n
  | f + 1, m + 1 =>
    natToBinAux f ((m + 1) / 2) ++ [if (m + 1) % 2 = 1 then '1' else '0']

def natToBinList (n : Nat) : List Char := natToBinAux n n

def padZero (k : Nat) (l : List Char) : List Char :=
  List.replicate (k - l.length) '0' ++ l

/-- Python `"{0:016b}".format(n)`: binary, zero-padded to overall width
16, the sign (if any) counting toward the width. -/
def format016 (n : Int) : String :=
  if n ≥ 0 then String.mk (padZero 16 (natToBinList n.toNat))
  else String.mk ('-' :: padZero 15 (natToBinList (-n).toNat))

/-- parser.Parser.OPERATIONS (parser.py 150-161). -/
def OPERATIONS : List (String × String) :=
  [("0", "0101010"), ("1", "0111111"), ("-1", "0111010"),
   ("D", "0001100"), ("A", "0110000"), ("!D", "0001101"),
   ("!A", "0110001"), ("-D", "0001111"), ("-A", "0110011"),
   ("D+1", "0011111"), ("A+1", "0110111"), ("D-1", "0001110"),
   ("A-1", "0110010"), ("D+A", "0000010"), ("A+D", "0000010"),
   ("D-A", "0010011"), ("A-D", "0000111"), ("D&A", "0000000"),
   ("A&D", "0000000"), ("D|A", "0010101"), ("A|D", "0010101"),
   ("M", "1110000"), ("!M", "1110001"), ("-M", "1110011"),
   ("M+1", "1110111"), ("M-1", "1110010"), ("D+M", "1000010"),
   ("M+D", "1000010"), ("D-M", "1010011"), ("M-D", "1000111"),
   ("D&M", "1000000"), ("M&D", "1000000"), ("D|M", "1010101"),
   ("M|D", "1010101")]

/-- parser.Parser.JUMPS (parser.py 163-164). -/
def JUMPS : List (String × String) :=
  [("", "000"), ("JGT", "001"), ("JEQ", "010"), ("JGE", "011"),
   ("JLT", "100"), ("JNE", "101"), ("JLE", "110"), ("JMP", "111")]

/-- parser.Parser.DESTINATIONS (parser.py 166-167). -/
def DESTINATIONS : List (String × String) :=
  [("", "000"), ("M", "001"), ("D", "010"), ("MD", "011"),
   ("A", "100"), ("AM", "101"), ("AD", "110"), ("AMD", "111")]

/-- `dest_str, rest = line.split('=')` with the ValueError fallback
`('', line)` when the unpacking does not see exactly two parts. -/
def destSplit (l : List Char) : List Char × List Char :=
  match splitChar '=' l with
  | [d, r] => (d, r)
  | _ => ([], l)

/-- `op_str, jmp_str = rest.split(';')` with fallback `(rest, '')`. -/
def opjmpSplit (l : List Char) : List Char × List Char :=
  match splitChar ';' l with
  | [a, b] => (a, b)
  | _ => (l, [])

/-- parser.Parser._parse_command (parser.py 307-332): `@` lines become
the 016b rendering of their integer suffix; other lines are split at `=`
and `;` and the three fields are looked up. -/
def parse_commandAux (o : Nat) : List Char → Except MErr String
  | [] => .error (.pycrash "IndexError")
  | c :: rest =>
    if c = '@' then
      match pyInt rest with
      | some n => .ok (format016 n)
      | none => .error (.pycrash "ValueError")
    else
      match OPERATIONS.lookup
          (String.mk (opjmpSplit (destSplit (c :: rest)).2).1) with
      | none => .error (.perr "COM"
          ("Invalid operation: " ++
           String.mk (opjmpSplit (destSplit (c :: rest)).2).1) o)
      | some op =>
        match DESTINATIONS.lookup (String.mk (destSplit (c :: rest)).1) with
        | none => .error (.perr "COM"
            ("Invalid destination: " ++
             String.mk (destSplit (c :: rest)).1) o)
        | some dest =>
          match JUMPS.lookup
              (String.mk (opjmpSplit (destSplit (c :: rest)).2).2) with
          | none => .error (.perr "COM"
              ("Invalid jump: " ++
               String.mk (opjmpSplit (destSplit (c :: rest)).2).2) o)
          | some jmp => .ok ("111" ++ op ++ dest ++ jmp)

def parse_command (line : String) (o : Nat) : Except MErr String :=
  parse_commandAux o line.data

theorem natToBinAux_bits : ∀ fuel n, n ≤ fuel →
    ∀ c ∈ natToBinAux fuel n, c = '0' ∨ c = '1' := by
  intro fuel
  induction fuel with
  | zero =>
    intro n hn c hc
    interval_cases n
    simp [natToBinAux] at hc
  | succ f ih =>
    intro n hn c hc
    match n with
    | 0 => simp [natToBinAux] at hc
    | m + 1 =>
      rw [natToBinAux] at hc
      rw [List.mem_append] at hc
      rcases hc with hc | hc
      · exact ih ((m + 1) / 2) (by omega) c hc
      · rw [List.mem_singleton] at hc
        subst hc
        split <;> simp

theorem natToBinAux_len : ∀ fuel n k, n < 2 ^ k →
    (natToBinAux fuel n).length ≤ k := by
  intro fuel
  induction fuel with
  | zero =>
    intro n k hk
    match n with
    | 0 => simp [natToBinAux]
    | m + 1 =>
      simp only [natToBinAux, List.length_singleton]
      by_contra hcon
      push_neg at hcon
      interval_cases k
      omega
  | succ f ih =>
    intro n k hk
    match n with
    | 0 => simp [natToBinAux]
    | m + 1 =>
      have hk1 : 1 ≤ k := by
        by_contra hcon
        push_neg at hcon
        interval_cases k
        omega
      rw [natToBinAux, List.length_append, List.length_singleton]
      have hdiv : (m + 1) / 2 < 2 ^ (k - 1) := by
        have h2 : 2 ^ k = 2 * 2 ^ (k - 1) := by
          rw [← pow_succ']
          congr 1
          omega
        rw [h2] at hk
        exact Nat.div_lt_of_lt_mul hk
      have := ih ((m + 1) / 2) (k - 1) hdiv
      omega

theorem lookup_mem_values {α β : Type} [BEq α] [LawfulBEq α]
    (l : List (α × β)) (k : α) (v : β) (h : l.lookup k = some v) :
    v ∈ l.map Prod.snd := by
  induction l with
  | nil => cases h
  | cons a t ih =>
    rw [List.lookup] at h
    by_cases hk : (k == a.1) = true
    · rw [hk] at h
      injection h with h2
      subst h2
      exact List.mem_cons_self _ _
    · rw [Bool.not_eq_true] at hk
      rw [hk] at h
      exact List.mem_cons_of_mem _ (ih h)

theorem format016_nat (n : Nat) (hn : n ≤ 32767) :
    (format016 n).length = 16 ∧
    (format016 (n : Int)).data.head? = some '0' ∧
    ∀ c ∈ (format016 (n : Int)).data, c = '0' ∨ c = '1' := by
  have hlen : (natToBinList n).length ≤ 15 :=
    natToBinAux_len n n 15 (by omega)
  have hbits := natToBinAux_bits n n (le_refl n)
  have hpos : ((n : Int) ≥ 0) := by omega
  unfold format016
  rw [if_pos hpos]
  have htn : (n : Int).toNat = n := Int.toNat_ofNat n
  rw [htn]
  unfold padZero
  refine ⟨?_, ?_, ?_⟩
  · show (String.mk _).data.length = 16
    rw [List.length_append, List.length_replicate]
    unfold natToBinList at hlen ⊢
    omega
  · show (List.replicate (16 - (natToBinList n).length) '0' ++
          natToBinList n).head? = some '0'
    have h16 : 16 - (natToBinList n).length =
        (15 - (natToBinList n).length) + 1 := by omega
    rw [h16, List.replicate_succ]
    rfl
  · intro c hc
    rw [List.mem_append] at hc
    rcases hc with hc | hc
    · left; exact List.eq_of_mem_replicate hc
    · exact hbits c hc

theorem parse_command_at (s : List Char) (n : Int) (o : Nat)
    (h : pyInt s = some n) :
    parse_command (String.mk ('@' :: s)) o = .ok (format016 n) := by
  show parse_commandAux o ('@' :: s) = _
  rw [parse_commandAux]
  rw [if_pos rfl, h]

theorem parse_command_comp (line : String) (o : Nat) (out : String)
    (hat : line.data.head? ≠ some '@')
    (h : parse_command line o = .ok out) :
    out.length = 16 ∧ out.data.take 3 = ['1', '1', '1'] ∧
    ∀ c ∈ out.data, c = '0' ∨ c = '1' := by
  unfold parse_command at h
  match hl : line.data with
  | [] => rw [hl] at h; cases h
  | c :: rest =>
    rw [hl] at h hat
    have hcne : ¬ (c = '@') := by
      intro hceq
      exact hat (by rw [hceq]; rfl)
    rw [parse_commandAux] at h
    rw [if_neg hcne] at h
    split at h
    · exact absurd h (by simp)
    · next op hop =>
      split at h
      · exact absurd h (by simp)
      · next dest hdest =>
        split at h
        · exact absurd h (by simp)
        · next jmp hjmp =>
          injection h with h2
          subst h2
          have hopv : op ∈ OPERATIONS.map Prod.snd :=
            lookup_mem_values _ _ _ hop
          have hdestv : dest ∈ DESTINATIONS.map Prod.snd :=
            lookup_mem_values _ _ _ hdest
          have hjmpv : jmp ∈ JUMPS.map Prod.snd :=
            lookup_mem_values _ _ _ hjmp
          have hopP : op.length = 7 ∧ ∀ ch ∈ op.data, ch = '0' ∨ ch = '1' := by
            fin_cases hopv <;> exact ⟨rfl, by decide⟩
          have hdestP : dest.length = 3 ∧ ∀ ch ∈ dest.data, ch = '0' ∨ ch = '1' := by
            fin_cases hdestv <;> exact ⟨rfl, by decide⟩
          have hjmpP : jmp.length = 3 ∧ ∀ ch ∈ jmp.data, ch = '0' ∨ ch = '1' := by
            fin_cases hjmpv <;> exact ⟨rfl, by decide⟩
          have hd : ("111" ++ op ++ dest ++ jmp).data =
              '1' :: '1' :: '1' :: (op.data ++ dest.data ++ jmp.data) := by
            simp [String.data_append]
          refine ⟨?_, ?_, ?_⟩
          · show ("111" ++ op ++ dest ++ jmp).data.length = 16
            rw [hd]
            have h7 : op.data.length = 7 := hopP.1
            have h3a : dest.data.length = 3 := hdestP.1
            have h3b : jmp.data.length = 3 := hjmpP.1
            simp only [List.length_cons, List.length_append]
            omega
          · rw [hd]
            rfl
          · intro ch hc
            rw [hd] at hc
            simp only [List.mem_cons, List.mem_append] at hc
            rcases hc with rfl | rfl | rfl | (hc | hc) | hc
            · right; rfl
            · right; rfl
            · right; rfl
            · exact hopP.2 ch hc
            · exact hdestP.2 ch hc
            · exact hjmpP.2 ch hc


/-- C2 (counterexample): an A-instruction line with a numeric suffix of
32768 or more reaches the encoding pass unchecked; `@65536` encodes to 17
characters and `@32768` to 16 characters with a leading `1`, contradicting
the claimed universal "leading 0 plus 15-bit" 16-character shape. -/
theorem C2_encode_counterexample :
    parse_command "@65536" 0 = .ok "10000000000000000" ∧
    ("10000000000000000" : String).length = 17 ∧
    parse_command "@32768" 0 = .ok "1000000000000000" ∧
    ("1000000000000000" : String).data.head? = some '1' :=
  ⟨rfl, rfl, rfl, rfl⟩

/-- C2 (amended): an A-instruction `@n` with 0 ≤ n ≤ 32767 encodes as 16
`0`/`1` characters, a leading `0` followed by the 15-bit binary of n; and
every successfully encoded computation line is exactly 16 `0`/`1`
characters beginning with `111` (then comp(7), dest(3), jump(3)). -/
theorem C2_encode_16bit :
    (∀ (s : List Char) (n : Nat) (o : Nat), pyInt s = some (n : Int) →
      n ≤ 32767 →
      parse_command (String.mk ('@' :: s)) o = .ok (format016 (n : Int)) ∧
      (format016 (n : Int)).length = 16 ∧
      (format016 (n : Int)).data.head? = some '0' ∧
      ∀ c ∈ (format016 (n : Int)).data, c = '0' ∨ c = '1') ∧
    (∀ (line : String) (o : Nat) (out : String),
      line.data.head? ≠ some '@' → parse_command line o = .ok out →
      out.length = 16 ∧ out.data.take 3 = ['1', '1', '1'] ∧
      ∀ c ∈ out.data, c = '0' ∨ c = '1') :=
  ⟨fun s n o h hn =>
    ⟨parse_command_at s (n : Int) o h, (format016_nat n hn).1,
     (format016_nat n hn).2.1, (format016_nat n hn).2.2⟩,
   parse_command_comp⟩

/-- C2 (witness): `@21` and `D=M+1;JGT` at concrete inputs. -/
theorem C2_encode_16bit_witness :
    (parse_command (String.mk ('@' :: ['2', '1'])) 0 =
       .ok (format016 ((21 : Nat) : Int)) ∧
     (format016 ((21 : Nat) : Int)).length = 16 ∧
     (format016 ((21 : Nat) : Int)).data.head? = some '0' ∧
     ∀ c ∈ (format016 ((21 : Nat) : Int)).data, c = '0' ∨ c = '1') ∧
    (("1111110111010001" : String).length = 16 ∧
     ("1111110111010001" : String).data.take 3 = ['1', '1', '1'] ∧
     ∀ c ∈ ("1111110111010001" : String).data, c = '0' ∨ c = '1') :=
  ⟨C2_encode_16bit.1 ['2', '1'] 21 0 (by decide) (by decide),
   C2_encode_16bit.2 "D=M+1;JGT" 0 "1111110111010001" (by decide) rfl⟩

def startsParen (s : String) : Bool := s.data.head? = some '('

def wellFormedLabel (s : String) : Bool :=
  match s.data with
  | '(' :: restl =>
    (splitChar ')' restl).length = 2 ∧
    (splitChar ')' restl).get? 1 = some [] ∧
    (splitChar ')' restl).headD [] ≠ []
  | _ => false

def labelOf (s : String) : String :=
  String.mk ((splitChar ')' (s.data.drop 1)).headD [])

def nonBlank (s : String) : Bool := ¬ s.data.all Char.isWhitespace

def labelOut (i : Nat) : List ParserLine → List ParserLine
  | [] => []
  | pl :: rest =>
    if startsParen pl.line then labelOut i rest
    else ⟨pl.line, i, pl.lineno_original⟩ :: labelOut (i + 1) rest

def labelMap (m : List (String × Nat)) (i : Nat) :
    List ParserLine → List (String × Nat)
  | [] => m
  | pl :: rest =>
    if startsParen pl.line then
      labelMap ((labelOf pl.line, i) :: m) i rest
    else labelMap m (i + 1) rest

def declsOf (ls : List ParserLine) : List String :=
  (ls.filter (fun pl => startsParen pl.line)).map (fun pl => labelOf pl.line)

theorem labelGo (lines : List ParserLine) : ∀ (i : Nat)
    (m : List (String × Nat)),
    (∀ pl ∈ lines, nonBlank pl.line = true) →
    (∀ pl ∈ lines, startsParen pl.line = true →
      wellFormedLabel pl.line = true) →
    iterLinesGo parse_labelF m i lines =
      .ok (labelOut i lines, labelMap m i lines) := by
  induction lines with
  | nil => intro i m h1 h2; rfl
  | cons pl rest ih =>
    intro i m h1 h2
    have hnb : nonBlank pl.line = true := h1 pl (List.mem_cons_self ..)
    by_cases hp : startsParen pl.line = true
    · have hwf := h2 pl (List.mem_cons_self ..) hp
      rw [iterLinesGo]
      match hd : pl.line.data with
      | [] => rw [startsParen, hd] at hp; cases hp
      | c :: restl =>
        have hc : c = '(' := by
          rw [startsParen, hd] at hp
          simp at hp
          exact hp
        subst hc
        rw [wellFormedLabel, hd] at hwf
        have hfalse : ¬ ((splitChar ')' restl).length ≠ 2 ∨
            (splitChar ')' restl).get? 1 ≠ some [] ∨
            (splitChar ')' restl).headD [] = []) := by
          simp only [Bool.and_eq_true, decide_eq_true_eq] at hwf
          push_neg
          exact ⟨hwf.1, hwf.2.1, hwf.2.2⟩
        have hstep : parse_labelF m pl.line i pl.lineno_original =
            .ok ([""], (String.mk ((splitChar ')' restl).headD []), i) :: m) := by
          rw [parse_labelF, hd, parse_labelAux]
          rw [if_neg (by simp)]
          rw [if_neg hfalse]
        rw [hstep]
        show iterLinesGo parse_labelF _ i rest = _
        have hlab : labelOf pl.line = String.mk ((splitChar ')' restl).headD []) := by
          rw [labelOf, hd]
          rfl
        rw [labelOut, labelMap, if_pos hp, if_pos hp, ← hlab]
        exact ih i _ (fun q hq => h1 q (List.mem_cons_of_mem _ hq))
          (fun q hq => h2 q (List.mem_cons_of_mem _ hq))
    · rw [iterLinesGo]
      match hd : pl.line.data with
      | [] =>
        rw [nonBlank, hd] at hnb
        simp at hnb
      | c :: restl =>
        have hc : ¬ (c = '(') := by
          intro hceq
          subst hceq
          rw [startsParen, hd] at hp
          simp at hp
        have hstep : parse_labelF m pl.line i pl.lineno_original =
            .ok ([pl.line], m) := by
          rw [parse_labelF, hd, parse_labelAux]
          rw [if_pos (by simp [hc])]
        rw [hstep]
        simp only [Bind.bind, Except.bind]
        have hall : pl.line.data.all Char.isWhitespace = false := by
          rw [nonBlank] at hnb
          simpa using hnb
        have hblank : piecesBlank [pl.line] = false := by
          simp [piecesBlank, hall]
        rw [hblank]
        simp only [Bool.false_eq_true, if_false, ite_false]
        rw [show (i + [pl.line].length) = i + 1 from rfl]
        rw [ih (i + 1) m (fun q hq => h1 q (List.mem_cons_of_mem _ hq))
          (fun q hq => h2 q (List.mem_cons_of_mem _ hq))]
        simp only [labelOut, labelMap, hp, Bool.false_eq_true, if_false,
          ite_false]
        simp [pure, Except.pure,
              show List.range 1 = [0] from rfl]

theorem labelOut_lines (i : Nat) (ls : List ParserLine) :
    (labelOut i ls).map (fun pl => pl.line) =
      (ls.map (fun pl => pl.line)).filter (fun s => !startsParen s) := by
  induction ls generalizing i with
  | nil => rfl
  | cons pl rest ih =>
    by_cases hp : startsParen pl.line = true <;>
      simp [labelOut, List.filter, hp, ih]

theorem labelOut_idx (ls : List ParserLine) : ∀ (i : Nat),
    (labelOut i ls).map (fun pl => pl.lineno_parsed) =
      List.range' i (labelOut i ls).length := by
  induction ls with
  | nil => intro i; rfl
  | cons pl rest ih =>
    intro i
    by_cases hp : startsParen pl.line = true
    · simp only [labelOut, if_pos hp]
      exact ih i
    · simp only [labelOut, if_neg hp, List.map_cons, List.length_cons]
      rw [List.range'_succ i _ 1, ih (i + 1)]

theorem labelMap_skip (ls : List ParserLine) : ∀ (i : Nat)
    (m : List (String × Nat)) (L : String), L ∉ declsOf ls →
    (labelMap m i ls).lookup L = m.lookup L := by
  induction ls with
  | nil => intro i m L _; rfl
  | cons pl rest ih =>
    intro i m L hnd
    by_cases hp : startsParen pl.line = true
    · have hsplit : declsOf (pl :: rest) = labelOf pl.line :: declsOf rest := by
        simp [declsOf, List.filter, hp]
      rw [hsplit] at hnd
      simp only [List.mem_cons] at hnd
      push_neg at hnd
      rw [labelMap, if_pos hp]
      rw [ih i _ L hnd.2]
      have hbeq : (L == labelOf pl.line) = false := beq_false_of_ne hnd.1
      rw [List.lookup, hbeq]
    · have hsplit : declsOf (pl :: rest) = declsOf rest := by
        simp [declsOf, List.filter, hp]
      rw [hsplit] at hnd
      rw [labelMap, if_neg hp]
      exact ih (i + 1) m L hnd

theorem labelMap_lookup (ls : List ParserLine) : ∀ (i : Nat)
    (m : List (String × Nat)) (k : Nat) (hk : k < ls.length),
    (declsOf ls).Nodup →
    startsParen (ls.get ⟨k, hk⟩).line = true →
    (labelMap m i ls).lookup (labelOf (ls.get ⟨k, hk⟩).line) =
      some (i + (ls.take k).countP (fun pl => !startsParen pl.line)) := by
  induction ls with
  | nil => intro i m k hk; cases hk
  | cons pl rest ih =>
    intro i m k hk hnd hsp
    by_cases hp : startsParen pl.line = true
    · have hsplit : declsOf (pl :: rest) = labelOf pl.line :: declsOf rest := by
        simp [declsOf, List.filter, hp]
      rw [hsplit] at hnd
      rw [List.nodup_cons] at hnd
      match k with
      | 0 =>
        show List.lookup (labelOf pl.line) (labelMap m i (pl :: rest)) = _
        rw [labelMap, if_pos hp]
        rw [labelMap_skip rest i _ _ hnd.1]
        simp [List.lookup]
      | kk + 1 =>
        simp only [List.get_cons_succ] at hsp ⊢
        rw [labelMap, if_pos hp]
        have hkk : kk < rest.length := by
          simpa using Nat.lt_of_succ_lt_succ hk
        have := ih i ((labelOf pl.line, i) :: m) kk hkk hnd.2 hsp
        rw [this]
        simp [List.take_succ_cons, List.countP_cons, hp]
    · have hsplit : declsOf (pl :: rest) = declsOf rest := by
        simp [declsOf, List.filter, hp]
      rw [hsplit] at hnd
      match k with
      | 0 =>
        have hsp0 : startsParen pl.line = true := hsp
        exact absurd hsp0 hp
      | kk + 1 =>
        simp only [List.get_cons_succ] at hsp ⊢
        rw [labelMap, if_neg hp]
        have hkk : kk < rest.length := by
          simpa using Nat.lt_of_succ_lt_succ hk
        have := ih (i + 1) m kk hkk hnd hsp
        rw [this]
        simp only [List.take_succ_cons, List.countP_cons, hp]
        congr 1
        simp
        omega


/-- C9: under well-formed inputs (no blank lines, every `(`-line of shape
`(LABEL)`, declared labels distinct) the label pass succeeds; the output
is exactly the non-label lines re-indexed consecutively from 0 (label
declaration lines are deleted), and every declared label is bound to the
number of non-label lines preceding its declaration, i.e. the current
instruction index. -/
theorem C9_label_pass (lines : List ParserLine) (m0 : List (String × Nat))
    (h1 : ∀ pl ∈ lines, nonBlank pl.line = true)
    (h2 : ∀ pl ∈ lines, startsParen pl.line = true →
      wellFormedLabel pl.line = true)
    (h3 : (declsOf lines).Nodup) :
    labelStage m0 lines = .ok (labelOut 0 lines, labelMap m0 0 lines) ∧
    (labelOut 0 lines).map (fun pl => pl.line) =
      (lines.map (fun pl => pl.line)).filter (fun s => !startsParen s) ∧
    (labelOut 0 lines).map (fun pl => pl.lineno_parsed) =
      List.range' 0 (labelOut 0 lines).length ∧
    ∀ k (hk : k < lines.length),
      startsParen (lines.get ⟨k, hk⟩).line = true →
      (labelMap m0 0 lines).lookup (labelOf (lines.get ⟨k, hk⟩).line) =
        some ((lines.take k).countP (fun pl => !startsParen pl.line)) := by
  refine ⟨labelGo lines 0 m0 h1 h2, labelOut_lines 0 lines,
          labelOut_idx lines 0, ?_⟩
  intro k hk hsp
  have h := labelMap_lookup lines 0 m0 k hk h3 hsp
  simpa using h

/-- C9 (witness): the program `@1 / (L) / @2 / (K)`. -/
theorem C9_label_pass_witness :
    labelStage [] [⟨"@1", 0, 0⟩, ⟨"(L)", 1, 1⟩, ⟨"@2", 2, 2⟩, ⟨"(K)", 3, 3⟩] =
      .ok (labelOut 0 [⟨"@1", 0, 0⟩, ⟨"(L)", 1, 1⟩, ⟨"@2", 2, 2⟩, ⟨"(K)", 3, 3⟩],
           labelMap [] 0
             [⟨"@1", 0, 0⟩, ⟨"(L)", 1, 1⟩, ⟨"@2", 2, 2⟩, ⟨"(K)", 3, 3⟩]) ∧
    (labelOut 0 [⟨"@1", 0, 0⟩, ⟨"(L)", 1, 1⟩, ⟨"@2", 2, 2⟩, ⟨"(K)", 3, 3⟩]).map
        (fun pl => pl.line) =
      (([⟨"@1", 0, 0⟩, ⟨"(L)", 1, 1⟩, ⟨"@2", 2, 2⟩, ⟨"(K)", 3, 3⟩] :
          List ParserLine).map (fun pl => pl.line)).filter
        (fun s => !startsParen s) ∧
    (labelOut 0 [⟨"@1", 0, 0⟩, ⟨"(L)", 1, 1⟩, ⟨"@2", 2, 2⟩, ⟨"(K)", 3, 3⟩]).map
        (fun pl => pl.lineno_parsed) =
      List.range' 0 (labelOut 0
        [⟨"@1", 0, 0⟩, ⟨"(L)", 1, 1⟩, ⟨"@2", 2, 2⟩, ⟨"(K)", 3, 3⟩]).length ∧
    ∀ k (hk : k < ([⟨"@1", 0, 0⟩, ⟨"(L)", 1, 1⟩, ⟨"@2", 2, 2⟩,
        ⟨"(K)", 3, 3⟩] : List ParserLine).length),
      startsParen (([⟨"@1", 0, 0⟩, ⟨"(L)", 1, 1⟩, ⟨"@2", 2, 2⟩,
          ⟨"(K)", 3, 3⟩] : List ParserLine).get ⟨k, hk⟩).line = true →
      (labelMap [] 0 [⟨"@1", 0, 0⟩, ⟨"(L)", 1, 1⟩, ⟨"@2", 2, 2⟩,
          ⟨"(K)", 3, 3⟩]).lookup
          (labelOf (([⟨"@1", 0, 0⟩, ⟨"(L)", 1, 1⟩, ⟨"@2", 2, 2⟩,
            ⟨"(K)", 3, 3⟩] : List ParserLine).get ⟨k, hk⟩).line) =
        some ((([⟨"@1", 0, 0⟩, ⟨"(L)", 1, 1⟩, ⟨"@2", 2, 2⟩,
          ⟨"(K)", 3, 3⟩] : List ParserLine).take k).countP
            (fun pl => !startsParen pl.line)) :=
  C9_label_pass [⟨"@1", 0, 0⟩, ⟨"(L)", 1, 1⟩, ⟨"@2", 2, 2⟩, ⟨"(K)", 3, 3⟩] []
    (by decide) (by decide) (by decide)

def NS (c : Char) : Bool := ¬ c.isWhitespace

def adjOK : List Char → Bool
  | a :: b :: rest =>
    (!((a = '/' ∧ b = '/') ∨ (a = '/' ∧ b = '*') ∨ (a = '*' ∧ b = '/'))) &&
      adjOK (b :: rest)
  | _ => true

def noDelims (s : String) : Bool := adjOK s.data

theorem parseLineGo_nonspace : ∀ (ws : List (List Char)) (o : Nat)
    (c skip : Bool) (acc res : List Char) (c2 : Bool),
    parseLineGo o c skip ws acc = .ok (res, c2) →
    acc.all NS = true → res.all NS = true := by
  intro ws
  induction ws with
  | nil =>
    intro o c skip acc res c2 h hacc
    rw [parseLineGo] at h
    injection h with h2
    injection h2 with ha hb
    subst ha
    exact hacc
  | cons w rest ih =>
    intro o c skip acc res c2 h hacc
    rw [parseLineGo.eq_def] at h
    simp only [] at h
    split at h
    · exact ih o c false acc res c2 h hacc
    · split at h
      · exact ih o (!c) true acc res c2 h hacc
      · split at h
        · cases h
        · split at h
          · injection h with h2
            injection h2 with ha hb
            subst ha
            exact hacc
          · split at h
            · cases h
            · split at h
              · refine ih o c skip _ res c2 h ?_
                rw [List.all_append, hacc]
                simp_all [NS]
              · exact ih o c skip acc res c2 h hacc

theorem slides_app_space (x : List Char) (hx : x ≠ []) :
    slides (x ++ [' ']) = adjPairs (x ++ [' ']) := by
  match x with
  | [] => exact absurd rfl hx
  | [a] => rfl
  | a :: b :: t => rfl

theorem go_adj : ∀ (l : List Char) (o : Nat) (acc : List Char),
    l.all NS = true → adjOK l = true →
    parseLineGo o false false (adjPairs (l ++ [' '])) acc =
      .ok (acc ++ l, false) := by
  intro l
  induction l with
  | nil => intro o acc _ _; simp [adjPairs, parseLineGo]
  | cons c rest ih =>
    intro o acc hns hadj
    have hcns : NS c = true := by
      rw [List.all_cons] at hns
      exact (Bool.and_eq_true ..).mp hns |>.1
    have hrns : rest.all NS = true := by
      rw [List.all_cons] at hns
      exact (Bool.and_eq_true ..).mp hns |>.2
    have hstep : adjPairs ((c :: rest) ++ [' ']) =
        [c, ((rest ++ [' ']).headD ' ')] :: adjPairs (rest ++ [' ']) := by
      match rest with
      | [] => rfl
      | b :: t => rfl
    rw [hstep]
    have hwnd : ¬ (((¬ false = true) ∧
          ([c, (rest ++ [' ']).headD ' '] = ['/', '*'])) ∨
        ((false = true) ∧ ([c, (rest ++ [' ']).headD ' '] = ['*', '/']))) := by
      match rest with
      | [] =>
        simp only [List.nil_append, List.headD]
        intro hcon
        rcases hcon with ⟨_, hw⟩ | ⟨hf, _⟩
        · injection hw with h1 h2
          injection h2 with h3
          cases h3
        · cases hf
      | b :: t =>
        simp only [List.cons_append, List.headD]
        rw [adjOK] at hadj
        have hpair := (Bool.and_eq_true ..).mp hadj |>.1
        intro hcon
        rcases hcon with ⟨_, hw⟩ | ⟨hf, _⟩
        · injection hw with h1 h2
          injection h2 with h3 _
          subst h1
          subst h3
          simp at hpair
        · cases hf
    rw [parseLineGo]
    rw [if_neg (by simp)]
    rw [if_neg hwnd]
    have hnstar : ¬ ((¬ false = true) ∧
        ([c, (rest ++ [' ']).headD ' '] = ['*', '/'])) := by
      match rest with
      | [] =>
        simp only [List.nil_append, List.headD]
        intro hcon
        injection hcon.2 with h1 h2
        injection h2 with h3
        cases h3
      | b :: t =>
        simp only [List.cons_append, List.headD]
        rw [adjOK] at hadj
        have hpair := (Bool.and_eq_true ..).mp hadj |>.1
        intro hcon
        injection hcon.2 with h1 h2
        injection h2 with h3 _
        subst h1
        subst h3
        simp at hpair
    rw [if_neg hnstar]
    have hnslash : ¬ (([c, (rest ++ [' ']).headD ' '] = ['/', '/']) ∧
        (¬ false = true)) := by
      match rest with
      | [] =>
        simp only [List.nil_append, List.headD]
        intro hcon
        injection hcon.1 with h1 h2
        injection h2 with h3
        cases h3
      | b :: t =>
        simp only [List.cons_append, List.headD]
        rw [adjOK] at hadj
        have hpair := (Bool.and_eq_true ..).mp hadj |>.1
        intro hcon
        injection hcon.1 with h1 h2
        injection h2 with h3 _
        subst h1
        subst h3
        simp at hpair
    rw [if_neg hnslash]
    show (if (¬ c.isWhitespace = true) ∧ (¬ false = true) then
            parseLineGo o false false (adjPairs (rest ++ [' '])) (acc ++ [c])
          else parseLineGo o false false (adjPairs (rest ++ [' '])) acc) = _
    rw [if_pos ⟨by simpa [NS] using hcns, by simp⟩]
    have hadjr : adjOK rest = true := by
      match rest with
      | [] => rfl
      | b :: t =>
        rw [adjOK] at hadj
        exact (Bool.and_eq_true ..).mp hadj |>.2
    rw [ih o (acc ++ [c]) hrns hadjr]
    simp

theorem stripChars_id (l : List Char) (h : l.all NS = true) :
    stripChars l = l := by
  have hdw : ∀ (x : List Char), x.all NS = true →
      x.dropWhile Char.isWhitespace = x := by
    intro x hx
    match x with
    | [] => rfl
    | c :: t =>
      rw [List.dropWhile_cons]
      rw [if_neg]
      rw [List.all_cons] at hx
      have := (Bool.and_eq_true ..).mp hx |>.1
      simp [NS] at this
      simp [this]
  rw [stripChars, hdw l h, hdw l.reverse (by rwa [List.all_reverse]),
      List.reverse_reverse]

theorem parseLineF_self (s : String) (pp o : Nat) (hne : s ≠ "")
    (hns : s.data.all NS = true) (hadj : adjOK s.data = true) :
    parseLineF false (s ++ " ") pp o = .ok ([s], false) := by
  have hdata : (s ++ " ").data = s.data ++ [' '] := by
    rw [String.data_append]
  have hdne : s.data ≠ [] := by
    intro hcon
    exact hne (by cases s; simp at hcon; simp [hcon])
  rw [parseLineF, hdata, slides_app_space s.data hdne,
      go_adj s.data o [] hns hadj]
  show Except.ok ([String.mk s.data], false) = _
  rfl

def selfInput : Nat → List String → List ParserLine
  | _, [] => []
  | j, s :: rest =>
    ⟨String.mk (stripChars s.data) ++ " ", j, j⟩ :: selfInput (j + 1) rest

def selfOut : Nat → Nat → List String → List ParserLine
  | _, _, [] => []
  | i, j, s :: rest => ⟨s, i, j⟩ :: selfOut (i + 1) (j + 1) rest

theorem selfOut_lines : ∀ (ls : List String) (i j : Nat),
    (selfOut i j ls).map (fun pl => pl.line) = ls := by
  intro ls
  induction ls with
  | nil => intro i j; rfl
  | cons s rest ih => intro i j; simp [selfOut, ih]

theorem mkInputLines_eq_selfInput (raw : List String) :
    mkInputLines raw = selfInput 0 raw := by
  rw [mkInputLines, List.range_eq_range']
  suffices h : ∀ (j : Nat),
      ((List.range' j raw.length).zip raw).map
        (fun il => (⟨String.mk (stripChars il.2.data) ++ " ", il.1, il.1⟩ :
          ParserLine)) = selfInput j raw by
    exact h 0
  induction raw with
  | nil => intro j; rfl
  | cons s rest ih =>
    intro j
    rw [List.length_cons, List.range'_succ j _ 1]
    rw [List.zip_cons_cons, List.map_cons, selfInput]
    rw [ih (j + 1)]

theorem stageGo_self : ∀ (raw : List String) (i j : Nat),
    (∀ s ∈ raw, s ≠ "" ∧ s.data.all NS = true ∧ adjOK s.data = true) →
    iterLinesGo parseLineF false i (selfInput j raw) =
      .ok (selfOut i j raw, false) := by
  intro raw
  induction raw with
  | nil => intro i j _; rfl
  | cons s rest ih =>
    intro i j h
    obtain ⟨hne, hns, hadj⟩ := h s (List.mem_cons_self ..)
    rw [selfInput, iterLinesGo]
    have hline : String.mk (stripChars s.data) ++ " " = s ++ " " := by
      rw [stripChars_id s.data hns]
    rw [hline]
    rw [parseLineF_self s i j hne hns hadj]
    simp only [Bind.bind, Except.bind]
    have hblank : piecesBlank [s] = false := by
      rw [piecesBlank]
      simp only [List.all_cons, List.all_nil, Bool.and_true]
      match hsd : s.data with
      | [] =>
        exact absurd (by cases s; simp at hsd; simp [hsd]) hne
      | c :: t =>
        rw [List.all_cons]
        rw [hsd, List.all_cons] at hns
        have := (Bool.and_eq_true ..).mp hns |>.1
        simp [NS] at this
        simp [this]
    rw [hblank]
    simp only [Bool.false_eq_true, if_false, ite_false]
    rw [show (i + [s].length) = i + 1 from rfl]
    rw [ih (i + 1) (j + 1) (fun q hq => h q (List.mem_cons_of_mem _ hq))]
    simp [pure, Except.pure, selfOut, show List.range 1 = [0] from rfl]

theorem stage_out_good : ∀ (pls : List ParserLine) (flag0 : Bool) (i : Nat)
    (out : List ParserLine) (flag : Bool),
    iterLinesGo parseLineF flag0 i pls = .ok (out, flag) →
    ∀ pl ∈ out, pl.line ≠ "" ∧ pl.line.data.all NS = true := by
  intro pls
  induction pls with
  | nil =>
    intro flag0 i out flag h pl hpl
    rw [iterLinesGo] at h
    injection h with h2
    injection h2 with ha hb
    subst ha
    cases hpl
  | cons q rest ih =>
    intro flag0 i out flag h pl hpl
    rw [iterLinesGo] at h
    match hF : parseLineF flag0 q.line i q.lineno_original with
    | .error e => rw [hF] at h; cases h
    | .ok (pieces, s2) =>
      rw [hF] at h
      simp only [Bind.bind, Except.bind] at h
      have hacc : ∃ (acc : List Char), pieces = [String.mk acc] ∧
          acc.all NS = true := by
        rw [parseLineF] at hF
        match hG : parseLineGo q.lineno_original flag0 false
            (slides q.line.data) [] with
        | .error e => rw [hG] at hF; cases hF
        | .ok (acc, cc) =>
          rw [hG] at hF
          simp only [Bind.bind, Except.bind, pure, Except.pure] at hF
          injection hF with hF2
          injection hF2 with hFa hFb
          exact ⟨acc, hFa.symm, parseLineGo_nonspace _ _ _ _ _ _ _ hG rfl⟩
      obtain ⟨acc, hpieces, haccns⟩ := hacc
      subst hpieces
      split at h
      · exact ih _ _ _ _ h pl hpl
      · next hnb =>
        match hR : iterLinesGo parseLineF s2 (i + 1) rest with
        | .error e =>
          rw [show (i + [String.mk acc].length) = i + 1 from rfl, hR] at h
          cases h
        | .ok (outRest, s3) =>
          rw [show (i + [String.mk acc].length) = i + 1 from rfl, hR] at h
          simp only [pure, Except.pure] at h
          injection h with h2
          injection h2 with ha hb
          subst ha
          simp only [List.mem_append] at hpl
          rcases hpl with hpl | hpl
          · simp only [List.length_cons, List.length_nil, Nat.zero_add,
              show List.range 1 = [0] from rfl, List.zip_cons_cons,
              List.zip_nil_left, List.zip_nil_right, List.map_cons,
              List.map_nil, List.mem_singleton] at hpl
            subst hpl
            refine ⟨?_, haccns⟩
            intro hcon
            apply hnb
            have hacc_nil : acc = [] := by
              have := congrArg String.data hcon
              simpa using this
            subst hacc_nil
            rfl
          · exact ih _ _ _ _ hR pl hpl

/-- Claim C8, counterexample: the comment-strip stage is NOT idempotent.
The input line a/ *b survives the first pass as a/*b (the space between
the slash and the star is removed by the whitespace strip), but a second
pass then reads /* as a block-comment opener and truncates the line to a. -/
theorem C8_comment_strip_counterexample :
    commentStage ["a/ *b"] = .ok ([⟨"a/*b", 0, 0⟩], false) ∧
    commentStage ["a/*b"] = .ok ([⟨"a", 0, 0⟩], true) ∧
    ("a" : String) ≠ "a/*b" :=
  ⟨rfl, rfl, by decide⟩

/-- Claim C8, amended: the comment-strip stage is idempotent on every
output whose lines contain no two-character comment delimiter (no //,
/* or */ once spaces are gone): re-running the stage on such output
succeeds with comment state false and reproduces every line unchanged. -/
theorem C8_comment_strip_idempotent (raw : List String)
    (out : List ParserLine) (flag : Bool)
    (h : commentStage raw = .ok (out, flag))
    (hnd : ∀ pl ∈ out, noDelims pl.line = true) :
    ∃ out2, commentStage (out.map (fun pl => pl.line)) = .ok (out2, false) ∧
      out2.map (fun pl => pl.line) = out.map (fun pl => pl.line) := by
  refine ⟨selfOut 0 0 (out.map (fun pl => pl.line)), ?_, selfOut_lines _ 0 0⟩
  have hgood := stage_out_good (mkInputLines raw) false 0 out flag h
  rw [commentStage, iterLines, mkInputLines_eq_selfInput]
  apply stageGo_self
  intro s hs
  rw [List.mem_map] at hs
  obtain ⟨pl, hpl, hline⟩ := hs
  subst hline
  obtain ⟨hne, hns⟩ := hgood pl hpl
  exact ⟨hne, hns, hnd pl hpl⟩

theorem C8_comment_strip_idempotent_witness :
    ∃ out2, commentStage (([⟨"a", 0, 0⟩, ⟨"b", 1, 1⟩] :
        List ParserLine).map (fun pl => pl.line)) = .ok (out2, false) ∧
      out2.map (fun pl => pl.line) =
        ([⟨"a", 0, 0⟩, ⟨"b", 1, 1⟩] :
          List ParserLine).map (fun pl => pl.line) :=
  C8_comment_strip_idempotent ["a//c", "b"] [⟨"a", 0, 0⟩, ⟨"b", 1, 1⟩] false
    (by rfl) (by decide)

/-- macros.AND.SIMPLE_OPS (macros.py 559-573). -/
def AND.SIMPLE_OPS : List ((String × String) × String) :=
  [(("0", "0"), "0"), (("1", "1"), "1"), (("-1", "-1"), "1"),
   (("0", "1"), "0"), (("0", "-1"), "0"), (("1", "-1"), "1"),
   (("D", "0"), "0"), (("A", "0"), "0"), (("M", "0"), "0")]

/-- macros.AND.COMPLEX_OPS (macros.py 575-588). -/
def AND.COMPLEX_OPS : List ((String × String) × String) :=
  [(("D", "D"), "D=D"), (("A", "A"), "D=A"), (("M", "M"), "D=M"),
   (("D", "-1"), "D=D"), (("A", "-1"), "D=A"), (("M", "-1"), "D=M"),
   (("D", "1"), "D=D"), (("A", "1"), "D=A"), (("M", "1"), "D=M")]

/-- macros.AND.run, lines 899-1073: the part after the register-constant
chain (constant-constant, constant-address, address-address,
register-address, and the final Nevalidan argument raise), taking the
operands as mutated by the swap on line 811. -/
def AND.afterRegConst (DST : Destination) (A1 A2 : Argument) (p o : Nat) :
    Except MErr (List String) :=
  let check_value := ["@__andcheckfailed_" ++ toString p, "D;JEQ"]
  let end_operation := ["D=1", "@__endandoperation_" ++ toString p, "0;JMP"]
  let check_labels := ["(__andcheckfailed_" ++ toString p ++ ")", "D=0",
                       "(__endandoperation_" ++ toString p ++ ")"]
  let restore_address := ["@__aux", "A=M"]
  if A1.is_constant ∧ A2.is_constant then
    -- int(c1 and c2): Python `and` keeps c1 when it is 0, else c2
    let v : Int := if A1.constant_field = 0 then 0 else A2.constant_field
    if DST.is_register then
      .ok [DST.registers_field ++ "=" ++ toString v]
    else
      let save_address := ["D=A", "@__aux", "M=D"]
      let set_destination :=
        ["@" ++ DST.location] ++ derefPieces DST.stars ++
        ["M=" ++ toString v]
      .ok (clean (save_address ++ set_destination ++ restore_address))
  else
    let (ARG1, ARG2) :=
      if A2.is_constant ∧ A1.is_address then (A2, A1) else (A1, A2)
    if ARG1.is_constant ∧ ARG2.is_address then
      if ARG1.constant_field = 0 then
        if DST.is_address then
          let save_address := ["D=A", "@__aux", "M=D"]
          let set_destination :=
            ["@" ++ DST.location] ++ derefPieces DST.stars ++ ["M=0"]
          .ok (clean (save_address ++ set_destination ++ restore_address))
        else
          .ok [DST.registers_field ++ "=0"]
      else
        let save_address := ["D=A", "@__aux", "M=D"]
        let compute_value :=
          ["@" ++ ARG2.location] ++ derefPieces ARG2.stars ++ ["D=M"]
        if DST.is_address then
          let set_destination :=
            ["@" ++ DST.location] ++ derefPieces DST.stars ++ ["M=D"]
          .ok (clean (save_address ++ compute_value ++ check_value ++
                      end_operation ++ check_labels ++ set_destination ++
                      restore_address))
        else
          .ok (clean (save_address ++ compute_value ++ check_value ++
                      end_operation ++ check_labels ++ restore_address ++
                      [DST.registers_field ++ "=D"]))
    else if ARG1.is_address ∧ ARG2.is_address then
      let save_address := ["D=A", "@__aux", "M=D"]
      let get_value1 :=
        ["@" ++ ARG1.location] ++ derefPieces ARG1.stars ++ ["D=M"]
      let get_value2 :=
        ["@" ++ ARG2.location] ++ derefPieces ARG2.stars ++ ["D=M"]
      if DST.is_address then
        let set_destination :=
          ["@" ++ DST.location] ++ derefPieces DST.stars ++ ["M=D"]
        .ok (clean (save_address ++ get_value1 ++ check_value ++
                    get_value2 ++ check_value ++ end_operation ++
                    check_labels ++ set_destination ++ restore_address))
      else
        .ok (clean (save_address ++ get_value1 ++ check_value ++
                    get_value2 ++ check_value ++ end_operation ++
                    check_labels ++ restore_address ++
                    [DST.registers_field ++ "=D"]))
    else
      let (ARG1, ARG2) :=
        if ARG2.is_register ∧ ARG1.is_address then (ARG2, ARG1)
        else (ARG1, ARG2)
      if ARG1.is_register ∧ ARG1.register_field ≠ "D" ∧ ARG2.is_address then
        let save_address := ["D=A", "@__aux", "AM=D"]
        let get_value1 := ["D=" ++ ARG1.register_field]
        let get_value2 :=
          ["@" ++ ARG2.location] ++ derefPieces ARG2.stars ++ ["D=M"]
        -- macros.py 1004: the first label lacks the underscore before p
        let check_labels_bug :=
          ["(__andcheckfailed" ++ toString p ++ ")", "D=0",
           "(__endandoperation_" ++ toString p ++ ")"]
        if DST.is_address then
          let set_destination :=
            ["@" ++ DST.location] ++ derefPieces DST.stars ++ ["M=D"]
          .ok (clean (save_address ++ get_value1 ++ check_value ++
                      get_value2 ++ check_value ++ end_operation ++
                      check_labels_bug ++ set_destination ++
                      restore_address))
        else
          .ok (clean (save_address ++ get_value1 ++ check_value ++
                      get_value2 ++ check_value ++ end_operation ++
                      check_labels_bug ++ restore_address ++
                      [DST.registers_field ++ "=D"]))
      else if ARG1.is_register ∧ ARG1.register_field = "D" ∧
          ARG2.is_address then
        let get_value2 :=
          ["@" ++ ARG2.location] ++ derefPieces ARG2.stars ++ ["D=M"]
        if (DST.is_register ∧ ¬ regsHas DST.registers_field 'M') ∨
            DST.is_address then
          let set_destination :=
            if DST.is_register then [DST.registers_field ++ "=D"]
            else ["@" ++ DST.location] ++ derefPieces DST.stars ++ ["M=D"]
          .ok (clean (check_value ++ get_value2 ++ check_value ++
                      end_operation ++ check_labels ++ set_destination))
        else if DST.is_register ∧ regsHas DST.registers_field 'M' then
          let save_address := ["M=D", "D=A", "@__aux", "AM=D", "D=M"]
          .ok (clean (save_address ++ check_value ++ get_value2 ++
                      check_value ++ end_operation ++ check_labels ++
                      restore_address ++ [DST.registers_field ++ "=D"]))
        else
          .error (.perr "MCR" "[OR] Nevalidan argument." o)
      else
        .error (.perr "MCR" "[OR] Nevalidan argument." o)

/-- macros.AND.run body after the argument parse (macros.py 615-897 plus
the tail via AND.afterRegConst), taking the parsed destination and
operands plus the raw operand strings (the simple/complex tables are
keyed on the raw strings). -/
def AND.core (DST : Destination) (A1 A2 : Argument)
    (_ARG1 _ARG2 : String) (p o : Nat) : Except MErr (List String) :=
  let simple_op : Option (String × String) :=
    if (AND.SIMPLE_OPS.lookup (_ARG1, _ARG2)).isSome then some (_ARG1, _ARG2)
    else if (AND.SIMPLE_OPS.lookup (_ARG2, _ARG1)).isSome then
      some (_ARG2, _ARG1)
    else none
  let complex_op : Option (String × String) :=
    if (AND.COMPLEX_OPS.lookup (_ARG1, _ARG2)).isSome then
      some (_ARG1, _ARG2)
    else if (AND.COMPLEX_OPS.lookup (_ARG2, _ARG1)).isSome then
      some (_ARG2, _ARG1)
    else none
  let check_value := ["@__andcheckfailed_" ++ toString p, "D;JEQ"]
  let end_operation := ["D=1", "@__endandoperation_" ++ toString p, "0;JMP"]
  let check_labels := ["(__andcheckfailed_" ++ toString p ++ ")", "D=0",
                       "(__endandoperation_" ++ toString p ++ ")"]
  let restore_address := ["@__aux", "A=M"]
  if DST.is_register ∧ simple_op.isSome then
    let q := simple_op.getD ("", "")
    .ok [DST.registers_field ++ "=" ++ (AND.SIMPLE_OPS.lookup q).getD ""]
  else if DST.is_address ∧ simple_op.isSome then
    let q := simple_op.getD ("", "")
    let save_address := ["D=A", "@__aux", "M=D"]
    let set_destination := ["@" ++ DST.location] ++ derefPieces DST.stars ++
      ["M=" ++ (AND.SIMPLE_OPS.lookup q).getD ""]
    .ok (clean (save_address ++ set_destination ++ restore_address))
  else if DST.is_register ∧ complex_op.isSome ∧
      pairHasD (complex_op.getD ("", "")) then
    let get_value :=
      [(AND.COMPLEX_OPS.lookup (complex_op.getD ("", ""))).getD ""]
    if ¬ regsHas DST.registers_field 'M' then
      -- macros.py 642: the @ before the label name is missing, and
      -- macros.py 648-651 omits end_operation from the emitted block
      let check_value_bug := ["__andcheckfailed_" ++ toString p, "D;JEQ"]
      .ok (clean (get_value ++ check_value_bug ++ check_labels ++
                  [DST.registers_field ++ "=D"]))
    else
      let save_address := ["M=D", "D=A", "@__aux", "AM=D", "D=M"]
      .ok (clean (save_address ++ get_value ++ check_value ++
                  end_operation ++ check_labels ++ restore_address ++
                  [DST.registers_field ++ "=D"]))
  else if DST.is_address ∧ complex_op.isSome ∧
      pairHasD (complex_op.getD ("", "")) then
    let get_value :=
      [(AND.COMPLEX_OPS.lookup (complex_op.getD ("", ""))).getD ""]
    let set_destination :=
      ["@" ++ DST.location] ++ derefPieces DST.stars ++ ["M=D"]
    .ok (clean (get_value ++ check_value ++ end_operation ++ check_labels ++
                set_destination))
  else if DST.is_register ∧ complex_op.isSome ∧
      ¬ pairHasD (complex_op.getD ("", "")) then
    let save_address := ["D=A", "@__aux", "AM=D"]
    let get_value :=
      [(AND.COMPLEX_OPS.lookup (complex_op.getD ("", ""))).getD ""]
    -- macros.py 694: plain (non-f) string, emitted verbatim
    let set_destination := ["\x7bDST.registers\x7d=D"]
    .ok (clean (save_address ++ get_value ++ check_value ++ end_operation ++
                check_labels ++ restore_address ++ set_destination))
  else if DST.is_address ∧ complex_op.isSome ∧
      ¬ pairHasD (complex_op.getD ("", "")) then
    let save_address := ["D=A", "@__aux", "AM=D"]
    let get_value :=
      [(AND.COMPLEX_OPS.lookup (complex_op.getD ("", ""))).getD ""]
    let set_destination :=
      ["@" ++ DST.location] ++ derefPieces DST.stars ++ ["M=D"]
    .ok (clean (save_address ++ get_value ++ check_value ++ end_operation ++
                check_labels ++ set_destination ++ restore_address))
  else if A1.is_register ∧ A2.is_register ∧
      ((A1.register_field, A2.register_field) = ("M", "D") ∨
       (A1.register_field, A2.register_field) = ("D", "M")) then
    .error (.perr "MCR" "[AND] Nemoguća operacija." o)
  else if A1.is_register ∧ A2.is_register ∧
      ((A1.register_field, A2.register_field) = ("A", "D") ∨
       (A1.register_field, A2.register_field) = ("D", "A")) then
    if (DST.is_register ∧ ¬ regsHas DST.registers_field 'M') ∨
        DST.is_address then
      .error (.perr "MCR" "[AND] Nemoguća operacija." o)
    else
      let save_address := ["M=D", "D=A", "@__aux", "M=D"]
      let get_D := ["A=D", "D=M"]
      .ok (clean (save_address ++ check_value ++ get_D ++ check_value ++
                  end_operation ++ check_labels ++ restore_address ++
                  [DST.registers_field ++ "=D"]))
  else if A1.is_register ∧ A2.is_register ∧
      ((A1.register_field, A2.register_field) = ("A", "M") ∨
       (A1.register_field, A2.register_field) = ("M", "A")) then
    let save_address := ["D=A", "@__aux", "AM=D"]
    let get_M := ["A=D", "D=M"]
    if DST.is_register then
      .ok (clean (save_address ++ check_value ++ get_M ++ check_value ++
                  end_operation ++ check_labels ++ restore_address ++
                  [DST.registers_field ++ "=D"]))
    else
      -- macros.py 801: plain (non-f) string, emitted verbatim
      let set_destination :=
        ["@\x7bDST.location\x7d", "\x7bDST.dereferences\x7d", "M=D"]
      .ok (clean (save_address ++ check_value ++ get_M ++ check_value ++
                  end_operation ++ check_labels ++ set_destination ++
                  restore_address))
  else
    let (ARG1, ARG2) :=
      if A2.is_register ∧ A1.is_constant then (A2, A1) else (A1, A2)
    if ARG1.is_register ∧ ARG2.is_constant then
      if ARG2.constant_field = 0 then
        if DST.is_address then
          let save_address := ["D=A", "@__aux", "M=D"]
          let set_destination :=
            ["@" ++ DST.location] ++ derefPieces DST.stars ++ ["M=0"]
          .ok (clean (save_address ++ set_destination ++ restore_address))
        else
          .ok [DST.registers_field ++ "=0"]
      else if DST.is_address ∧ ARG1.register_field ≠ "D" then
        let save_address := ["D=A", "@__aux", "AM=D"]
        let compute_value := ["D=" ++ ARG1.register_field]
        let set_destination :=
          ["@" ++ DST.location] ++ derefPieces DST.stars ++ ["M=D"]
        .ok (clean (save_address ++ compute_value ++ check_value ++
                    end_operation ++ check_labels ++ set_destination ++
                    restore_address))
      else if DST.is_address ∧ ARG1.register_field = "D" then
        let set_destination :=
          ["@" ++ DST.location] ++ derefPieces DST.stars ++ ["M=D"]
        .ok (clean (check_value ++ end_operation ++ check_labels ++
                    set_destination))
      else if DST.is_register ∧ ARG1.register_field ≠ "D" then
        let save_address := ["D=A", "@__aux", "AM=D"]
        let compute_value := ["D=" ++ ARG1.register_field]
        .ok (clean (save_address ++ compute_value ++ check_value ++
                    end_operation ++ check_labels ++ restore_address ++
                    [DST.registers_field ++ "=D"]))
      else if DST.is_register ∧ False then
        -- macros.py 878 compares the Argument object itself with the
        -- string D, which is always false: this branch is dead and
        -- control falls through to the tail
        let set_destination := ["\x7bDST.registers\x7d=D"]
        if ¬ regsHas DST.registers_field 'M' then
          .ok (check_value ++ end_operation ++ check_labels ++
               set_destination)
        else
          let save_address := ["M=D", "D=A", "@__aux", "AM=D", "D=M"]
          .ok (clean (save_address ++ check_value ++ check_labels ++
                      restore_address ++ set_destination))
      else
        AND.afterRegConst DST ARG1 ARG2 p o
    else
      AND.afterRegConst DST ARG1 ARG2 p o

/-- macros.AND.run (macros.py 590-1073). -/
def AND.run (arguments : List String) (p o : Nat) :
    Except MErr (List String) := do
  let _ARG1 ← argGet arguments 1
  let _ARG2 ← argGet arguments 2
  let a0 ← argGet arguments 0
  let DST ← parseDst a0 o
    "[OR] Destinacija mora biti jedan ili više registara,ili adresa."
  let badA := "[OR] Argument mora biti registar, konstanta, ili adresa."
  let oobA := "[OR] Konstanta mora biti u [-32768, 32767]."
  let ARG1 ← parseArg _ARG1 o badA oobA
  let ARG2 ← parseArg _ARG2 o badA oobA
  AND.core DST ARG1 ARG2 _ARG1 _ARG2 p o
/-- Test whether a simple-ops key pair contains the string 0
(Python tuple membership, used for the XOR jump type). -/
def pairHas0 (q : String × String) : Bool := q.1 = "0" ∨ q.2 = "0"

/-- macros.XOR.SIMPLE_OPS (macros.py 1494-1507). -/
def XOR.SIMPLE_OPS : List ((String × String) × String) :=
  [(("0", "0"), "0"), (("1", "1"), "0"), (("-1", "-1"), "0"),
   (("0", "1"), "1"), (("0", "-1"), "1"), (("1", "-1"), "0"),
   (("D", "D"), "0"), (("A", "A"), "0"), (("M", "M"), "0")]

/-- macros.XOR.COMPLEX_OPS (macros.py 1509-1523). -/
def XOR.COMPLEX_OPS : List ((String × String) × String) :=
  [(("D", "1"), "D=D"), (("A", "1"), "D=A"), (("M", "1"), "D=M"),
   (("D", "-1"), "D=D"), (("A", "-1"), "D=A"), (("M", "-1"), "D=M"),
   (("D", "0"), "D=D"), (("A", "0"), "D=A"), (("M", "0"), "D=M")]

/-- macros.XOR.run, lines 1821-2019: the part after the register-constant
chain (constant-constant, constant-address — which crashes reading
ARG2.constant on an address —, address-address, register-address, and
the final Nevalidan argument raise), operands as mutated by the swap on
line 1836. -/
def XOR.afterRegConst (DST : Destination) (A1 A2 : Argument) (p o : Nat) :
    Except MErr (List String) :=
  let check_first := ["@__xorfirstfalse_" ++ toString p, "D;JEQ"]
  let check_value_true := ["@__xorcheckfailed_" ++ toString p, "D;JNE"]
  let check_value_false := ["@__xorcheckfailed_" ++ toString p, "D;JEQ"]
  let first_false_label := ["(__xorfirstfalse_" ++ toString p ++ ")"]
  let end_operation := ["D=1", "@__endxoroperation_" ++ toString p, "0;JMP"]
  let check_labels := ["(__xorcheckfailed_" ++ toString p ++ ")", "D=0",
                       "(__endxoroperation_" ++ toString p ++ ")"]
  let restore_address := ["@__aux", "A=M"]
  if A1.is_constant ∧ A2.is_constant then
    -- int(bool(c1) != bool(c2))
    let v : Int :=
      if decide (A1.constant_field ≠ 0) = decide (A2.constant_field ≠ 0)
      then 0 else 1
    if DST.is_register then
      .ok [DST.registers_field ++ "=" ++ toString v]
    else
      let save_address := ["D=A", "@__aux", "M=D"]
      let set_destination :=
        ["@" ++ DST.location] ++ derefPieces DST.stars ++
        ["M=" ++ toString v]
      .ok (clean (save_address ++ set_destination ++ restore_address))
  else
    let (ARG1, ARG2) :=
      if A2.is_constant ∧ A1.is_address then (A2, A1) else (A1, A2)
    if ARG1.is_constant ∧ ARG2.is_address then
      -- macros.py 1844 reads ARG2.constant while ARG2 is an address:
      -- the property raises an uncaught WrongTypeError
      .error (.pycrash "WrongTypeError")
    else if ARG1.is_address ∧ ARG2.is_address then
      let save_address := ["D=A", "@__aux", "M=D"]
      let get_value1 :=
        ["@" ++ ARG1.location] ++ derefPieces ARG1.stars ++ ["D=M"]
      let get_value2 :=
        ["@" ++ ARG2.location] ++ derefPieces ARG2.stars ++ ["D=M"]
      if DST.is_address then
        let set_destination :=
          ["@" ++ DST.location] ++ derefPieces DST.stars ++ ["M=D"]
        .ok (clean (save_address ++ get_value1 ++ check_first ++
                    get_value2 ++ check_value_true ++ end_operation ++
                    first_false_label ++ get_value2 ++ check_value_false ++
                    end_operation ++ check_labels ++ set_destination ++
                    restore_address))
      else
        .ok (clean (save_address ++ get_value1 ++ check_first ++
                    get_value2 ++ check_value_true ++ end_operation ++
                    first_false_label ++ get_value2 ++ check_value_false ++
                    end_operation ++ check_labels ++ restore_address ++
                    [DST.registers_field ++ "=D"]))
    else
      let (ARG1, ARG2) :=
        if ARG2.is_register ∧ ARG1.is_address then (ARG2, ARG1)
        else (ARG1, ARG2)
      if ARG1.is_register ∧ ARG1.register_field ≠ "D" ∧ ARG2.is_address then
        let save_address := ["D=A", "@__aux", "M=D"]
        let get_value1 := ["D=" ++ ARG1.register_field]
        let get_value2 :=
          ["@" ++ ARG2.location] ++ derefPieces ARG2.stars ++ ["D=M"]
        if DST.is_address then
          let set_destination :=
            ["@" ++ DST.location] ++ derefPieces DST.stars ++ ["M=D"]
          .ok (clean (save_address ++ get_value1 ++ check_first ++
                      get_value2 ++ check_value_true ++ end_operation ++
                      first_false_label ++ get_value2 ++
                      check_value_false ++ end_operation ++ check_labels ++
                      set_destination ++ restore_address))
        else
          .ok (clean (save_address ++ get_value1 ++ check_first ++
                      get_value2 ++ check_value_true ++ end_operation ++
                      first_false_label ++ get_value2 ++
                      check_value_false ++ end_operation ++ check_labels ++
                      restore_address ++ [DST.registers_field ++ "=D"]))
      else if ARG1.is_register ∧ ARG1.register_field = "D" ∧
          ARG2.is_address then
        let get_value2 :=
          ["@" ++ ARG2.location] ++ derefPieces ARG2.stars ++ ["D=M"]
        if (DST.is_register ∧ ¬ regsHas DST.registers_field 'M') ∨
            DST.is_address then
          let set_destination :=
            if DST.is_register then [DST.registers_field ++ "=D"]
            else ["@" ++ DST.location] ++ derefPieces DST.stars ++ ["M=D"]
          .ok (clean (check_first ++ get_value2 ++ check_value_true ++
                      end_operation ++ first_false_label ++ get_value2 ++
                      check_value_false ++ end_operation ++ check_labels ++
                      set_destination))
        else if DST.is_register ∧ regsHas DST.registers_field 'M' then
          let save_address := ["M=D", "D=A", "@__aux", "AM=D", "D=M"]
          let set_destination :=
            if DST.is_register then [DST.registers_field ++ "=D"]
            else ["@" ++ DST.location] ++ derefPieces DST.stars ++ ["M=D"]
          .ok (clean (save_address ++ check_first ++ get_value2 ++
                      check_value_true ++ end_operation ++
                      first_false_label ++ get_value2 ++
                      check_value_false ++ end_operation ++ check_labels ++
                      restore_address ++ set_destination))
        else
          .error (.perr "MCR" "[OR] Nevalidan argument." o)
      else
        .error (.perr "MCR" "[OR] Nevalidan argument." o)

/-- macros.XOR.run body after the argument parse (macros.py 1550-1819
plus the tail via XOR.afterRegConst), taking the parsed destination and
operands plus the raw operand strings. -/
def XOR.core (DST : Destination) (A1 A2 : Argument)
    (_ARG1 _ARG2 : String) (p o : Nat) : Except MErr (List String) :=
  let simple_op : Option (String × String) :=
    if (XOR.SIMPLE_OPS.lookup (_ARG1, _ARG2)).isSome then some (_ARG1, _ARG2)
    else if (XOR.SIMPLE_OPS.lookup (_ARG2, _ARG1)).isSome then
      some (_ARG2, _ARG1)
    else none
  let complex_op : Option (String × String) :=
    if (XOR.COMPLEX_OPS.lookup (_ARG1, _ARG2)).isSome then
      some (_ARG1, _ARG2)
    else if (XOR.COMPLEX_OPS.lookup (_ARG2, _ARG1)).isSome then
      some (_ARG2, _ARG1)
    else none
  let jump_type :=
    if pairHas0 (complex_op.getD ("", "")) then "JEQ" else "JNE"
  let check_value := ["@__xorcheckfailed_" ++ toString p, "D;" ++ jump_type]
  let check_first := ["@__xorfirstfalse_" ++ toString p, "D;JEQ"]
  let check_value_true := ["@__xorcheckfailed_" ++ toString p, "D;JNE"]
  let check_value_false := ["@__xorcheckfailed_" ++ toString p, "D;JEQ"]
  let first_false_label := ["(__xorfirstfalse_" ++ toString p ++ ")"]
  let end_operation := ["D=1", "@__endxoroperation_" ++ toString p, "0;JMP"]
  let check_labels := ["(__xorcheckfailed_" ++ toString p ++ ")", "D=0",
                       "(__endxoroperation_" ++ toString p ++ ")"]
  let restore_address := ["@__aux", "A=M"]
  if DST.is_register ∧ simple_op.isSome then
    let q := simple_op.getD ("", "")
    .ok [DST.registers_field ++ "=" ++ (XOR.SIMPLE_OPS.lookup q).getD ""]
  else if DST.is_address ∧ simple_op.isSome then
    let q := simple_op.getD ("", "")
    let save_address := ["D=A", "@__aux", "M=D"]
    let set_destination := ["@" ++ DST.location] ++ derefPieces DST.stars ++
      ["M=" ++ (XOR.SIMPLE_OPS.lookup q).getD ""]
    .ok (clean (save_address ++ set_destination ++ restore_address))
  else if DST.is_register ∧ complex_op.isSome ∧
      pairHasD (complex_op.getD ("", "")) then
    let get_value :=
      [(XOR.COMPLEX_OPS.lookup (complex_op.getD ("", ""))).getD ""]
    if ¬ regsHas DST.registers_field 'M' then
      -- macros.py 1578: the @ before the label name is missing, and
      -- macros.py 1584-1587 omits end_operation from the emitted block
      let check_value_bug :=
        ["__xorcheckfailed_" ++ toString p, "D;" ++ jump_type]
      .ok (clean (get_value ++ check_value_bug ++ check_labels ++
                  [DST.registers_field ++ "=D"]))
    else
      let save_address := ["M=D", "D=A", "@__aux", "AM=D", "D=M"]
      .ok (clean (save_address ++ get_value ++ check_value ++
                  end_operation ++ check_labels ++ restore_address ++
                  [DST.registers_field ++ "=D"]))
  else if DST.is_address ∧ complex_op.isSome ∧
      pairHasD (complex_op.getD ("", "")) then
    let get_value :=
      [(XOR.COMPLEX_OPS.lookup (complex_op.getD ("", ""))).getD ""]
    let set_destination :=
      ["@" ++ DST.location] ++ derefPieces DST.stars ++ ["M=D"]
    .ok (clean (get_value ++ check_value ++ end_operation ++ check_labels ++
                set_destination))
  else if DST.is_register ∧ complex_op.isSome ∧
      ¬ pairHasD (complex_op.getD ("", "")) then
    let save_address := ["D=A", "@__aux", "AM=D"]
    let get_value :=
      [(XOR.COMPLEX_OPS.lookup (complex_op.getD ("", ""))).getD ""]
    -- macros.py 1632: plain (non-f) string, emitted verbatim
    let set_destination := ["\x7bDST.registers\x7d=D"]
    .ok (clean (save_address ++ get_value ++ check_value ++ end_operation ++
                check_labels ++ restore_address ++ set_destination))
  else if DST.is_address ∧ complex_op.isSome ∧
      ¬ pairHasD (complex_op.getD ("", "")) then
    let save_address := ["D=A", "@__aux", "AM=D"]
    let get_value :=
      [(XOR.COMPLEX_OPS.lookup (complex_op.getD ("", ""))).getD ""]
    let set_destination :=
      ["@" ++ DST.location] ++ derefPieces DST.stars ++ ["M=D"]
    .ok (clean (save_address ++ get_value ++ check_value ++ end_operation ++
                check_labels ++ set_destination ++ restore_address))
  else if A1.is_register ∧ A2.is_register ∧
      ((A1.register_field, A2.register_field) = ("M", "D") ∨
       (A1.register_field, A2.register_field) = ("D", "M")) then
    .error (.perr "MCR" "[XOR] Nemoguća operacija." o)
  else if A1.is_register ∧ A2.is_register ∧
      ((A1.register_field, A2.register_field) = ("A", "D") ∨
       (A1.register_field, A2.register_field) = ("D", "A")) then
    if (DST.is_register ∧ ¬ regsHas DST.registers_field 'M') ∨
        DST.is_address then
      .error (.perr "MCR" "[XOR] Nemoguća operacija." o)
    else
      let save_address := ["M=D", "D=A", "@__aux", "M=D"]
      let get_D := ["A=D", "D=M"]
      .ok (clean (save_address ++ check_first ++ get_D ++
                  check_value_true ++ end_operation ++ first_false_label ++
                  get_D ++ check_value_false ++ end_operation ++
                  check_labels ++ restore_address ++
                  [DST.registers_field ++ "=D"]))
  else if A1.is_register ∧ A2.is_register ∧
      ((A1.register_field, A2.register_field) = ("A", "M") ∨
       (A1.register_field, A2.register_field) = ("M", "A")) then
    let save_address := ["D=A", "@__aux", "AM=D"]
    let get_M := ["A=D", "D=M"]
    if DST.is_register then
      .ok (clean (save_address ++ check_first ++ get_M ++
                  check_value_true ++ end_operation ++ first_false_label ++
                  get_M ++ check_value_false ++ end_operation ++
                  check_labels ++ restore_address ++
                  [DST.registers_field ++ "=D"]))
    else
      -- macros.py 1730: plain (non-f) string, emitted verbatim
      let set_destination :=
        ["@\x7bDST.location\x7d", "\x7bDST.dereferences\x7d", "M=D"]
      .ok (clean (save_address ++ check_first ++ get_M ++
                  check_value_true ++ end_operation ++ first_false_label ++
                  get_M ++ check_value_false ++ end_operation ++
                  check_labels ++ set_destination ++ restore_address))
  else
    let (ARG1, ARG2) :=
      if A2.is_register ∧ A1.is_constant then (A2, A1) else (A1, A2)
    if ARG1.is_register ∧ ARG2.is_constant then
      let jt := if ARG2.constant_field ≠ 0 then "JNE" else "JEQ"
      let cv := ["@__xorcheckfailed_" ++ toString p, "D;" ++ jt]
      if DST.is_address ∧ ARG1.register_field ≠ "D" then
        let save_address := ["D=A", "@__aux", "AM=D"]
        let compute_value := ["D=" ++ ARG1.register_field]
        let set_destination :=
          ["@" ++ DST.location] ++ derefPieces DST.stars ++ ["M=D"]
        .ok (clean (save_address ++ compute_value ++ cv ++
                    end_operation ++ check_labels ++ set_destination ++
                    restore_address))
      else if DST.is_address ∧ ARG1.register_field = "D" then
        let set_destination :=
          ["@" ++ DST.location] ++ derefPieces DST.stars ++ ["M=D"]
        .ok (clean (cv ++ end_operation ++ check_labels ++
                    set_destination))
      else if DST.is_register ∧ ARG1.register_field ≠ "D" then
        let save_address := ["D=A", "@__aux", "AM=D"]
        let compute_value := ["D=" ++ ARG1.register_field]
        .ok (clean (save_address ++ compute_value ++ cv ++
                    end_operation ++ check_labels ++ restore_address ++
                    [DST.registers_field ++ "=D"]))
      else if DST.is_register ∧ ARG1.register_field = "D" then
        -- macros.py 1806: plain (non-f) string, emitted verbatim;
        -- the first return (macros.py 1808-1811) is not cleaned
        let set_destination := ["\x7bDST.registers\x7d=D"]
        if ¬ regsHas DST.registers_field 'M' then
          .ok (cv ++ end_operation ++ check_labels ++ set_destination)
        else
          let save_address := ["M=D", "D=A", "@__aux", "AM=D", "D=M"]
          .ok (clean (save_address ++ cv ++ check_labels ++
                      restore_address ++ set_destination))
      else
        XOR.afterRegConst DST ARG1 ARG2 p o
    else
      XOR.afterRegConst DST ARG1 ARG2 p o

/-- macros.XOR.run (macros.py 1525-2019). -/
def XOR.run (arguments : List String) (p o : Nat) :
    Except MErr (List String) := do
  let _ARG1 ← argGet arguments 1
  let _ARG2 ← argGet arguments 2
  let a0 ← argGet arguments 0
  let DST ← parseDst a0 o
    "[XOR] Destinacija mora biti jedan ili više registara,ili adresa."
  let badA := "[XOR] Argument mora biti registar, konstanta, ili adresa."
  let oobA := "[XOR] Konstanta mora biti u [-32768, 32767]."
  let ARG1 ← parseArg _ARG1 o badA oobA
  let ARG2 ← parseArg _ARG2 o badA oobA
  XOR.core DST ARG1 ARG2 _ARG1 _ARG2 p o

/-- With parsed destination and operands, `AND.run` runs `AND.core`. -/
theorem AND_run_to_core (dstS s1 s2 : String) (p o : Nat)
    (D : Destination) (A1 A2 : Argument)
    (hD : Destination.parse dstS = .ok D)
    (h1 : Argument.parse s1 = .ok A1)
    (h2 : Argument.parse s2 = .ok A2) :
    AND.run [dstS, s1, s2] p o = AND.core D A1 A2 s1 s2 p o := by
  simp [AND.run, argGet, parseDst, hD, parseArg, h1, h2,
        Bind.bind, Except.bind, pure, Except.pure]

/-- With parsed destination and operands, `XOR.run` runs `XOR.core`. -/
theorem XOR_run_to_core (dstS s1 s2 : String) (p o : Nat)
    (D : Destination) (A1 A2 : Argument)
    (hD : Destination.parse dstS = .ok D)
    (h1 : Argument.parse s1 = .ok A1)
    (h2 : Argument.parse s2 = .ok A2) :
    XOR.run [dstS, s1, s2] p o = XOR.core D A1 A2 s1 s2 p o := by
  simp [XOR.run, argGet, parseDst, hD, parseArg, h1, h2,
        Bind.bind, Except.bind, pure, Except.pure]

theorem regArg_parse (s : String) (h : s ∈ REGARGS) :
    Argument.parse s = .ok (.register s) := by
  rw [Argument.parse, if_pos h]

/-- Claim C4 (amended): for register operands, AND.run and XOR.run raise
the MCR ParserError Nemoguća operacija exactly when the operands are
(M, D) or (D, M) — for EVERY destination — or the operands are (A, D) or
(D, A) and the destination is a register set without M or an address. -/
theorem C4_AND_XOR_impossible (d0 arg1 arg2 : String) (DST : Destination)
    (p o : Nat) (hd : Destination.parse d0 = .ok DST)
    (h1 : arg1 ∈ REGARGS) (h2 : arg2 ∈ REGARGS) :
    (AND.run [d0, arg1, arg2] p o =
        .error (.perr "MCR" "[AND] Nemoguća operacija." o) ↔
      (((arg1, arg2) = ("M", "D") ∨ (arg1, arg2) = ("D", "M")) ∨
       (((arg1, arg2) = ("A", "D") ∨ (arg1, arg2) = ("D", "A")) ∧
        ((DST.is_register ∧ ¬ regsHas DST.registers_field 'M') ∨
         DST.is_address)))) ∧
    (XOR.run [d0, arg1, arg2] p o =
        .error (.perr "MCR" "[XOR] Nemoguća operacija." o) ↔
      (((arg1, arg2) = ("M", "D") ∨ (arg1, arg2) = ("D", "M")) ∨
       (((arg1, arg2) = ("A", "D") ∨ (arg1, arg2) = ("D", "A")) ∧
        ((DST.is_register ∧ ¬ regsHas DST.registers_field 'M') ∨
         DST.is_address)))) := by
  rw [AND_run_to_core _ _ _ p o DST _ _ hd (regArg_parse _ h1)
      (regArg_parse _ h2),
      XOR_run_to_core _ _ _ p o DST _ _ hd (regArg_parse _ h1)
      (regArg_parse _ h2)]
  fin_cases h1 <;> fin_cases h2 <;>
  · cases DST with
    | registers r =>
      by_cases hm : regsHas r 'M' = true <;>
        simp [AND.core, XOR.core, AND.SIMPLE_OPS, AND.COMPLEX_OPS,
              XOR.SIMPLE_OPS, XOR.COMPLEX_OPS, Destination.is_register,
              Destination.is_address, Destination.registers_field,
              Argument.is_register, Argument.register_field,
              Argument.is_constant, Argument.is_address,
              pairHasD, pairHas0, hm, List.lookup, instBEqProd]
    | addr l k =>
      simp [AND.core, XOR.core, AND.SIMPLE_OPS, AND.COMPLEX_OPS,
            XOR.SIMPLE_OPS, XOR.COMPLEX_OPS, Destination.is_register,
            Destination.is_address, Destination.registers_field,
            Argument.is_register, Argument.register_field,
            Argument.is_constant, Argument.is_address,
            pairHasD, pairHas0, List.lookup, instBEqProd]

/-- Claim C4, counterexample: with operands (M, D) the error is raised
for EVERY destination, including MD, which contains M and thus lets the
macro overwrite M first — the claim says this case should not raise. -/
theorem C4_impossible_counterexample :
    AND.run ["MD", "M", "D"] 0 0 =
      .error (.perr "MCR" "[AND] Nemoguća operacija." 0) ∧
    XOR.run ["MD", "M", "D"] 0 0 =
      .error (.perr "MCR" "[XOR] Nemoguća operacija." 0) ∧
    regsHas "MD" 'M' = true :=
  ⟨rfl, rfl, rfl⟩

theorem C4_AND_XOR_impossible_witness :
    (AND.run ["@x", "D", "A"] 0 0 =
        .error (.perr "MCR" "[AND] Nemoguća operacija." 0) ↔
      (((("D", "A") : String × String) = ("M", "D") ∨
        (("D", "A") : String × String) = ("D", "M")) ∨
       (((("D", "A") : String × String) = ("A", "D") ∨
         (("D", "A") : String × String) = ("D", "A")) ∧
        (((Destination.addr "x" 0).is_register ∧
          ¬ regsHas (Destination.addr "x" 0).registers_field 'M') ∨
         (Destination.addr "x" 0).is_address)))) ∧
    (XOR.run ["@x", "D", "A"] 0 0 =
        .error (.perr "MCR" "[XOR] Nemoguća operacija." 0) ↔
      (((("D", "A") : String × String) = ("M", "D") ∨
        (("D", "A") : String × String) = ("D", "M")) ∨
       (((("D", "A") : String × String) = ("A", "D") ∨
         (("D", "A") : String × String) = ("D", "A")) ∧
        (((Destination.addr "x" 0).is_register ∧
          ¬ regsHas (Destination.addr "x" 0).registers_field 'M') ∨
         (Destination.addr "x" 0).is_address)))) :=
  C4_AND_XOR_impossible "@x" "D" "A" (Destination.addr "x" 0) 0 0 rfl
    (by decide) (by decide)

/-- macros.OR.SIMPLE_OPS (macros.py 1078-1094). -/
def OR.SIMPLE_OPS : List ((String × String) × String) :=
  [(("0", "0"), "0"), (("1", "1"), "1"), (("-1", "-1"), "1"),
   (("0", "1"), "1"), (("0", "-1"), "1"), (("1", "-1"), "1"),
   (("D", "1"), "1"), (("A", "1"), "1"), (("M", "1"), "1"),
   (("D", "-1"), "1"), (("A", "-1"), "1"), (("M", "-1"), "1")]

/-- macros.OR.COMPLEX_OPS (macros.py 1096-1108), values newline-split. -/
def OR.COMPLEX_OPS : List ((String × String) × List String) :=
  [(("D", "D"), [""]), (("A", "A"), ["D=A"]), (("M", "M"), ["D=M"]),
   (("D", "0"), [""]), (("A", "0"), ["D=A"]), (("M", "0"), ["D=M"]),
   (("A", "M"), ["D=A", "D=D|M"]), (("D", "M"), ["D=D|M"]),
   (("A", "D"), ["D=D|A"])]

/-- macros.OR.run, lines 1328-1489: the part after the register-constant
chain (constant-constant, constant-address, address-address,
register-address, and the final Nevalidan argument raise), operands as
mutated by the swap on line 1240. -/
def OR.afterRegConst (DST : Destination) (A1 A2 : Argument) (p o : Nat) :
    Except MErr (List String) :=
  let check_value := ["@__orcheckfailed_" ++ toString p, "D;JEQ"]
  let end_operation := ["D=1", "@__endoroperation_" ++ toString p, "0;JMP"]
  let check_labels := ["(__orcheckfailed_" ++ toString p ++ ")", "D=0",
                       "(__endoroperation_" ++ toString p ++ ")"]
  let restore_address := ["@__aux", "A=M"]
  if A1.is_constant ∧ A2.is_constant then
    -- int(c1 or c2): Python `or` keeps c1 unless it is 0, else c2
    let v : Int := if A1.constant_field ≠ 0 then A1.constant_field
                   else A2.constant_field
    if DST.is_register then
      .ok [DST.registers_field ++ "=" ++ toString v]
    else
      let save_address := ["D=A", "@__aux", "M=D"]
      let set_destination :=
        ["@" ++ DST.location] ++ derefPieces DST.stars ++
        ["M=" ++ toString v]
      .ok (clean (save_address ++ set_destination ++ restore_address))
  else
    let (ARG1, ARG2) :=
      if A2.is_constant ∧ A1.is_address then (A2, A1) else (A1, A2)
    if ARG1.is_constant ∧ ARG2.is_address then
      if ARG1.constant_field ≠ 0 then
        if DST.is_address then
          let save_address := ["D=A", "@__aux", "M=D"]
          let set_destination :=
            ["@" ++ DST.location] ++ derefPieces DST.stars ++ ["M=1"]
          .ok (clean (save_address ++ set_destination ++ restore_address))
        else
          .ok [DST.registers_field ++ "=1"]
      else
        let save_address := ["D=A", "@__aux", "M=D"]
        let compute_value :=
          ["@" ++ ARG2.location] ++ derefPieces ARG2.stars ++ ["D=M"]
        if DST.is_address then
          let set_destination :=
            ["@" ++ DST.location] ++ derefPieces DST.stars ++ ["M=D"]
          .ok (clean (save_address ++ compute_value ++ check_value ++
                      end_operation ++ check_labels ++ set_destination ++
                      restore_address))
        else
          .ok (clean (save_address ++ compute_value ++ check_value ++
                      end_operation ++ check_labels ++ restore_address ++
                      [DST.registers_field ++ "=D"]))
    else if ARG1.is_address ∧ ARG2.is_address then
      let save_address := ["D=A", "@__aux", "M=D"]
      let compute_value :=
        ["@" ++ ARG1.location] ++ derefPieces ARG1.stars ++ ["D=M"] ++
        ["@" ++ ARG2.location] ++ derefPieces ARG2.stars ++ ["D=D|M"]
      if DST.is_address then
        let set_destination :=
          ["@" ++ DST.location] ++ derefPieces DST.stars ++ ["M=D"]
        .ok (clean (save_address ++ compute_value ++ check_value ++
                    end_operation ++ check_labels ++ set_destination ++
                    restore_address))
      else
        .ok (clean (save_address ++ compute_value ++ check_value ++
                    end_operation ++ check_labels ++ restore_address ++
                    [DST.registers_field ++ "=D"]))
    else
      let (ARG1, ARG2) :=
        if ARG2.is_register ∧ ARG1.is_address then (ARG2, ARG1)
        else (ARG1, ARG2)
      if ARG1.is_register ∧ ARG1.register_field ≠ "D" ∧ ARG2.is_address then
        let save_address := ["D=A", "@__aux", "AM=D"]
        let compute_value :=
          ["D=" ++ ARG1.repr, "@" ++ ARG2.location] ++
          derefPieces ARG2.stars ++ ["D=M|D"]
        -- macros.py 1427: the first label lacks the underscore before p
        let check_labels_bug :=
          ["(__orcheckfailed" ++ toString p ++ ")", "D=0",
           "(__endoroperation_" ++ toString p ++ ")"]
        if DST.is_address then
          let set_destination :=
            ["@" ++ DST.location] ++ derefPieces DST.stars ++ ["M=D"]
          .ok (clean (save_address ++ compute_value ++ check_value ++
                      end_operation ++ check_labels_bug ++
                      set_destination ++ restore_address))
        else
          .ok (clean (save_address ++ compute_value ++ check_value ++
                      end_operation ++ check_labels_bug ++
                      restore_address ++ [DST.registers_field ++ "=D"]))
      else if ARG1.is_register ∧ ARG1.register_field = "D" ∧
          ARG2.is_address then
        let compute_value :=
          ["@" ++ ARG2.location] ++ derefPieces ARG2.stars ++ ["D=D|M"]
        if (DST.is_register ∧ ¬ regsHas DST.registers_field 'M') ∨
            DST.is_address then
          let set_destination :=
            if DST.is_register then [DST.registers_field ++ "=D"]
            else ["@" ++ DST.location] ++ derefPieces DST.stars ++ ["M=D"]
          .ok (clean (compute_value ++ check_value ++ end_operation ++
                      check_labels ++ set_destination))
        else if DST.is_register ∧ regsHas DST.registers_field 'M' then
          let save_address := ["M=D", "D=A", "@__aux", "AM=D", "D=M"]
          .ok (clean (save_address ++ compute_value ++ check_value ++
                      end_operation ++ check_labels ++ restore_address ++
                      [DST.registers_field ++ "=D"]))
        else
          .error (.perr "MCR" "[OR] Nevalidan argument." o)
      else
        .error (.perr "MCR" "[OR] Nevalidan argument." o)

/-- macros.OR.run body after the argument parse (macros.py 1135-1326 plus
the tail via OR.afterRegConst). -/
def OR.core (DST : Destination) (A1 A2 : Argument)
    (_ARG1 _ARG2 : String) (p o : Nat) : Except MErr (List String) :=
  let simple_op : Option (String × String) :=
    if (OR.SIMPLE_OPS.lookup (_ARG1, _ARG2)).isSome then some (_ARG1, _ARG2)
    else if (OR.SIMPLE_OPS.lookup (_ARG2, _ARG1)).isSome then
      some (_ARG2, _ARG1)
    else none
  let complex_op : Option (String × String) :=
    if (OR.COMPLEX_OPS.lookup (_ARG1, _ARG2)).isSome then
      some (_ARG1, _ARG2)
    else if (OR.COMPLEX_OPS.lookup (_ARG2, _ARG1)).isSome then
      some (_ARG2, _ARG1)
    else none
  let check_value := ["@__orcheckfailed_" ++ toString p, "D;JEQ"]
  let end_operation := ["D=1", "@__endoroperation_" ++ toString p, "0;JMP"]
  let check_labels := ["(__orcheckfailed_" ++ toString p ++ ")", "D=0",
                       "(__endoroperation_" ++ toString p ++ ")"]
  let restore_address := ["@__aux", "A=M"]
  if DST.is_register ∧ simple_op.isSome then
    let q := simple_op.getD ("", "")
    .ok [DST.registers_field ++ "=" ++ (OR.SIMPLE_OPS.lookup q).getD ""]
  else if DST.is_address ∧ simple_op.isSome then
    let q := simple_op.getD ("", "")
    let save_address := ["D=A", "@__aux", "M=D"]
    let set_destination := ["@" ++ DST.location] ++ derefPieces DST.stars ++
      ["M=" ++ (OR.SIMPLE_OPS.lookup q).getD ""]
    .ok (clean (save_address ++ set_destination ++ restore_address))
  else if DST.is_register ∧ complex_op.isSome ∧
      pairHasD (complex_op.getD ("", "")) then
    let get_value := (OR.COMPLEX_OPS.lookup (complex_op.getD ("", ""))).getD []
    if ¬ regsHas DST.registers_field 'M' then
      -- macros.py 1162: the @ before the label name is missing, and
      -- macros.py 1168-1171 omits end_operation from the emitted block
      let check_value_bug := ["__orcheckfailed_" ++ toString p, "D;JEQ"]
      .ok (clean (get_value ++ check_value_bug ++ check_labels ++
                  [DST.registers_field ++ "=D"]))
    else
      let save_address := ["M=D", "D=A", "@__aux", "AM=D", "D=M"]
      .ok (clean (save_address ++ get_value ++ check_value ++
                  end_operation ++ check_labels ++ restore_address ++
                  [DST.registers_field ++ "=D"]))
  else if DST.is_address ∧ complex_op.isSome ∧
      pairHasD (complex_op.getD ("", "")) then
    let get_value := (OR.COMPLEX_OPS.lookup (complex_op.getD ("", ""))).getD []
    let set_destination :=
      ["@" ++ DST.location] ++ derefPieces DST.stars ++ ["M=D"]
    .ok (clean (get_value ++ check_value ++ end_operation ++ check_labels ++
                set_destination))
  else if DST.is_register ∧ complex_op.isSome ∧
      ¬ pairHasD (complex_op.getD ("", "")) then
    let save_address := ["D=A", "@__aux", "AM=D"]
    let get_value := (OR.COMPLEX_OPS.lookup (complex_op.getD ("", ""))).getD []
    -- macros.py 1214: plain (non-f) string, emitted verbatim
    let set_destination := ["\x7bDST.registers\x7d=D"]
    .ok (clean (save_address ++ get_value ++ check_value ++ end_operation ++
                check_labels ++ restore_address ++ set_destination))
  else if DST.is_address ∧ complex_op.isSome ∧
      ¬ pairHasD (complex_op.getD ("", "")) then
    let save_address := ["D=A", "@__aux", "AM=D"]
    let get_value := (OR.COMPLEX_OPS.lookup (complex_op.getD ("", ""))).getD []
    let set_destination :=
      ["@" ++ DST.location] ++ derefPieces DST.stars ++ ["M=D"]
    .ok (clean (save_address ++ get_value ++ check_value ++ end_operation ++
                check_labels ++ set_destination ++ restore_address))
  else
    let (ARG1, ARG2) :=
      if A2.is_register ∧ A1.is_constant then (A2, A1) else (A1, A2)
    if ARG1.is_register ∧ ARG2.is_constant then
      if ARG2.constant_field ≠ 0 then
        if DST.is_address then
          let save_address := ["D=A", "@__aux", "M=D"]
          let set_destination :=
            ["@" ++ DST.location] ++ derefPieces DST.stars ++ ["M=1"]
          .ok (clean (save_address ++ set_destination ++ restore_address))
        else
          .ok [DST.registers_field ++ "=1"]
      else if DST.is_address ∧ ARG1.register_field ≠ "D" then
        let save_address := ["D=A", "@__aux", "AM=D"]
        let compute_value := ["D=" ++ ARG1.register_field]
        let set_destination :=
          ["@" ++ DST.location] ++ derefPieces DST.stars ++ ["M=D"]
        .ok (clean (save_address ++ compute_value ++ check_value ++
                    end_operation ++ check_labels ++ set_destination ++
                    restore_address))
      else if DST.is_address ∧ ARG1.register_field = "D" then
        let set_destination :=
          ["@" ++ DST.location] ++ derefPieces DST.stars ++ ["M=D"]
        .ok (clean (check_value ++ end_operation ++ check_labels ++
                    set_destination))
      else if DST.is_register ∧ ARG1.register_field ≠ "D" then
        let save_address := ["D=A", "@__aux", "AM=D"]
        let compute_value := ["D=" ++ ARG1.register_field]
        .ok (clean (save_address ++ compute_value ++ check_value ++
                    end_operation ++ check_labels ++ restore_address ++
                    [DST.registers_field ++ "=D"]))
      else if DST.is_register ∧ False then
        -- macros.py 1307 compares the Argument object itself with the
        -- string D, which is always false: this branch is dead and
        -- control falls through to the tail
        let set_destination := ["\x7bDST.registers\x7d=D"]
        if ¬ regsHas DST.registers_field 'M' then
          .ok (check_value ++ end_operation ++ check_labels ++
               set_destination)
        else
          let save_address := ["M=D", "D=A", "@__aux", "AM=D", "D=M"]
          .ok (clean (save_address ++ check_value ++ check_labels ++
                      restore_address ++ set_destination))
      else
        OR.afterRegConst DST ARG1 ARG2 p o
    else
      OR.afterRegConst DST ARG1 ARG2 p o

/-- macros.OR.run (macros.py 1110-1489). -/
def OR.run (arguments : List String) (p o : Nat) :
    Except MErr (List String) := do
  let _ARG1 ← argGet arguments 1
  let _ARG2 ← argGet arguments 2
  let a0 ← argGet arguments 0
  let DST ← parseDst a0 o
    "[OR] Destinacija mora biti jedan ili više registara,ili adresa."
  let badA := "[OR] Argument mora biti registar, konstanta, ili adresa."
  let oobA := "[OR] Konstanta mora biti u [-32768, 32767]."
  let ARG1 ← parseArg _ARG1 o badA oobA
  let ARG2 ← parseArg _ARG2 o badA oobA
  OR.core DST ARG1 ARG2 _ARG1 _ARG2 p o

/-- macros.NOT.SIMPLE_OPS (macros.py 2024-2028). -/
def NOT.SIMPLE_OPS : List (String × String) :=
  [("0", "1"), ("1", "0"), ("-1", "0")]

/-- macros.NOT.COMPLEX_OPS (macros.py 2030-2034). -/
def NOT.COMPLEX_OPS : List (String × String) :=
  [("D", "D=D"), ("A", "D=A"), ("M", "D=M")]

/-- macros.NOT.run body after the argument parse (macros.py 2059-2192). -/
def NOT.core (DST : Destination) (A1 : Argument) (_ARG1 : String)
    (p o : Nat) : Except MErr (List String) :=
  let simple_op : Option String :=
    if (NOT.SIMPLE_OPS.lookup _ARG1).isSome then some _ARG1 else none
  let complex_op : Option String :=
    if (NOT.COMPLEX_OPS.lookup _ARG1).isSome then some _ARG1 else none
  let check_value := ["@__notfalse_" ++ toString p, "D;JEQ"]
  let end_operation := ["D=0", "@__endnotoperation_" ++ toString p, "0;JMP"]
  let check_labels := ["(__notfalse_" ++ toString p ++ ")", "D=1",
                       "(__endnotoperation_" ++ toString p ++ ")"]
  let restore_address := ["@__aux", "A=M"]
  if DST.is_register ∧ simple_op.isSome then
    .ok [DST.registers_field ++ "=" ++
         (NOT.SIMPLE_OPS.lookup (simple_op.getD "")).getD ""]
  else if DST.is_address ∧ simple_op.isSome then
    let save_address := ["D=A", "@__aux", "M=D"]
    let set_destination := ["@" ++ DST.location] ++ derefPieces DST.stars ++
      ["M=" ++ (NOT.SIMPLE_OPS.lookup (simple_op.getD "")).getD ""]
    .ok (clean (save_address ++ set_destination ++ restore_address))
  else if DST.is_register ∧ complex_op.isSome ∧
      regsHas (complex_op.getD "") 'D' then
    let get_value := [(NOT.COMPLEX_OPS.lookup (complex_op.getD "")).getD ""]
    if ¬ regsHas DST.registers_field 'M' then
      -- macros.py 2077: the @ before the label name is missing, and
      -- macros.py 2083-2086 omits end_operation from the emitted block
      let check_value_bug := ["__notfalse_" ++ toString p, "D;JEQ"]
      .ok (clean (get_value ++ check_value_bug ++ check_labels ++
                  [DST.registers_field ++ "=D"]))
    else
      let save_address := ["M=D", "D=A", "@__aux", "AM=D", "D=M"]
      .ok (clean (save_address ++ get_value ++ check_value ++
                  end_operation ++ check_labels ++ restore_address ++
                  [DST.registers_field ++ "=D"]))
  else if DST.is_address ∧ complex_op.isSome ∧
      regsHas (complex_op.getD "") 'D' then
    let get_value := [(NOT.COMPLEX_OPS.lookup (complex_op.getD "")).getD ""]
    let set_destination :=
      ["@" ++ DST.location] ++ derefPieces DST.stars ++ ["M=D"]
    .ok (clean (get_value ++ check_value ++ end_operation ++ check_labels ++
                set_destination))
  else if DST.is_register ∧ complex_op.isSome ∧
      ¬ regsHas (complex_op.getD "") 'D' then
    let save_address := ["D=A", "@__aux", "AM=D"]
    let get_value := [(NOT.COMPLEX_OPS.lookup (complex_op.getD "")).getD ""]
    -- macros.py 2129: plain (non-f) string, emitted verbatim
    let set_destination := ["\x7bDST.registers\x7d=D"]
    .ok (clean (save_address ++ get_value ++ check_value ++ end_operation ++
                check_labels ++ restore_address ++ set_destination))
  else if DST.is_address ∧ complex_op.isSome ∧
      ¬ regsHas (complex_op.getD "") 'D' then
    let save_address := ["D=A", "@__aux", "AM=D"]
    let get_value := [(NOT.COMPLEX_OPS.lookup (complex_op.getD "")).getD ""]
    let set_destination :=
      ["@" ++ DST.location] ++ derefPieces DST.stars ++ ["M=D"]
    .ok (clean (save_address ++ get_value ++ check_value ++ end_operation ++
                check_labels ++ set_destination ++ restore_address))
  else if A1.is_constant then
    let v : Int := if A1.constant_field = 0 then 1 else 0
    if DST.is_address then
      let save_address := ["D=A", "@__aux", "M=D"]
      let set_destination :=
        ["@" ++ DST.location] ++ derefPieces DST.stars ++
        ["M=" ++ toString v]
      .ok (clean (save_address ++ set_destination ++ restore_address))
    else
      .ok [DST.registers_field ++ "=" ++ toString v]
  else
    let save_address := ["D=A", "@__aux", "M=D"]
    let get_value := ["@" ++ A1.location] ++ derefPieces A1.stars ++ ["D=M"]
    -- macros.py 2173: the address branch writes through the ARGUMENT
    -- location, not the destination
    let set_destination :=
      if DST.is_address then
        ["@" ++ A1.location] ++ derefPieces A1.stars ++ ["M=D"]
      else [DST.registers_field ++ "=D"]
    if DST.is_address then
      .ok (clean (save_address ++ get_value ++ check_value ++
                  end_operation ++ check_labels ++ set_destination ++
                  restore_address))
    else
      .ok (clean (save_address ++ get_value ++ check_value ++
                  end_operation ++ check_labels ++ restore_address ++
                  set_destination))

/-- macros.NOT.run (macros.py 2036-2192); arg_count is 2. -/
def NOT.run (arguments : List String) (p o : Nat) :
    Except MErr (List String) := do
  let _ARG1 ← argGet arguments 1
  let a0 ← argGet arguments 0
  let DST ← parseDst a0 o
    "[NOT] Destinacija mora biti jedan ili više registara,ili adresa."
  let badA := "[NOT] Argument mora biti registar, konstanta, ili adresa."
  let oobA := "[NOT] Konstanta mora biti u [-32768, 32767]."
  let ARG1 ← parseArg _ARG1 o badA oobA
  NOT.core DST ARG1 _ARG1 p o

/-- The `@{c if c >= 0 else ~c}` / `D={'A' if c >= 0 else '!A'}` constant
loader shared by MULT/DIV/POW (Python `~c` is `-1 - c`). -/
def loadConstPieces (c : Int) : List String :=
  if c ≥ 0 then ["@" ++ toString c, "D=A"]
  else ["@" ++ toString (-1 - c), "D=!A"]

/-- macros.MULT.run, mult_algorithm middle block for one power
(macros.py 2551-2562). -/
def MULT.middleBlock (p k : Nat) : List String :=
  ["(__mult_2p" ++ toString k ++ "_" ++ toString p ++ ")",
   "@__multarg1", "D=M",
   "@" ++ toString (2 ^ k), "D=D&A",
   "@__mult_2p" ++ toString (k - 1) ++ "_" ++ toString p, "D;JEQ",
   "@__multarg2", "D=M",
   "@__multhelper", "M=D"] ++
  List.replicate k "MD=M+D" ++
  ["@__multresult", "M=M+D"]

def MULT.middle (p : Nat) : Nat → List String
  | 0 => []
  | k + 1 => MULT.middleBlock p (k + 1) ++ MULT.middle p k

/-- macros.MULT.run, mult_algorithm (macros.py 2543-2573). -/
def MULT.algorithm (p : Nat) : List String :=
  (["@__multarg1", "D=M", "@32767", "A=!A", "D=D&A",
    "@__mult_2p14_" ++ toString p, "D;JEQ",
    "@__multarg2", "D=-M",
    "@__multhelper", "M=D"] ++
   List.replicate 15 "MD=M+D" ++
   ["@__multresult", "M=M+D"]) ++
  MULT.middle p 14 ++
  ["(__mult_2p0_" ++ toString p ++ ")",
   "@__multarg1", "D=M",
   "@1", "D=D&A",
   "@__multend_" ++ toString p, "D;JEQ",
   "@__multarg2", "D=M",
   "@__multresult", "M=M+D",
   "(__multend_" ++ toString p ++ ")"]

/-- macros.MULT.run body after the argument parse (macros.py 2222-2575):
early returns and errors, or a premult/postmult pair wrapped around
mult_algorithm. -/
def MULT.core (DST : Destination) (A1 A2 : Argument) (p o : Nat) :
    Except MErr (List String) :=
  let (ARG1, ARG2) := if swapArgs A1 A2 then (A2, A1) else (A1, A2)
  let finish : List String → List String → Except MErr (List String) :=
    fun premult postmult =>
      .ok (clean (premult ++ MULT.algorithm p ++ postmult))
  let postStd : List String :=
    if DST.is_register then
      ["@__multresult", "D=M", "@__aux", "A=M",
       DST.registers_field ++ "=D"]
    else
      ["@__multresult", "D=M", "@" ++ DST.location] ++
      derefPieces DST.stars ++ ["M=D", "@__aux", "A=M"]
  let postNoRestore : List String :=
    if DST.is_register then
      ["@__multresult", "D=M", DST.registers_field ++ "=D"]
    else
      ["@__multresult", "D=M", "@" ++ DST.location] ++
      derefPieces DST.stars ++ ["M=D"]
  let zeroBlock : Except MErr (List String) :=
    if DST.is_register then .ok (clean [DST.registers_field ++ "=0"])
    else .ok (clean (["D=A", "@__aux", "M=D", "@" ++ DST.location] ++
                     derefPieces DST.stars ++ ["M=0", "@__aux", "A=M"]))
  if ARG1.is_oneop ∧ ARG2.is_oneop then
    let q1 := ARG1.oneop
    let q2 := ARG2.oneop
    if q1 = "0" ∨ q2 = "0" then
      zeroBlock
    else if (q1 = "1" ∨ q1 = "-1") ∧ (q2 = "1" ∨ q2 = "-1") then
      let result := if q1 = q2 then "1" else "-1"
      if DST.is_register then
        .ok (clean [DST.registers_field ++ "=" ++ result])
      else
        .ok (clean (["D=A", "@__aux", "M=D", "@" ++ DST.location] ++
                    derefPieces DST.stars ++
                    ["M=" ++ result, "@__aux", "A=M"]))
    else if q1 = "1" ∨ q2 = "1" ∨ q1 = "-1" ∨ q2 = "-1" then
      let (number_sign, reg) :=
        if q1 = "1" then (q1, q2)
        else if q2 = "1" then (q2, q1)
        else if q1 = "-1" then (q1, q2)
        else (q2, q1)
      let sign := if number_sign = "-1" then "-" else ""
      if DST.is_register then
        .ok (clean [DST.registers_field ++ "=" ++ sign ++ reg])
      else if reg = "D" then
        -- macros.py 2258: returned without clean
        .ok (["@" ++ DST.location] ++ derefPieces DST.stars ++
             ["M=" ++ sign ++ reg])
      else
        -- macros.py 2261: plain (non-f) string, emitted verbatim
        .ok (clean (["D=A", "@__aux", "AM=D", "D=\x7bsign\x7d\x7breg\x7d",
                     "@" ++ DST.location] ++ derefPieces DST.stars ++
                    ["M=D", "@__aux", "A=M"]))
    else if q1 = "D" ∧ q2 = "D" then
      if DST.is_register ∧ regsHas DST.registers_field 'M' then
        -- macros.py 2267: the @ before __aux is missing
        finish ["M=D", "D=A", "__aux", "AM=D", "D=M",
                "@__multresult", "M=0", "@__multarg1", "M=D",
                "@__multarg2", "M=D"]
               ["@__multresult", "D=M", "@__aux", "A=M",
                DST.registers_field ++ "=D"]
      else
        finish ["@__multresult", "M=0", "@__multarg1", "M=D",
                "@__multarg2", "M=D"]
               postNoRestore
    else if (q1, q2) = ("A", "D") ∨ (q1, q2) = ("D", "A") then
      if DST.is_register ∧ regsHas DST.registers_field 'M' then
        -- macros.py 2287: the @ before __aux is missing
        finish ["M=D", "D=A", "__aux", "AM=D",
                "@__multresult", "M=0", "@__multarg1", "M=D",
                "A=D", "D=M", "@__multarg2", "M=D"]
               ["@__multresult", "D=M", "@__aux", "A=M",
                DST.registers_field ++ "=D"]
      else
        .error (.perr "MCR" "[MULT] Nemoguća operacija" o)
    else if (q1, q2) = ("M", "D") ∨ (q1, q2) = ("D", "M") then
      .error (.perr "MCR" "[MULT] Nemoguća operacija" o)
    else
      -- ('M','M') | ('M','A') | ('A','M') | ('A','A'); macros.py 2302
      -- and 2307 lack the @ before __aux
      let premult :=
        if q1 = q2 then
          ["D=A", "__aux", "AM=D", "D=" ++ q1,
           "@__multresult", "M=0", "@__multarg1", "M=D",
           "@__multarg2", "M=D"]
        else
          ["D=A", "__aux", "AM=D", "D=" ++ q1,
           "@__multresult", "M=0", "@__multarg1", "M=D",
           "@__aux", "A=M", "D=" ++ q2, "@__multarg2", "M=D"]
      finish premult postStd
  else if ARG1.is_oneop ∧ ARG2.is_constant then
    let q1 := ARG1.oneop
    let c2 := ARG2.constant_field
    if q1 = "0" then
      zeroBlock
    else if q1 = "1" ∨ q1 = "-1" then
      let c0 := c2 * (if q1 = "1" then 1 else -1)
      let constant := if c0 = 32768 then -32768 else c0
      let save_address := ["D=A", "@__aux", "M=D"]
      if DST.is_register then
        .ok (clean (save_address ++ loadConstPieces constant ++
                    ["@__aux", "A=M", DST.registers_field ++ "=D"]))
      else
        .ok (clean (save_address ++ loadConstPieces constant ++
                    ["@" ++ DST.location] ++ derefPieces DST.stars ++
                    ["M=D", "@__aux", "A=M"]))
    else if q1 = "M" ∨ q1 = "A" then
      finish (["D=A", "@__aux", "AM=D", "D=" ++ q1,
               "@__multresult", "M=0", "@__multarg1", "M=D"] ++
              loadConstPieces c2 ++ ["@__multarg2", "M=D"])
             postStd
    else
      -- q1 = D; macros.py 2377 lacks the @ before __aux
      if DST.is_register ∧ regsHas DST.registers_field 'M' then
        finish (["M=D", "D=A", "__aux", "AM=D", "D=M",
                 "@__multresult", "M=0", "@__multarg1", "M=D"] ++
                loadConstPieces c2 ++ ["@__multarg2", "M=D"])
               ["@__multresult", "D=M", "@__aux", "A=M",
                DST.registers_field ++ "=D"]
      else
        finish (["@__multresult", "M=0", "@__multarg1", "M=D"] ++
                loadConstPieces c2 ++ ["@__multarg2", "M=D"])
               postNoRestore
  else if ARG1.is_oneop ∧ ARG2.is_address then
    let q1 := ARG1.oneop
    if q1 = "0" then
      zeroBlock
    else if q1 = "1" ∨ q1 = "-1" then
      let sign := if q1 = "-1" then "-" else ""
      let save_address := ["D=A", "@__aux", "M=D"]
      let compute_value :=
        ["@" ++ ARG2.location] ++ derefPieces ARG2.stars ++
        ["D=" ++ sign ++ "M"]
      if DST.is_register then
        .ok (clean (save_address ++ compute_value ++
                    ["@__aux", "A=M", DST.registers_field ++ "=D"]))
      else
        .ok (clean (save_address ++ compute_value ++
                    ["@" ++ DST.location] ++ derefPieces DST.stars ++
                    ["M=D", "@__aux", "A=M"]))
    else if q1 = "M" ∨ q1 = "A" then
      finish (["D=A", "@__aux", "AM=D", "D=" ++ q1,
               "@__multresult", "M=0", "@__multarg1", "M=D",
               "@" ++ ARG2.location] ++ derefPieces ARG2.stars ++
              ["D=M", "@__multarg2", "M=D"])
             postStd
    else
      -- q1 = D; macros.py 2449 lacks the @ before __aux
      if DST.is_register ∧ regsHas DST.registers_field 'M' then
        finish (["M=D", "D=A", "__aux", "AM=D", "D=M",
                 "@__multresult", "M=0", "@__multarg1", "M=D",
                 "@" ++ ARG2.location] ++ derefPieces ARG2.stars ++
                ["D=M", "@__multarg2", "M=D"])
               ["@__multresult", "D=M", "@__aux", "A=M",
                DST.registers_field ++ "=D"]
      else
        finish (["@__multresult", "M=0", "@__multarg1", "M=D",
                 "@" ++ ARG2.location] ++ derefPieces ARG2.stars ++
                ["D=M", "@__multarg2", "M=D"])
               postNoRestore
  else if ARG1.is_constant ∧ ARG2.is_constant then
    let constant := wrap16 (ARG1.constant_field * ARG2.constant_field)
    let save_address := ["D=A", "@__aux", "M=D"]
    if DST.is_register then
      .ok (clean (save_address ++ loadConstPieces constant ++
                  ["@__aux", "A=M", DST.registers_field ++ "=D"]))
    else
      .ok (clean (save_address ++ loadConstPieces constant ++
                  ["@" ++ DST.location] ++ derefPieces DST.stars ++
                  ["M=D", "@__aux", "A=M"]))
  else if ARG1.is_constant ∧ ARG2.is_address then
    finish (["D=A", "@__aux", "M=D"] ++
            loadConstPieces ARG1.constant_field ++
            ["@__multresult", "M=0", "@__multarg1", "M=D",
             "@" ++ ARG2.location] ++ derefPieces ARG2.stars ++
            ["D=M", "@__multarg2", "M=D"])
           (if DST.is_register then
              ["@__multresult", "D=M", "@__aux", "A=M",
               DST.registers_field ++ "=D"]
            else
              ["@__multresult", "D=M", "@" ++ DST.location] ++
              derefPieces DST.stars ++ ["M=D", "@__aux", "A=M"])
  else
    -- address-address (the swap has normalised every other combination)
    finish (["D=A", "@__aux", "M=D",
             "@" ++ ARG1.location] ++ derefPieces ARG1.stars ++
            ["D=M", "@__multresult", "M=0", "@__multarg1", "M=D",
             "@" ++ ARG2.location] ++ derefPieces ARG2.stars ++
            ["D=M", "@__multarg2", "M=D"])
           (if DST.is_register then
              ["@__multresult", "D=M", "@__aux", "A=M",
               DST.registers_field ++ "=D"]
            else
              ["@__multresult", "D=M", "@" ++ DST.location] ++
              derefPieces DST.stars ++ ["M=D", "@__aux", "A=M"])

/-- macros.MULT.run (macros.py 2197-2575). -/
def MULT.run (arguments : List String) (p o : Nat) :
    Except MErr (List String) := do
  let _ARG1 ← argGet arguments 1
  let _ARG2 ← argGet arguments 2
  let a0 ← argGet arguments 0
  let DST ← parseDst a0 o
    "[MULT] Destinacija mora biti jedan ili više registara,ili adresa."
  let badA := "[MULT] Argument mora biti registar, konstanta, ili adresa."
  let oobA := "[MULT] Konstanta mora biti u [-32768, 32767]."
  let ARG1 ← parseArg _ARG1 o badA oobA
  let ARG2 ← parseArg _ARG2 o badA oobA
  MULT.core DST ARG1 ARG2 p o

/-- macros.DIV.run, div_algorithm middle block for one power
(macros.py 3026-3039); the inner join's trailing newlines produce an
empty piece after each repetition. -/
def DIV.middleBlock (p k : Nat) : List String :=
  ["(__div_2p" ++ toString k ++ "_" ++ toString p ++ ")",
   "@__divarg2", "D=M",
   "@__divhelper", "M=D"] ++
  (List.replicate k
    ["MD=M+D", "@__div_2p" ++ toString (k - 1) ++ "_" ++ toString p,
     "D;JLT", "@__divhelper", ""]).flatten ++
  ["@__div_2p" ++ toString (k - 1) ++ "_" ++ toString p, "D;JLT",
   "@__divarg1", "D=M-D",
   "@__div_2p" ++ toString (k - 1) ++ "_" ++ toString p, "D;JLT",
   "@__divhelper", "D=M",
   "@__divarg1", "M=M-D",
   "@" ++ toString (2 ^ k), "D=A",
   "@__divresult", "M=M+D",
   "@__div_2p" ++ toString k ++ "_" ++ toString p, "0;JMP"]

def DIV.middle (p : Nat) : Nat → List String
  | 0 => []
  | k + 1 => DIV.middleBlock p (k + 1) ++ DIV.middle p k

/-- macros.DIV.run, div_algorithm (macros.py 3018-3048). -/
def DIV.algorithm (p : Nat) : List String :=
  ["@__divarg2", "D=M", "@__trueenddiv_" ++ toString p, "D;JEQ",
   "@__divsign", "M=1", "@__divarg1", "D=M",
   "@__nonnegativearg1_" ++ toString p, "D;JGE",
   "@__divsign", "M=-M", "@__divarg1", "M=-M",
   "(__nonnegativearg1_" ++ toString p ++ ")", "@__divarg2", "D=M",
   "@__div_2p14_" ++ toString p, "D;JGE", "@__divsign", "M=-M",
   "@__divarg2", "M=-M"] ++
  DIV.middle p 14 ++
  ["(__div_2p0_" ++ toString p ++ ")", "@__divarg2",
   "D=M", "@__divarg1", "MD=M-D",
   "@__enddiv_" ++ toString p, "D;JLT", "@__divarg2", "D=M", "@__divarg1",
   "M=M-D", "@__divresult", "M=M+1", "@__div_2p0_" ++ toString p, "0;JMP",
   "(__enddiv_" ++ toString p ++ ")", "@__divsign", "D=M",
   "@__trueenddiv_" ++ toString p,
   "D;JGE", "@__divresult", "M=-M", "(__trueenddiv_" ++ toString p ++ ")"]

/-- macros.DIV.run body after the argument parse (macros.py 2605-3050):
early returns and errors, or a prediv/postdiv pair wrapped around
div_algorithm; `swap` records whether the operands were reordered. -/
def DIV.core (DST : Destination) (A1 A2 : Argument) (p o : Nat) :
    Except MErr (List String) :=
  let swap := swapArgs A1 A2
  let (ARG1, ARG2) := if swap then (A2, A1) else (A1, A2)
  let finish : List String → List String → Except MErr (List String) :=
    fun prediv postdiv =>
      .ok (clean (prediv ++ DIV.algorithm p ++ postdiv))
  let postStd : List String :=
    if DST.is_register then
      ["@__divresult", "D=M", "@__aux", "A=M",
       DST.registers_field ++ "=D"]
    else
      ["@__divresult", "D=M", "@" ++ DST.location] ++
      derefPieces DST.stars ++ ["M=D", "@__aux", "A=M"]
  let postNoRestore : List String :=
    if DST.is_register then
      ["@__divresult", "D=M", DST.registers_field ++ "=D"]
    else
      ["@__divresult", "D=M", "@" ++ DST.location] ++
      derefPieces DST.stars ++ ["M=D"]
  let zeroBlock : Except MErr (List String) :=
    if DST.is_register then .ok (clean [DST.registers_field ++ "=0"])
    else .ok (clean (["D=A", "@__aux", "M=D", "@" ++ DST.location] ++
                     derefPieces DST.stars ++ ["M=0", "@__aux", "A=M"]))
  let reg_isone := ["@__registerisone_" ++ toString p, "D-1;JEQ"]
  let reg_isnegone := ["@__registerisnegativeone_" ++ toString p, "D-1;JEQ"]
  let end_division := ["@__enddiv_" ++ toString p, "0;JMP"]
  if ARG1.is_oneop ∧ ARG2.is_oneop then
    let q1 := ARG1.oneop
    let q2 := ARG2.oneop
    if q1 = q2 then
      if DST.is_register then
        .ok (clean [DST.registers_field ++ "=1"])
      else
        .ok (clean (["D=A", "@__aux", "M=D", "@" ++ DST.location] ++
                    derefPieces DST.stars ++ ["M=1", "@__aux", "A=M"]))
    else if q1 = "0" ∨ q2 = "0" then
      zeroBlock
    else if (q1 = "1" ∨ q1 = "-1") ∧ (q2 = "1" ∨ q2 = "-1") then
      let result := if q1 = q2 then "1" else "-1"
      if DST.is_register then
        .ok (clean [DST.registers_field ++ "=" ++ result])
      else
        .ok (clean (["D=A", "@__aux", "M=D", "@" ++ DST.location] ++
                    derefPieces DST.stars ++
                    ["M=" ++ result, "@__aux", "A=M"]))
    else if q2 = "1" ∨ q2 = "-1" then
      let number_sign := q2
      let reg := q1
      let sign := if number_sign = "-1" then "-" else ""
      if DST.is_register then
        .ok (clean [DST.registers_field ++ "=" ++ sign ++ reg])
      else if reg = "D" then
        -- macros.py 2644: returned without clean
        .ok (["@" ++ DST.location] ++ derefPieces DST.stars ++
             ["M=" ++ sign ++ reg])
      else
        -- macros.py 2647: plain (non-f) string, emitted verbatim
        .ok (clean (["D=A", "@__aux", "AM=D", "D=\x7bsign\x7d\x7breg\x7d",
                     "@" ++ DST.location] ++ derefPieces DST.stars ++
                    ["M=D", "@__aux", "A=M"]))
    else if (q1 = "1" ∨ q1 = "-1") ∧ q2 = "D" then
      let number_sign := q1
      -- macros.py 2658: lab_isnegone reuses the __registerisone label
      let lab_isone :=
        ["(__registerisone_" ++ toString p ++ ")", "D=" ++ number_sign]
      let lab_isnegone :=
        ["(__registerisone_" ++ toString p ++ ")",
         "D=" ++ (if number_sign = "1" then "-1" else "1")]
      if DST.is_register ∧ regsHas DST.registers_field 'M' then
        -- macros.py 2663: returned without clean
        .ok (["M=D", "D=A", "@__aux", "AM=D", "D=M"] ++
             reg_isone ++ reg_isnegone ++ ["D=0"] ++ end_division ++
             lab_isone ++ end_division ++ lab_isnegone ++ end_division ++
             ["(__enddiv_" ++ toString p ++ ")", "@__aux", "A=M",
              DST.registers_field ++ "=D"])
      else if DST.is_register then
        .ok (reg_isone ++ reg_isnegone ++ ["D=0"] ++ end_division ++
             lab_isone ++ end_division ++ lab_isnegone ++ end_division ++
             ["(__enddiv_" ++ toString p ++ ")",
              DST.registers_field ++ "=D"])
      else
        .ok (reg_isone ++ reg_isnegone ++ ["D=0"] ++ end_division ++
             lab_isone ++ end_division ++ lab_isnegone ++ end_division ++
             (["(__enddiv_" ++ toString p ++ ")", "@" ++ DST.location] ++
              derefPieces DST.stars ++ ["M=D"]))
    else if q1 = "1" ∨ q1 = "-1" then
      let number_sign := q1
      let reg := q2
      let lab_isone :=
        ["(__registerisone_" ++ toString p ++ ")", "D=" ++ number_sign]
      let lab_isnegone :=
        ["(__registerisone_" ++ toString p ++ ")",
         "D=" ++ (if number_sign = "1" then "-1" else "1")]
      -- macros.py 2699: plain (non-f) string, emitted verbatim
      let save_address := ["D=A", "@__aux", "AM=D", "D=\x7breg\x7d"]
      if DST.is_register then
        .ok (save_address ++ reg_isone ++ reg_isnegone ++ ["D=0"] ++
             end_division ++ lab_isone ++ end_division ++ lab_isnegone ++
             end_division ++
             ["(__enddiv_" ++ toString p ++ ")", "@__aux", "A=M",
              DST.registers_field ++ "=D"])
      else
        -- macros.py 2728: the return ends with a newline, leaving a
        -- trailing empty piece
        .ok (save_address ++ reg_isone ++ reg_isnegone ++ ["D=0"] ++
             end_division ++ lab_isone ++ end_division ++ lab_isnegone ++
             end_division ++
             (["(__enddiv_" ++ toString p ++ ")", "@" ++ DST.location] ++
              derefPieces DST.stars ++ ["M=D", "@__aux", "A=M", ""]))
    else if (q1, q2) = ("A", "D") ∨ (q1, q2) = ("D", "A") then
      let (a1, a2) := if q1 = "A" then ("1", "2") else ("2", "1")
      if DST.is_register ∧ regsHas DST.registers_field 'M' then
        finish ["M=D", "D=A", "@__aux", "AM=D",
                "@__divresult", "M=0", "@__divarg" ++ a1, "M=D",
                "A=D", "D=M", "@__divarg" ++ a2, "M=D"]
               ["@__divresult", "D=M", "@__aux", "A=M",
                DST.registers_field ++ "=D"]
      else
        .error (.perr "MCR" "[MULT] Nemoguća operacija" o)
    else if (q1, q2) = ("M", "D") ∨ (q1, q2) = ("D", "M") then
      .error (.perr "MCR" "[MULT] Nemoguća operacija" o)
    else if (q1, q2) = ("M", "A") ∨ (q1, q2) = ("A", "M") then
      -- macros.py 2746: the @ before __aux is missing
      finish ["D=A", "__aux", "AM=D", "D=" ++ q1,
              "@__divresult", "M=0", "@__divarg1", "M=D",
              "@__aux", "A=M", "D=" ++ q2, "@__divarg2", "M=D"]
             (if DST.is_register then
                ["@__divresult", "D=M", "@__aux", "A=M",
                 DST.registers_field ++ "=D"]
              else
                ["@__divresult", "D=M", "@" ++ DST.location] ++
                derefPieces DST.stars ++ ["M=D", "@__aux", "A=M"])
    else
      .error (.pycrash "AssertionError")
  else if ARG1.is_oneop ∧ ARG2.is_constant then
    let q1 := ARG1.oneop
    let c2 := ARG2.constant_field
    if q1 = "0" then
      zeroBlock
    else if q1 = "1" ∨ q1 = "-1" then
      if ¬ swap then
        zeroBlock
      else
        let c0 := c2 * (if q1 = "1" then 1 else -1)
        let constant := if c0 = 32768 then -32768 else c0
        let save_address := ["D=A", "@__aux", "M=D"]
        if DST.is_register then
          .ok (clean (save_address ++ loadConstPieces constant ++
                      ["@__aux", "A=M", DST.registers_field ++ "=D"]))
        else
          .ok (clean (save_address ++ loadConstPieces constant ++
                      ["@" ++ DST.location] ++ derefPieces DST.stars ++
                      ["M=D", "@__aux", "A=M"]))
    else if q1 = "M" ∨ q1 = "A" then
      let (a1, a2) := if swap then ("2", "1") else ("1", "2")
      finish (["D=A", "@__aux", "AM=D", "D=" ++ q1,
               "@__divresult", "M=0", "@__divarg" ++ a1, "M=D"] ++
              loadConstPieces c2 ++ ["@__divarg" ++ a2, "M=D"])
             postStd
    else if q1 = "D" then
      let (a1, a2) := if swap then ("2", "1") else ("1", "2")
      if DST.is_register ∧ regsHas DST.registers_field 'M' then
        -- macros.py 2831: the @ before __aux is missing
        finish (["M=D", "D=A", "__aux", "AM=D", "D=M",
                 "@__divresult", "M=0", "@__divarg" ++ a1, "M=D"] ++
                loadConstPieces c2 ++ ["@__divarg" ++ a2, "M=D"])
               ["@__divresult", "D=M", "@__aux", "A=M",
                DST.registers_field ++ "=D"]
      else
        finish (["@__divresult", "M=0", "@__divarg" ++ a1, "M=D"] ++
                loadConstPieces c2 ++ ["@__divarg" ++ a2, "M=D"])
               postNoRestore
    else
      .error (.pycrash "AssertionError")
  else if ARG1.is_oneop ∧ ARG2.is_address then
    let q1 := ARG1.oneop
    if q1 = "0" then
      zeroBlock
    else if q1 = "1" ∨ q1 = "-1" then
      if ¬ swap then
        zeroBlock
      else
        let sign := if q1 = "-1" then "-" else ""
        let save_address := ["D=A", "@__aux", "M=D"]
        let compute_value :=
          ["@" ++ ARG2.location] ++ derefPieces ARG2.stars ++
          ["D=" ++ sign ++ "M"]
        if DST.is_register then
          .ok (clean (save_address ++ compute_value ++
                      ["@__aux", "A=M", DST.registers_field ++ "=D"]))
        else
          .ok (clean (save_address ++ compute_value ++
                      ["@" ++ DST.location] ++ derefPieces DST.stars ++
                      ["M=D", "@__aux", "A=M"]))
    else if q1 = "M" ∨ q1 = "A" then
      let (a1, a2) := if swap then ("2", "1") else ("1", "2")
      finish (["D=A", "@__aux", "AM=D", "D=" ++ q1,
               "@__divresult", "M=0", "@__divarg" ++ a1, "M=D",
               "@" ++ ARG2.location] ++ derefPieces ARG2.stars ++
              ["D=M", "@__divarg" ++ a2, "M=D"])
             postStd
    else if q1 = "D" then
      let (a1, a2) := if swap then ("2", "1") else ("1", "2")
      if DST.is_register ∧ regsHas DST.registers_field 'M' then
        -- macros.py 2916: the @ before __aux is missing
        finish (["M=D", "D=A", "__aux", "AM=D", "D=M",
                 "@__divresult", "M=0", "@__divarg" ++ a1, "M=D",
                 "@" ++ ARG2.location] ++ derefPieces ARG2.stars ++
                ["D=M", "@__divarg" ++ a2, "M=D"])
               ["@__divresult", "D=M", "@__aux", "A=M",
                DST.registers_field ++ "=D"]
      else
        finish (["@__divresult", "M=0", "@__divarg" ++ a1, "M=D",
                 "@" ++ ARG2.location] ++ derefPieces ARG2.stars ++
                ["D=M", "@__divarg" ++ a2, "M=D"])
               postNoRestore
    else
      .error (.pycrash "AssertionError")
  else if ARG1.is_constant ∧ ARG2.is_constant then
    if ARG2.constant_field = 0 then
      .error (.pycrash "ZeroDivisionError")
    else
      let sgn : Int :=
        if (decide (ARG1.constant_field ≥ 0)) =
           (decide (ARG2.constant_field ≥ 0)) then 1 else -1
      let constant :=
        wrap16 (sgn * ((ARG1.constant_field.natAbs /
                        ARG2.constant_field.natAbs : Nat) : Int))
      let save_address := ["D=A", "@__aux", "M=D"]
      if DST.is_register then
        .ok (clean (save_address ++ loadConstPieces constant ++
                    ["@__aux", "A=M", DST.registers_field ++ "=D"]))
      else
        .ok (clean (save_address ++ loadConstPieces constant ++
                    ["@" ++ DST.location] ++ derefPieces DST.stars ++
                    ["M=D", "@__aux", "A=M"]))
  else if ARG1.is_constant ∧ ARG2.is_address then
    let (a1, a2) := if swap then ("2", "1") else ("1", "2")
    finish (["D=A", "@__aux", "M=D"] ++
            loadConstPieces ARG1.constant_field ++
            ["@__divresult", "M=0", "@__divarg" ++ a1, "M=D",
             "@" ++ ARG2.location] ++ derefPieces ARG2.stars ++
            ["D=M", "@__divarg" ++ a2, "M=D"])
           (if DST.is_register then
              ["@__divresult", "D=M", "@__aux", "A=M",
               DST.registers_field ++ "=D"]
            else
              ["@__divresult", "D=M", "@" ++ DST.location] ++
              derefPieces DST.stars ++ ["M=D", "@__aux", "A=M"])
  else
    -- address-address (the swap has normalised every other combination)
    finish (["D=A", "@__aux", "M=D",
             "@" ++ ARG1.location] ++ derefPieces ARG1.stars ++
            ["D=M", "@__divresult", "M=0", "@__divarg1", "M=D",
             "@" ++ ARG2.location] ++ derefPieces ARG2.stars ++
            ["D=M", "@__divarg2", "M=D"])
           (if DST.is_register then
              ["@__divresult", "D=M", "@__aux", "A=M",
               DST.registers_field ++ "=D"]
            else
              ["@__divresult", "D=M", "@" ++ DST.location] ++
              derefPieces DST.stars ++ ["M=D", "@__aux", "A=M"])

/-- macros.DIV.run (macros.py 2580-3050). -/
def DIV.run (arguments : List String) (p o : Nat) :
    Except MErr (List String) := do
  let _ARG1 ← argGet arguments 1
  let _ARG2 ← argGet arguments 2
  let a0 ← argGet arguments 0
  let DST ← parseDst a0 o
    "[DIV] Destinacija mora biti jedan ili više registara,ili adresa."
  let badA := "[DIV] Argument mora biti registar, konstanta, ili adresa."
  let oobA := "[DIV] Konstanta mora biti u [-32768, 32767]."
  let ARG1 ← parseArg _ARG1 o badA oobA
  let ARG2 ← parseArg _ARG2 o badA oobA
  DIV.core DST ARG1 ARG2 p o

/-- macros.POW.run, pow_check_base pieces (macros.py 3408-3419). -/
def POW.check_base (p : Nat) : List String :=
  ["@__powbase", "D=M",
   "@__powend_" ++ toString p, "D-1;JEQ",
   "@__powbaseisnegativeone_" ++ toString p, "D+1;JEQ",
   "@__powcheckexponent_" ++ toString p, "D;JNE",
   "@__powexponent", "D=M",
   "@__powend_" ++ toString p, "D;JEQ",
   "@__powresult", "M=0",
   "@__powend_" ++ toString p, "0;JMP",
   "(__powbaseisnegativeone_" ++ toString p ++ ")",
   "@__powexponent", "D=M", "@1", "D=D&A", "A=-D", "A=A-D",
   "D=A+1", "@__powresult", "M=D",
   "@__powend_" ++ toString p, "0;JMP"]

/-- macros.POW.run, pow_check_exponent pieces (macros.py 3423-3427). -/
def POW.check_exponent (p : Nat) : List String :=
  ["(__powcheckexponent_" ++ toString p ++ ")",
   "@__powexponent", "D=M",
   "@__powstart_" ++ toString p, "D;JGE",
   "@__powresult", "M=0",
   "@__powend_" ++ toString p, "0;JMP"]

/-- macros.POW.run, pow_algorithm (macros.py 3430-3438): the loop body
contains further LOOP, IF, MULT and DIV macro invocations. -/
def POW.pow_algorithm (p : Nat) : List String :=
  POW.check_base p ++ POW.check_exponent p ++
  ["(__powstart_" ++ toString p ++ ")",
   "$LOOP(@__powexponent)\x7b",
   "@__powexponent", "D=M", "@1", "D=D&A",
   "$IF(D)\x7b",
   "$MULT(@__powresult,@__powbase,@__powresult)",
   "\x7d",
   "$DIV(@__powexponent,@__powexponent,2)",
   "$MULT(@__powbase,@__powbase,@__powbase)",
   "\x7d",
   "(__powend_" ++ toString p ++ ")"]

/-- macros.POW.run body after the argument parse (macros.py 3080-3440):
early returns (some of which are further macro invocations) and errors,
or a prepow/postpow pair wrapped around pow_algorithm; `swap` records
whether the operands were reordered. -/
def POW.core (DST : Destination) (A1 A2 : Argument) (p o : Nat) :
    Except MErr (List String) :=
  let swap := swapArgs A1 A2
  let (ARG1, ARG2) := if swap then (A2, A1) else (A1, A2)
  let finish : List String → List String → Except MErr (List String) :=
    fun prepow postpow =>
      .ok (clean (prepow ++ POW.pow_algorithm p ++ postpow))
  let postStd : List String :=
    if DST.is_register then
      ["@__powresult", "D=M", "@__powaux", "A=M",
       DST.registers_field ++ "=D"]
    else
      ["@__powresult", "D=M", "@" ++ DST.location] ++
      derefPieces DST.stars ++ ["M=D", "@__powaux", "A=M"]
  let postNoRestore : List String :=
    if DST.is_register then
      ["@__powresult", "D=M", DST.registers_field ++ "=D"]
    else
      ["@__powresult", "D=M", "@" ++ DST.location] ++
      derefPieces DST.stars ++ ["M=D"]
  if ARG1.is_oneop ∧ ARG2.is_oneop then
    let q1 := ARG1.oneop
    let q2 := ARG2.oneop
    if q2 = "1" then
      .ok [""]
    else if q2 = "0" then
      .ok ["$LD(" ++ DST.repr ++ ", 1)"]
    else if q1 = "1" then
      .ok ["$LD(" ++ DST.repr ++ ", 1)"]
    else if q1 = "0" then
      .ok ["$LD(" ++ DST.repr ++ ", 0)"]
    else if (q1 = "-1" ∨ q1 = "0") ∧ q2 = "-1" then
      .ok ["$LD(" ++ DST.repr ++ ", " ++ ARG1.repr ++ ")"]
    else if q2 = "-1" then
      .ok ["$DIV(" ++ DST.repr ++ ", 1, " ++ ARG1.repr ++ ")"]
    else if q1 = "-1" ∧ q2 = "D" then
      let create_value := ["@1", "D=D&A", "D=-D", "A=D", "A=A+D", "D=A+1"]
      if DST.is_register ∧ regsHas DST.registers_field 'M' then
        -- macros.py 3109: plain (non-f) string; returned without clean
        .ok (["M=D", "D=A", "@__aux", "AM=D", "D=M"] ++ create_value ++
             ["@__aux", "A=M", "\x7bDST.registers\x7d=D"])
      else if DST.is_register then
        .ok (create_value ++ ["\x7bDST.registers\x7d=D"])
      else
        .ok (create_value ++
             (["@" ++ DST.location] ++ derefPieces DST.stars ++ ["M=D"]))
    else if q1 = "-1" then
      let save_address := ["D=A", "@__aux", "AM=D"]
      let create_value :=
        ["D=" ++ ARG2.repr, "@1", "D=D&A", "D=-D", "A=D", "A=A+D", "D=A+1"]
      if DST.is_register then
        -- macros.py 3126: plain (non-f) string; returned without clean
        .ok (save_address ++ create_value ++
             ["@__aux", "A=M", "\x7bDST.registers\x7d=D"])
      else
        .ok (save_address ++ create_value ++
             (["@" ++ DST.location] ++ derefPieces DST.stars ++ ["M=D"]) ++
             ["@__aux", "A=M"])
    else if (q1, q2) = ("A", "D") ∨ (q1, q2) = ("D", "A") then
      let (a1, a2) :=
        if q1 = "A" then ("base", "exponent") else ("exponent", "base")
      if DST.is_register ∧ regsHas DST.registers_field 'M' then
        finish ["M=D", "D=A", "@__powaux", "AM=D",
                "@__powresult", "M=1",
                "@__pow" ++ a1, "M=D",
                "A=D", "D=M",
                "@__pow" ++ a2, "M=D"]
               ["@__powresult", "D=M", "@__powaux", "A=M",
                DST.registers_field ++ "=D"]
      else
        .error (.perr "MCR" "[MULT] Nemoguća operacija" o)
    else if (q1, q2) = ("M", "D") ∨ (q1, q2) = ("D", "M") then
      .error (.perr "MCR" "[MULT] Nemoguća operacija" o)
    else if (q1, q2) = ("M", "A") ∨ (q1, q2) = ("A", "M") then
      -- macros.py 3157: the @ before __powaux is missing
      finish ["D=A", "__powaux", "AM=D",
              "D=" ++ q1,
              "@__powresult", "M=1",
              "@__powbase", "M=D",
              "@__powaux", "A=M",
              "D=" ++ q2,
              "@__powexponent", "M=D"]
             postStd
    else
      .error (.pycrash "AssertionError")
  else if ARG1.is_oneop ∧ ARG2.is_constant then
    let q1 := ARG1.oneop
    let c2 := ARG2.constant_field
    if q1 = "0" then
      .ok ["$LD(" ++ DST.repr ++ ", " ++
           (if swap then "1" else "0") ++ ")"]
    else if q1 = "1" then
      if ¬ swap then .ok ["$LD(" ++ DST.repr ++ ", 1)"] else .ok [""]
    else if q1 = "-1" then
      if ¬ swap then
        .ok ["$LD(" ++ DST.repr ++ ", " ++
             toString (-2 * (c2 % 2) + 1) ++ ")"]
      else
        .ok ["$LD(" ++ DST.repr ++ ", 0)"]
    else if q1 = "M" ∨ q1 = "A" then
      let (a1, a2) :=
        if swap then ("exponent", "base") else ("base", "exponent")
      finish (["D=A", "@__powaux", "AM=D",
               "D=" ++ q1,
               "@__powresult", "M=1",
               "@__pow" ++ a1, "M=D"] ++
              loadConstPieces c2 ++
              ["@__pow" ++ a2, "M=D"])
             postStd
    else if q1 = "D" then
      let (a1, a2) :=
        if swap then ("exponent", "base") else ("base", "exponent")
      if DST.is_register ∧ regsHas DST.registers_field 'M' then
        -- macros.py 3219: the @ before __powaux is missing
        finish (["M=D", "D=A", "__powaux", "AM=D", "D=M",
                 "@__powresult", "M=1",
                 "@__pow" ++ a1, "M=D"] ++
                loadConstPieces c2 ++
                ["@__pow" ++ a2, "M=D"])
               ["@__powresult", "D=M", "@__powaux", "A=M",
                DST.registers_field ++ "=D"]
      else
        finish (["@__powresult", "M=1",
                 "@__pow" ++ a1, "M=D"] ++
                loadConstPieces c2 ++
                ["@__pow" ++ a2, "M=D"])
               postNoRestore
    else
      .error (.pycrash "AssertionError")
  else if ARG1.is_oneop ∧ ARG2.is_address then
    let q1 := ARG1.oneop
    if q1 = "0" then
      .ok ["$LD(" ++ DST.repr ++ ", " ++
           (if swap then "1" else "0") ++ ")"]
    else if q1 = "1" then
      if ¬ swap then .ok ["$LD(" ++ DST.repr ++ ", 1)"] else .ok [""]
    else if q1 = "-1" then
      if swap then
        .ok ["$DIV(" ++ DST.repr ++ ", 1, " ++ ARG2.repr ++ ")"]
      else
        let save_address := ["D=A", "@__aux", "AM=D"]
        -- macros.py 3258: the dereference chain is prefixed with a
        -- spurious @
        let create_value :=
          ["@" ++ ARG2.location] ++
          fuse ["@"] (derefPieces ARG2.stars) ++
          ["D=M", "@1", "D=D&A", "D=-D", "A=D", "A=A+D", "D=A+1"]
        if DST.is_register then
          -- macros.py 3263: plain (non-f) string; returned without clean
          .ok (save_address ++ create_value ++
               ["@__aux", "A=M", "\x7bDST.registers\x7d=D"])
        else
          .ok (save_address ++ create_value ++
               (["@" ++ DST.location] ++ derefPieces DST.stars ++
                ["M=D"]) ++ ["@__aux", "A=M"])
    else if q1 = "M" ∨ q1 = "A" then
      let (a1, a2) :=
        if swap then ("exponent", "base") else ("base", "exponent")
      finish (["D=A", "@__powaux", "AM=D",
               "D=" ++ q1,
               "@__powresult", "M=1",
               "@__pow" ++ a1, "M=D",
               "@" ++ ARG2.location] ++ derefPieces ARG2.stars ++
              ["D=M", "@__pow" ++ a2, "M=D"])
             postStd
    else if q1 = "D" then
      let (a1, a2) :=
        if swap then ("exponent", "base") else ("base", "exponent")
      if DST.is_register ∧ regsHas DST.registers_field 'M' then
        -- macros.py 3299: the @ before __powaux is missing
        finish (["M=D", "D=A", "__powaux", "AM=D", "D=M",
                 "@__powresult", "M=1",
                 "@__pow" ++ a1, "M=D",
                 "@" ++ ARG2.location] ++ derefPieces ARG2.stars ++
                ["D=M", "@__pow" ++ a2, "M=D"])
               ["@__powresult", "D=M", "@__powaux", "A=M",
                DST.registers_field ++ "=D"]
      else
        finish (["@__powresult", "M=1",
                 "@__pow" ++ a1, "M=D",
                 "@" ++ ARG2.location] ++ derefPieces ARG2.stars ++
                ["D=M", "@__pow" ++ a2, "M=D"])
               postNoRestore
    else
      .error (.pycrash "AssertionError")
  else if ARG1.is_constant ∧ ARG2.is_constant then
    if ARG2.constant_field < 0 then
      .ok ["$LD(" ++ DST.repr ++ ", 0)"]
    else
      let constant :=
        wrap16 (ARG1.constant_field ^ ARG2.constant_field.toNat)
      let save_address := ["D=A", "@__aux", "M=D"]
      if DST.is_register then
        .ok (clean (save_address ++ loadConstPieces constant ++
                    ["@__aux", "A=M", DST.registers_field ++ "=D"]))
      else
        .ok (clean (save_address ++ loadConstPieces constant ++
                    ["@" ++ DST.location] ++ derefPieces DST.stars ++
                    ["M=D", "@__aux", "A=M"]))
  else if ARG1.is_constant ∧ ARG2.is_address then
    let (a1, a2) :=
      if swap then ("exponent", "base") else ("base", "exponent")
    finish (["D=A", "@__powaux", "M=D"] ++
            loadConstPieces ARG1.constant_field ++
            ["@__powresult", "M=1",
             "@__pow" ++ a1, "M=D",
             "@" ++ ARG2.location] ++ derefPieces ARG2.stars ++
            ["D=M", "@__pow" ++ a2, "M=D"])
           (if DST.is_register then
              ["@__powresult", "D=M", "@__powaux", "A=M",
               DST.registers_field ++ "=D"]
            else
              ["@__powresult", "D=M", "@" ++ DST.location] ++
              derefPieces DST.stars ++ ["M=D", "@__powaux", "A=M"])
  else
    -- address-address (the swap has normalised every other combination)
    finish (["D=A", "@__powaux", "M=D",
             "@" ++ ARG1.location] ++ derefPieces ARG1.stars ++
            ["D=M", "@__powresult", "M=1", "@__powbase", "M=D",
             "@" ++ ARG2.location] ++ derefPieces ARG2.stars ++
            ["D=M", "@__powexponent", "M=D"])
           (if DST.is_register then
              ["@__powresult", "D=M", "@__powaux", "A=M",
               DST.registers_field ++ "=D"]
            else
              ["@__powresult", "D=M", "@" ++ DST.location] ++
              derefPieces DST.stars ++ ["M=D", "@__powaux", "A=M"])

/-- macros.POW.run (macros.py 3055-3440). -/
def POW.run (arguments : List String) (p o : Nat) :
    Except MErr (List String) := do
  let _ARG1 ← argGet arguments 1
  let _ARG2 ← argGet arguments 2
  let a0 ← argGet arguments 0
  let DST ← parseDst a0 o
    "[POW] Destinacija mora biti jedan ili više registara,ili adresa."
  let badA := "[POW] Argument mora biti registar, konstanta, ili adresa."
  let oobA := "[POW] Konstanta mora biti u [-32768, 32767]."
  let ARG1 ← parseArg _ARG1 o badA oobA
  let ARG2 ← parseArg _ARG2 o badA oobA
  POW.core DST ARG1 ARG2 p o

/-- macros.HALT.run (macros.py 3447-3448). -/
def HALT.run (_arguments : List String) (p _o : Nat) :
    Except MErr (List String) :=
  .ok ["(__halt_" ++ toString p ++ ")", "@__halt_" ++ toString p, "0;JMP"]

/-- macros.IF.open (macros.py 3454-3480). -/
def IF.open (arguments : List String) (p o : Nat) :
    Except MErr (List String) := do
  let a0 ← argGet arguments 0
  let ARG ← parseArg a0 o
    "[IF] Argument mora biti registar, konstanta, ili adresa."
    "[IF] Konstanta mora biti u [-32768, 32767]."
  if ARG.is_register then
    return clean ["D=" ++ ARG.register_field,
                  "@__if_" ++ ARG.repr ++ "_" ++ toString p, "D;JEQ"]
  else if ARG.is_constant then
    if ARG.constant_field = 0 then
      return clean ["@__if_" ++ ARG.repr ++ "_" ++ toString p, "0;JMP"]
    else
      return [""]
  else
    return clean (["@" ++ ARG.location] ++ derefPieces ARG.stars ++
                  ["D=M", "@__if_" ++ ARG.repr ++ "_" ++ toString p,
                   "D;JEQ"])

/-- macros.IF.close (macros.py 3482-3486): the argument is re-parsed
outside any try, so a parse failure is an uncaught exception. -/
def IF.close (arguments : List String) (open_p _p o : Nat) :
    Except MErr (List String) := do
  let a0 ← argGet arguments 0
  match Argument.parse a0 with
  | .error _ => throw (.pycrash "BadArgument")
  | .ok ARG =>
    if ARG.is_constant ∧ ARG.constant_field ≠ 0 then
      return [""]
    else
      return ["(__if_" ++ ARG.repr ++ "_" ++ toString open_p ++ ")"]

/-- macros.IFN.open (macros.py 3492-3518). -/
def IFN.open (arguments : List String) (p o : Nat) :
    Except MErr (List String) := do
  let a0 ← argGet arguments 0
  let ARG ← parseArg a0 o
    "[IFN] Argument mora biti registar, konstanta, ili adresa."
    "[IFN] Konstanta mora biti u [-32768, 32767]."
  if ARG.is_register then
    return clean ["D=" ++ ARG.register_field,
                  "@__ifn_" ++ ARG.repr ++ "_" ++ toString p, "D;JNE"]
  else if ARG.is_constant then
    if ARG.constant_field ≠ 0 then
      return clean ["@__ifn_" ++ ARG.repr ++ "_" ++ toString p, "0;JMP"]
    else
      return [""]
  else
    return clean (["@" ++ ARG.location] ++ derefPieces ARG.stars ++
                  ["D=M", "@__ifn_" ++ ARG.repr ++ "_" ++ toString p,
                   "D;JNE"])

/-- macros.IFN.close (macros.py 3520-3524). -/
def IFN.close (arguments : List String) (open_p _p o : Nat) :
    Except MErr (List String) := do
  let a0 ← argGet arguments 0
  match Argument.parse a0 with
  | .error _ => throw (.pycrash "BadArgument")
  | .ok ARG =>
    if ARG.is_constant ∧ ARG.constant_field = 0 then
      return [""]
    else
      return ["(__ifn_" ++ ARG.repr ++ "_" ++ toString open_p ++ ")"]

/-- macros.LOOP.open (macros.py 3531-3564). -/
def LOOP.open (arguments : List String) (p o : Nat) :
    Except MErr (List String) := do
  let a0 ← argGet arguments 0
  let ARG ← parseArg a0 o
    "[LOOP] Argument mora biti registar, konstanta, ili adresa."
    "[LOOP] Konstanta mora biti u [-32768, 32767]."
  let var_start := "__loop_" ++ ARG.repr ++ "_" ++ toString p ++ "_start"
  let var_after := "__loop_" ++ ARG.repr ++ "_" ++ toString p ++ "_after"
  if ARG.is_register then
    return clean ["D=" ++ ARG.register_field, "@" ++ var_after, "D;JEQ",
                  "(" ++ var_start ++ ")"]
  else if ARG.is_address then
    return clean (["@" ++ ARG.location] ++ derefPieces ARG.stars ++
                  ["D=M", "@" ++ var_after, "D;JEQ",
                   "(" ++ var_start ++ ")"])
  else if ARG.constant_field = 0 then
    return ["@" ++ var_after, "0;JMP"]
  else
    return ["(" ++ var_start ++ ")"]

/-- macros.LOOP.close (macros.py 3567-3589). -/
def LOOP.close (arguments : List String) (open_p _p o : Nat) :
    Except MErr (List String) := do
  let a0 ← argGet arguments 0
  match Argument.parse a0 with
  | .error _ => throw (.pycrash "BadArgument")
  | .ok ARG =>
    let var_start :=
      "__loop_" ++ ARG.repr ++ "_" ++ toString open_p ++ "_start"
    let var_after :=
      "__loop_" ++ ARG.repr ++ "_" ++ toString open_p ++ "_after"
    if ARG.is_register then
      return clean ["D=" ++ ARG.register_field, "@" ++ var_start, "D;JNE",
                    "(" ++ var_after ++ ")"]
    else if ARG.is_address then
      return clean (["@" ++ ARG.location] ++ derefPieces ARG.stars ++
                    ["D=M", "@" ++ var_start, "D;JNE",
                     "(" ++ var_after ++ ")"])
    else if ARG.constant_field = 0 then
      return ["(" ++ var_after ++ ")"]
    else
      return clean ["@" ++ var_start, "0;JMP"]

def startsDollar (s : String) : Bool := s.data.head? = some '$'

def lineBlank (s : String) : Bool := s.data.all Char.isWhitespace

/-- Modelled from the spec: the three syntactic body-forms of a macro
invocation line (section 3 of the spec): plain, block-opening with a
trailing brace, and immediate open-plus-close with a trailing brace
pair. -/
inductive BraceKind where
  | plain
  | openBrace
  | openClose
deriving DecidableEq, Repr

/-- Modelled from the spec: split the text between the parentheses of a
macro invocation into comma-separated, whitespace-stripped arguments. -/
def splitMacroArgs (inner : List Char) : List String :=
  if inner.all Char.isWhitespace then []
  else (splitChar ',' inner).map (fun t => String.mk (stripChars t))

/-- Modelled from the spec: recognise a macro invocation line
`$NAME(args)`, `$NAME(args){` or `$NAME(args){}`. -/
def parseCall (l : List Char) : Option (String × List String × BraceKind) :=
  match l with
  | '$' :: rest =>
    let name := rest.takeWhile (fun c => c ≠ '(')
    match rest.dropWhile (fun c => c ≠ '(') with
    | '(' :: innerPlus =>
      match innerPlus.reverse with
      | '}' :: '{' :: ')' :: irev =>
        some (String.mk name, splitMacroArgs irev.reverse, .openClose)
      | '{' :: ')' :: irev =>
        some (String.mk name, splitMacroArgs irev.reverse, .openBrace)
      | ')' :: irev =>
        some (String.mk name, splitMacroArgs irev.reverse, .plain)
      | _ => none
    | _ => none
  | _ => none

def isBlockName (n : String) : Bool := n = "IF" ∨ n = "IFN" ∨ n = "LOOP"

/-- Modelled from the spec: the simple-macro catalog dispatch (section
4.2), mapping each macro name to the expander embedded above from
src/macros.py. -/
def runSimple (name : String) (args : List String) (p o : Nat) :
    Except MErr (List String) :=
  if name = "LD" then LD.run args p o
  else if name = "ADD" then ADD.run args p o
  else if name = "SUB" then SUB.run args p o
  else if name = "SWAP" then SWAP.run args p o
  else if name = "AND" then AND.run args p o
  else if name = "OR" then OR.run args p o
  else if name = "XOR" then XOR.run args p o
  else if name = "NOT" then NOT.run args p o
  else if name = "MULT" then MULT.run args p o
  else if name = "DIV" then DIV.run args p o
  else if name = "POW" then POW.run args p o
  else if name = "HALT" then HALT.run args p o
  else .error (.perr "MCR" "Nepoznat macro" o)

/-- Modelled from the spec: the block-macro open dispatch. -/
def openBlockM (name : String) (args : List String) (p o : Nat) :
    Except MErr (List String) :=
  if name = "IF" then IF.open args p o
  else if name = "IFN" then IFN.open args p o
  else LOOP.open args p o

/-- Modelled from the spec: the block-macro close dispatch; `open_p` is
the expansion index remembered from the matching open. -/
def closeBlockM (name : String) (args : List String) (open_p p o : Nat) :
    Except MErr (List String) :=
  if name = "IF" then IF.close args open_p p o
  else if name = "IFN" then IFN.close args open_p p o
  else LOOP.close args open_p p o

/-- Modelled from the spec: one entry of the semantic block stack
(section 4.5) — the macro's name and arguments, the expansion index from
its open, and whether the block was opened without braces (implicit
single-statement body). -/
structure OpenBlock where
  name : String
  args : List String
  open_p : Nat
  implicit : Bool
deriving DecidableEq, Repr

/-- Modelled from the spec: close every implicit block on top of the
stack once a complete statement has been processed (section 4.5: a block
macro without braces is closed immediately after the next non-block
line). -/
def closeImplicit : List OpenBlock → Nat → Nat →
    Except MErr (List String × List OpenBlock × Nat)
  | [], p, _ => .ok ([], [], p)
  | b :: rest, p, i =>
    if b.implicit then do
      let pieces ← closeBlockM b.name b.args b.open_p p i
      let keep := pieces.filter (fun x => ¬ lineBlank x)
      let (outR, st, p2) ← closeImplicit rest (p + keep.length) i
      return (keep ++ outR, st, p2)
    else .ok ([], b :: rest, p)

/-- Modelled from the spec: one macro-expansion pass over the line list
(sections 4.3 and 4.5). Each line is either a close brace (pop the
block stack and emit the close), a macro invocation (dispatch by name
and body-form), or an ordinary line kept as-is; blank pieces are
filtered out and `p` tracks the current index in the new list. -/
def expandGo : List String → List OpenBlock → Nat → Nat →
    Except MErr (List String)
  | [], stack, _, i =>
    match stack with
    | [] => .ok []
    | _ :: _ => .error (.perr "MCR" "Neuravnotežen blok" i)
  | l :: rest, stack, p, i =>
    if l = "\x7d" then
      match stack with
      | [] => .error (.perr "MCR" "Neuravnotežen blok" i)
      | b :: stack2 => do
        let pieces ← closeBlockM b.name b.args b.open_p p i
        let keep := pieces.filter (fun x => ¬ lineBlank x)
        let (moreClose, stack3, p2) ← closeImplicit stack2 (p + keep.length) i
        let out ← expandGo rest stack3 p2 (i + 1)
        return keep ++ moreClose ++ out
    else if startsDollar l then
      match parseCall l.data with
      | none => .error (.perr "MCR" "Loša sintaksa macroa" i)
      | some (name, args, kind) =>
        match kind with
        | .plain =>
          if isBlockName name then do
            let pieces ← openBlockM name args p i
            let keep := pieces.filter (fun x => ¬ lineBlank x)
            let out ← expandGo rest (⟨name, args, p, true⟩ :: stack)
                        (p + keep.length) (i + 1)
            return keep ++ out
          else do
            let pieces ← runSimple name args p i
            let keep := pieces.filter (fun x => ¬ lineBlank x)
            let (moreClose, stack2, p2) ←
              closeImplicit stack (p + keep.length) i
            let out ← expandGo rest stack2 p2 (i + 1)
            return keep ++ moreClose ++ out
        | .openBrace =>
          if isBlockName name then do
            let pieces ← openBlockM name args p i
            let keep := pieces.filter (fun x => ¬ lineBlank x)
            let out ← expandGo rest (⟨name, args, p, false⟩ :: stack)
                        (p + keep.length) (i + 1)
            return keep ++ out
          else .error (.perr "MCR" "Loša sintaksa macroa" i)
        | .openClose =>
          if isBlockName name then do
            let op ← openBlockM name args p i
            let keepO := op.filter (fun x => ¬ lineBlank x)
            let cl ← closeBlockM name args p (p + keepO.length) i
            let keepC := cl.filter (fun x => ¬ lineBlank x)
            let (moreClose, stack2, p2) ←
              closeImplicit stack (p + keepO.length + keepC.length) i
            let out ← expandGo rest stack2 p2 (i + 1)
            return keepO ++ keepC ++ moreClose ++ out
          else .error (.perr "MCR" "Loša sintaksa macroa" i)
    else do
      let keep := if lineBlank l then [] else [l]
      let (moreClose, stack2, p2) ← closeImplicit stack (p + keep.length) i
      let out ← expandGo rest stack2 p2 (i + 1)
      return keep ++ out

/-- Modelled from the spec: one full expansion pass starting with an
empty block stack and index 0. -/
def expandPass (lines : List String) : Except MErr (List String) :=
  expandGo lines [] 0 0

/-- Modelled from the spec: the macro-expansion stage (sections 2 and
4.3) — the expansion pass is iterated repeatedly until no line starts
with a dollar sign; the fuel bound stands in for Python's recursion
limit and is irrelevant on terminating inputs. -/
def parse_macros : Nat → List String → Except MErr (List String)
  | 0, _ => .error (.pycrash "RecursionError")
  | fuel + 1, lines =>
    if lines.any startsDollar then do
      let lines2 ← expandPass lines
      parse_macros fuel lines2
    else .ok lines

/-- Claim C1: the macro-expansion stage iterates the expansion pass
until no line of the program begins with a dollar sign, so whenever it
completes successfully, no line of its output begins with one — in
particular for programs whose expansions themselves contain macro
invocations, as POW's does. -/
theorem C1_macro_fixpoint (fuel : Nat) (prog out : List String)
    (h : parse_macros fuel prog = .ok out) :
    ∀ l ∈ out, startsDollar l = false := by
  induction fuel generalizing prog with
  | zero => rw [parse_macros] at h; cases h
  | succ n ih =>
    rw [parse_macros] at h
    by_cases hs : prog.any startsDollar = true
    · rw [if_pos hs] at h
      match hE : expandPass prog with
      | .error e => rw [hE] at h; simp [Bind.bind, Except.bind] at h
      | .ok l2 =>
        rw [hE] at h
        simp only [Bind.bind, Except.bind] at h
        exact ih l2 h
    · rw [if_neg hs] at h
      injection h with h1
      subst h1
      intro l hl
      cases hb : startsDollar l with
      | false => rfl
      | true => exact absurd (List.any_eq_true.mpr ⟨l, hl, hb⟩) hs

/-- The C1 witness program: a POW invocation whose operands force the
general square-and-multiply expansion, which emits further LOOP, IF,
MULT and DIV invocations. -/
def C1wProg : List String := ["$POW(M, @b, @e)"]

/-- The witness program after one expansion pass. -/
def C1wMid : List String :=
  match expandPass C1wProg with
  | .ok ls => ls
  | .error _ => []

/-- The witness program after macro expansion completes. -/
def C1wOut : List String :=
  match parse_macros 4 C1wProg with
  | .ok ls => ls
  | .error _ => []

set_option maxRecDepth 100000 in
set_option maxHeartbeats 2000000 in
theorem C1_macro_fixpoint_witness :
    expandPass C1wProg = .ok C1wMid ∧
    C1wMid.any startsDollar = true ∧
    parse_macros 4 C1wProg = .ok C1wOut ∧
    ∀ l ∈ C1wOut, startsDollar l = false :=
  ⟨rfl, rfl, rfl, C1_macro_fixpoint 4 C1wProg C1wOut rfl⟩

end MorasAsm
